import Mathlib

/-!
SCSI-over-PCIe (SOP) driver: PQI queue engine.

A shallow embedding of the ring-queue, request-pool, submission,
scatter/gather, completion and admin set-up code of `src/scsi/sop.c`, followed
by theorems about it.

Conventions of the embedding:

* machine integers are `Nat`/`Int`; a store into a `u16`/`u32` object is an
  explicit reduction modulo `2^16`/`2^32`;
* DMA memory and buffers are lists of bytes (`List Nat`), a pointer into a
  buffer is a byte offset from its start;
* the host is little-endian, so `le16_to_cpu`/`cpu_to_le16` are the identity on
  the numeric value of a field;
* the device-written words (consumer/producer index in host memory, the
  signature register) are fields of the queue record: one call of a driver
  function sees the values stored there.
-/

namespace Sop

/-! ## Constants -/

deriving instance DecidableEq for Except

/-- Value of `ENOMEM` (errno). -/
def ENOMEM : Int := 12

/-- Value of `EBUSY` (errno). -/
def EBUSY : Int := 16

/-- Store of a C `int` value into a `u16` object. -/
def to_u16 (x : Int) : Nat := (x % 65536).toNat

/-- Value conversion of a C `int` to `unsigned int` / `u32`. -/
def to_u32 (x : Int) : Int := x % 4294967296

/-! ## Byte memory -/

/-- The call `memset(mem + off, c, len)`: bytes `off .. off+len-1` of `mem` become `c`.
Bytes that would fall outside the modelled buffer are not tracked. -/
def memset (mem : List Nat) (off : Nat) (c : Nat) (len : Nat) : List Nat :=
  mem.mapIdx (fun i b => if off ≤ i ∧ i < off + len then c else b)

/-- The call `memcpy(dst + doff, src + soff, len)`: bytes `doff .. doff+len-1` of `dst`
become bytes `soff ..` of `src`.  Bytes that would fall outside the modelled
destination are not tracked; a source byte outside `src` reads as 0. -/
def memcpy (dst : List Nat) (doff : Nat) (src : List Nat) (soff : Nat) (len : Nat) :
    List Nat :=
  dst.mapIdx (fun i b => if doff ≤ i ∧ i < doff + len then src.getD (soff + (i - doff)) 0 else b)

/-- Little-endian 16-bit load `*(u16 *) (mem + off)`. -/
def load_le16 (mem : List Nat) (off : Nat) : Nat :=
  mem.getD off 0 % 256 + 256 * (mem.getD (off + 1) 0 % 256)

/-! ## MMIO accessors (`check_for_read_failure`, `safe_readw`) -/

/-- Source function `check_for_read_failure(sig)`: `signature` is the value `readq(sig)` returns. -/
def check_for_read_failure (signature : Nat) : Bool :=
  signature == 0xffffffffffffffff

/-- Source function `safe_readw(sig, value, addr)`: `raw` is the value `readw(addr)` returns.
The result is the return code together with `*value`. -/
def safe_readw (signature : Nat) (raw : Nat) : Int × Nat :=
  let value := raw % 65536
  if value = 0xffff then
    if check_for_read_failure signature then (-1, value) else (0, value)
  else (0, value)

/-! ## `struct pqi_device_queue` -/

/-- One directional ring (`struct pqi_device_queue`).

* `vaddr`: the element array, `nelements * element_size` bytes;
* `signature`: what `readq(&q->registers->signature)` returns;
* `index_mem`: the device-written index word in host memory
  (`index.to_dev.ci` of a to-device queue, `index.from_dev.pi` of a
  from-device queue);
* `index_reg`: the device register the host writes
  (`index.to_dev.pi`, resp. `index.from_dev.ci`);
* `cur_req`: `q->cur_req`, the slot (index into `qinfo->request`) whose response
  is being accumulated, `none` for `NULL`. -/
structure pqi_device_queue where
  vaddr : List Nat
  nelements : Nat
  element_size : Nat
  unposted_index : Nat
  local_pi : Nat
  signature : Nat
  index_mem : Nat
  index_reg : Nat
  cur_req : Option Nat
  deriving DecidableEq, Repr

/-- Source function `pqi_device_queue_init`: `q->unposted_index = 0; *volatile_index = 0;`. -/
def pqi_device_queue_init (q : pqi_device_queue) : pqi_device_queue :=
  { q with unposted_index := 0, index_mem := 0 }

/-- Source function `pqi_to_device_queue_is_full(q, nelements)`; the result is the C `int`. -/
def pqi_to_device_queue_is_full (q : pqi_device_queue) (nelements : Int) : Int :=
  let (rc, qci) := safe_readw q.signature q.index_mem
  if rc ≠ 0 then 0
  else
    let nfree : Int :=
      if q.unposted_index > qci then
        to_u32 ((q.nelements : Int) - q.unposted_index + qci - 1)
      else if q.unposted_index < qci then
        to_u32 ((qci : Int) - q.unposted_index - 1)
      else
        to_u32 q.nelements
    if nfree < to_u32 nelements then 1 else 0

/-- Source function `pqi_from_device_queue_is_empty(q)`; the result is the C `int`. -/
def pqi_from_device_queue_is_empty (q : pqi_device_queue) : Int :=
  let (rc, qpi) := safe_readw q.signature q.index_mem
  if rc ≠ 0 then 0
  else if qpi = q.unposted_index then 1 else 0

/-- Source function `pqi_alloc_elements(q, nelements)`.  The result pairs the returned pointer
(`.ok p` with `p` the byte offset from `q->vaddr`, or `.error e` for
`ERR_PTR(e)`) with the queue after the call. -/
def pqi_alloc_elements (q : pqi_device_queue) (nelements : Int) :
    Except Int Nat × pqi_device_queue :=
  if pqi_to_device_queue_is_full q nelements ≠ 0 then
    (.error (-ENOMEM), q)
  else if (q.nelements : Int) - q.unposted_index < nelements then
    let extra_elements : Int := (q.nelements : Int) - q.unposted_index
    if pqi_to_device_queue_is_full q (nelements + extra_elements) ≠ 0 then
      (.error (-ENOMEM), q)
    else
      let p := q.unposted_index * q.element_size
      let q1 : pqi_device_queue :=
        { q with
          vaddr := memset q.vaddr p 0 ((q.nelements - q.unposted_index) * q.element_size)
          unposted_index := 0 }
      let p := q1.unposted_index * q1.element_size
      (.ok p,
        { q1 with
          unposted_index :=
            to_u16 (Int.tmod ((q1.unposted_index : Int) + nelements) q1.nelements) })
  else
    let p := q.unposted_index * q.element_size
    (.ok p,
      { q with
        unposted_index :=
          to_u16 (Int.tmod ((q.unposted_index : Int) + nelements) q.nelements) })

/-- Source function `pqi_dequeue_from_device(q, element)`.  The destination `element` is the
byte offset `doff` into the buffer `dst`; `PQI_QUEUE_EMPTY` is the constant of
that name (declared in `sop.h`).  The result is the return code, the
destination buffer and the queue after the call. -/
def pqi_dequeue_from_device (PQI_QUEUE_EMPTY : Int) (q : pqi_device_queue)
    (dst : List Nat) (doff : Nat) : Int × List Nat × pqi_device_queue :=
  if pqi_from_device_queue_is_empty q ≠ 0 then
    (PQI_QUEUE_EMPTY, dst, q)
  else
    let p := q.unposted_index * q.element_size
    (0, memcpy dst doff q.vaddr p q.element_size,
      { q with unposted_index := to_u16 (Int.tmod ((q.unposted_index : Int) + 1) q.nelements) })

/-- Source function `pqi_peek_ui_type_from_device(q)`. -/
def pqi_peek_ui_type_from_device (q : pqi_device_queue) : Nat :=
  q.vaddr.getD (q.unposted_index * q.element_size) 0 % 256

/-- Source function `pqi_peek_request_id_from_device(q)`. -/
def pqi_peek_request_id_from_device (q : pqi_device_queue) : Nat :=
  load_le16 q.vaddr (q.unposted_index * q.element_size + 8)

/-- Source function `pqi_notify_device_queue_read(q)`: `writew(q->unposted_index, q->index.from_dev.ci)`. -/
def pqi_notify_device_queue_read (q : pqi_device_queue) : pqi_device_queue :=
  { q with index_reg := q.unposted_index }

/-! ## Request-slot pool (`alloc_request`, `free_request`) -/

/-- Kernel bitmap function `find_first_zero_bit(addr, size)`: the index
of the first clear bit among bits `0 .. size-1`, and `size` when there is none.
Bit `i` of the bitmap is `addr[i]`. -/
def find_first_zero_bit (addr : List Bool) (size : Nat) : Nat :=
  ((List.range size).find? (fun i => !(addr.getD i false))).getD size

/-- Kernel bitmap function `test_and_set_bit(nr, addr)`: the old value of bit `nr`, and the bitmap
with bit `nr` set. -/
def test_and_set_bit (nr : Nat) (addr : List Bool) : Bool × List Bool :=
  (addr.getD nr false, addr.set nr true)

/-- Kernel bitmap function `clear_bit(nr, addr)`. -/
def clear_bit (nr : Nat) (addr : List Bool) : List Bool :=
  addr.set nr false

/-- Modelled from the spec: `struct sop_request` is declared in `sop.h`, which
is not part of the sources; the fields are those the code of `sop.c` uses and
spec section 3 ("Request slot") lists: optional waiter handle, optional
upper-command handle, cached transfer size, `response_accumulated` byte
counter, `request_id`, and the `response` buffer. -/
structure sop_request where
  waiting : Option Nat
  scmd : Option Nat
  xfer_size : Nat
  response_accumulated : Nat
  request_id : Nat
  response : List Nat
  deriving DecidableEq, Repr

/-- One scatter/gather descriptor (`struct pqi_sgl_descriptor`, 16 bytes by
the `BUILD_BUG_ON` of `fill_inline_sg_list`): the fields the driver writes. -/
structure pqi_sgl_descriptor where
  address : Nat
  length : Nat
  descriptor_type : Nat
  deriving DecidableEq, Repr

/-- The fields of `struct queue_info` used by the request pool, the
submission and the completion path: the two rings, the declared depth, the
request bitmap (`request_bits`, bit `i` is `request_bits[i]`), the request
slots, and the scatter/gather overflow area `sg` (an array of descriptors)
with its bus address `sg_bus_addr`. -/
structure queue_info where
  iq : pqi_device_queue
  oq : pqi_device_queue
  qdepth : Nat
  request_bits : List Bool
  request : List sop_request
  sg : List pqi_sgl_descriptor
  sg_bus_addr : Nat
  deriving DecidableEq, Repr

/-- What the completion path signals to the outside: `scmd->scsi_done(scmd)`
run by `complete_scsi_cmd` for a slot, or `complete(r->waiting)` for a slot. -/
inductive sop_event where
  | scsi_done (slot : Nat)
  | complete_waiting (slot : Nat)
  deriving DecidableEq, Repr

/-- The device-wide fields of `struct sop_device` used here, and the list of
completions signalled so far (`signalled`, oldest first). -/
structure sop_device where
  elements_per_io_queue : Nat
  curr_outstanding_commands : Int
  max_outstanding_commands : Int
  nr_queue_pairs : Int
  signalled : List sop_event
  deriving DecidableEq, Repr

/-- The `do ... while (test_and_set_bit(...))` loop of `alloc_request`, run for
at most `fuel` iterations (`none` when the fuel runs out).  The result is the
returned `int` and the pool after the call. -/
def alloc_request_loop : Nat → queue_info → Option (Int × queue_info)
  | 0, _ => none
  | fuel + 1, qinfo =>
    let rc : Int := to_u16 (find_first_zero_bit qinfo.request_bits qinfo.qdepth)
    if rc ≥ (qinfo.qdepth : Int) - 1 then
      some (-EBUSY, qinfo)
    else
      match test_and_set_bit rc.toNat qinfo.request_bits with
      | (true, bits) => alloc_request_loop fuel { qinfo with request_bits := bits }
      | (false, bits) => some (rc, { qinfo with request_bits := bits })

/-- Source function `alloc_request(h, queue_pair_index)` with `qinfo = &h->qinfo[queue_pair_index]`.
`none` stands for a call that does not return: `BUG_ON` fires, or the loop is
still running after `fuel` iterations. -/
def alloc_request (fuel : Nat) (h : sop_device) (qinfo : queue_info) :
    Option (Int × queue_info) :=
  if qinfo.qdepth > h.elements_per_io_queue then none
  else alloc_request_loop fuel qinfo

/-- Source function `free_request(h, queue_pair_index, request_id)` with
`qinfo = &h->qinfo[queue_pair_index]`; `none` when `BUG_ON` fires. -/
def free_request (qinfo : queue_info) (request_id : Nat) : Option queue_info :=
  if request_id ≥ qinfo.qdepth then none
  else some { qinfo with request_bits := clear_bit request_id qinfo.request_bits }

/-- Source function `free_request(h, queue_pair_index, request_id)` on the array
`qinfo = h->qinfo[]`, with `queue_pair_index` converted to the `u8` parameter.
An entry of the array that was never set up has `qdepth = 0` (the device
record comes from `kzalloc`), so that `BUG_ON` fires for it.  `none` when the
pair lies outside the array or `BUG_ON` fires. -/
def free_request_at (qinfo : List queue_info) (queue_pair_index request_id : Nat) :
    Option (List queue_info) :=
  match qinfo[queue_pair_index % 256]? with
  | none => none
  | some q =>
    match free_request q request_id with
    | none => none
    | some q1 => some (qinfo.set (queue_pair_index % 256) q1)

/-- Modelled from the spec: `qpindex_to_qid(queue_pair_index, to_device)` is
declared in `sop.h`, which is not part of the sources.  Spec section 3
("DeviceQueue") gives the queue ID as `2 * pair_index + direction_bit`; the
direction bit is the second argument, which `pqi_device_queue_alloc` passes as
`queue_direction == PQI_DIR_TO_DEVICE`. -/
def qpindex_to_qid (queue_pair_index : Nat) (to_device : Bool) : Nat :=
  2 * queue_pair_index + (if to_device then 1 else 0)

/-- The free-slot count of a to-device ring in the words of the spec (section
4.1): `N - ((unposted - device_index) mod N) - 1`, one slot being reserved so
that a full ring differs from an empty one. -/
def spec_free_slots (N u c : Nat) : Int :=
  (N : Int) - (((u : Int) - c) % N) - 1

/-! ## Completion path (`sop_response_accumulated`, `sop_ioq_msix_handler`) -/

/-- Source function `sop_response_accumulated(r)`; the result is the C `int`. -/
def sop_response_accumulated (r : sop_request) : Int :=
  if r.response_accumulated = 0 then 0
  else
    let iu_length : Nat := to_u16 ((load_le16 r.response 2 : Int) + 4)
    if r.response_accumulated ≥ iu_length then 1 else 0

/-- The part of `complete_scsi_cmd(h, qinfo, r)` that acts on the driver state,
for the slot `r = &qinfo->request[slot]`: `free_request` of `r->request_id`
and the `scmd->scsi_done(scmd)` notification.  (The decoding of the response
into `scmd->result` and the residual does not touch the queue pair.)
`none` when the slot is outside the request array or `BUG_ON` fires. -/
def complete_scsi_cmd (h : sop_device) (qinfo : queue_info) (slot : Nat) :
    Option (sop_device × queue_info) :=
  match qinfo.request[slot]? with
  | none => none
  | some r =>
    match free_request qinfo r.request_id with
    | none => none
    | some qinfo1 => some ({ h with signalled := h.signalled ++ [.scsi_done slot] }, qinfo1)

/-- The `if (r == NULL) { ... }` block of the loop body of
`sop_ioq_msix_handler`: the slot `r` the next element belongs to (as an index
into `q->request`) and the queue pair after the block.  When no request is
current, the request id is peeked from the head element, the slot becomes the
current request and its `request_id` and `response_accumulated` are set.
`none` when the peeked id lies outside the request array. -/
def sop_ioq_msix_handler_current (q : queue_info) : Option (Nat × queue_info) :=
  match q.oq.cur_req with
  | some slot => some (slot, q)
  | none =>
    let request_id := pqi_peek_request_id_from_device q.oq
    match q.request[request_id]? with
    | none => none
    | some r0 =>
      some (request_id,
        { q with
          oq := { q.oq with cur_req := some request_id }
          request := q.request.set request_id
            { r0 with request_id := request_id, response_accumulated := 0 } })

/-- The rest of the loop body of `sop_ioq_msix_handler` for the slot `r`
(index `slot`): dequeue one element into `r->response` at
`r->response_accumulated`, add `element_size`, and when
`sop_response_accumulated(r)` holds clear the current request, signal the
completion, write the consumer index and decrement the outstanding counter;
then evaluate the loop condition.  `none` when the slot lies outside the
request array or `BUG_ON` fires; otherwise the flag tells whether the loop
goes on (`true`) or the handler returns (`false`). -/
def sop_ioq_msix_handler_accumulate (PQI_QUEUE_EMPTY : Int) (h : sop_device)
    (q1 : queue_info) (slot : Nat) : Option (Bool × sop_device × queue_info) :=
  match q1.request[slot]? with
  | none => none
  | some r =>
    let (rc, response, oq) :=
      pqi_dequeue_from_device PQI_QUEUE_EMPTY q1.oq r.response r.response_accumulated
    if rc ≠ 0 then
      some (false, h, q1)
    else
      let r1 : sop_request :=
        { r with
          response := response
          response_accumulated := r.response_accumulated + oq.element_size }
      let q2 : queue_info := { q1 with oq := oq, request := q1.request.set slot r1 }
      if sop_response_accumulated r1 ≠ 0 then
        let q3 : queue_info := { q2 with oq := { q2.oq with cur_req := none } }
        let signal : Option (sop_device × queue_info) :=
          if r1.scmd.isSome then complete_scsi_cmd h q3 slot
          else if r1.waiting.isSome then
            some ({ h with signalled := h.signalled ++ [.complete_waiting slot] }, q3)
          else some (h, q3)
        match signal with
        | none => none
        | some (h1, q4) =>
          let q5 : queue_info := { q4 with oq := pqi_notify_device_queue_read q4.oq }
          let h2 : sop_device :=
            { h1 with curr_outstanding_commands := h1.curr_outstanding_commands - 1 }
          some (decide (pqi_from_device_queue_is_empty q5.oq = 0), h2, q5)
      else
        some (decide (pqi_from_device_queue_is_empty q2.oq = 0), h, q2)

/-- One pass through the body of the `do ... while` loop of
`sop_ioq_msix_handler`, followed by the evaluation of the loop condition:
leave the loop when the outbound queue is empty, otherwise determine the
current request and accumulate one element. -/
def sop_ioq_msix_handler_body (PQI_QUEUE_EMPTY : Int) (h : sop_device) (q : queue_info) :
    Option (Bool × sop_device × queue_info) :=
  if pqi_from_device_queue_is_empty q.oq ≠ 0 then
    some (false, h, q)
  else
    match sop_ioq_msix_handler_current q with
    | none => none
    | some (slot, q1) => sop_ioq_msix_handler_accumulate PQI_QUEUE_EMPTY h q1 slot

/-- Source function `sop_ioq_msix_handler` for the queue pair `q`: the loop body is repeated
while the loop condition holds, for at most `fuel` passes (`none` when the
fuel runs out or a pass faults). -/
def sop_ioq_msix_handler (PQI_QUEUE_EMPTY : Int) :
    Nat → sop_device → queue_info → Option (sop_device × queue_info)
  | 0, _, _ => none
  | fuel + 1, h, q =>
    match sop_ioq_msix_handler_body PQI_QUEUE_EMPTY h q with
    | none => none
    | some (true, h1, q1) => sop_ioq_msix_handler PQI_QUEUE_EMPTY fuel h1 q1
    | some (false, h1, q1) => some (h1, q1)

/-- Host byte `DID_OK` (kernel header `scsi/scsi.h`). -/
def DID_OK : Nat := 0x00

/-- Host byte `DID_NO_CONNECT` (kernel header `scsi/scsi.h`). -/
def DID_NO_CONNECT : Nat := 0x01

/-- Host byte `DID_ERROR` (kernel header `scsi/scsi.h`). -/
def DID_ERROR : Nat := 0x07

/-- Message byte `COMMAND_COMPLETE` (kernel header `scsi/scsi.h`). -/
def COMMAND_COMPLETE : Nat := 0x00

/-- Return code `SCSI_MLQUEUE_HOST_BUSY` (kernel header `scsi/scsi.h`). -/
def SCSI_MLQUEUE_HOST_BUSY : Int := 0x1055

/-- Error-handler return code `SUCCESS` (kernel header `scsi/scsi.h`). -/
def SUCCESS : Int := 0x2002

/-- Error-handler return code `FAILED` (kernel header `scsi/scsi.h`). -/
def FAILED : Int := 0x2003

/-- Size of the sense buffer of a command (kernel header `scsi/scsi_cmnd.h`). -/
def SCSI_SENSE_BUFFERSIZE : Nat := 96

/-- Data direction `DMA_BIDIRECTIONAL` (kernel `enum dma_data_direction`). -/
def DMA_BIDIRECTIONAL : Nat := 0

/-- Data direction `DMA_TO_DEVICE` (kernel `enum dma_data_direction`). -/
def DMA_TO_DEVICE : Nat := 1

/-- Data direction `DMA_FROM_DEVICE` (kernel `enum dma_data_direction`). -/
def DMA_FROM_DEVICE : Nat := 2

/-- Data direction `DMA_NONE` (kernel `enum dma_data_direction`). -/
def DMA_NONE : Nat := 3

/-- The macro `host_byte(result)` of the kernel: bits 16..23 of a command
result. -/
def host_byte (result : Nat) : Nat := (result >>> 16) &&& 0xff

/-- Value conversion of a `u32` (or any integer) to a C `int`. -/
def to_s32 (x : Int) : Int :=
  if x % 4294967296 < 2147483648 then x % 4294967296 else x % 4294967296 - 4294967296

/-- The constants that `sop.c` takes from `sop.h`, which is not part of the
sources: the scatter/gather bound and descriptor type tags, the IU type and
data-direction codes of the command IU, the response IU types, the "good"
management result and the task-management response codes that count as
success.  The functions below take them as a parameter. -/
structure sop_h where
  MAX_SGLS : Nat
  PQI_SGL_DATA_BLOCK : Nat
  PQI_SGL_STANDARD_LAST_SEG : Nat
  SOP_LIMITED_CMD_IU : Nat
  SOP_DATA_DIR_TO_DEVICE : Nat
  SOP_DATA_DIR_FROM_DEVICE : Nat
  SOP_DATA_DIR_NONE : Nat
  SOP_DATA_DIR_RESERVED : Nat
  SOP_RESPONSE_CMD_SUCCESS_IU_TYPE : Nat
  SOP_RESPONSE_CMD_RESPONSE_IU_TYPE : Nat
  SOP_RESPONSE_TASK_MGMT_RESPONSE_IU_TYPE : Nat
  SOP_RESPONSE_MANAGEMENT_RESPONSE_IU_TYPE : Nat
  MGMT_RSP_RSLT_GOOD : Nat
  SOP_TMF_COMPLETE : Nat
  SOP_TMF_SUCCEEDED : Nat
  SOP_TMF_REJECTED : Nat
  deriving DecidableEq, Repr

/-! ## MMIO accessors of the other widths (`safe_readl`, `safe_readq`) -/

/-- Source function `safe_readl(sig, value, addr)`: `raw` is the value
`readl(addr)` returns.  The result is the return code together with `*value`. -/
def safe_readl (signature : Nat) (raw : Nat) : Int × Nat :=
  let value := raw % 4294967296
  if value = 0xffffffff then
    if check_for_read_failure signature then (-1, value) else (0, value)
  else (0, value)

/-- Source function `safe_readq(sig, value, addr)`: `raw` is the value
`readq(addr)` returns.  The result is the return code together with `*value`. -/
def safe_readq (signature : Nat) (raw : Nat) : Int × Nat :=
  let value := raw % 18446744073709551616
  if value = 0xffffffffffffffff then
    if check_for_read_failure signature then (-1, value) else (0, value)
  else (0, value)

/-! ## Queue selection (`find_sop_queue`) -/

/-- Source function `find_sop_queue(h, cpu)`. -/
def find_sop_queue (h : sop_device) (cpu : Int) : Int :=
  1 + Int.tmod cpu (h.nr_queue_pairs - 1)

/-! ## Upper-layer command and command IU -/

/-- One entry of the scatterlist of a command after DMA mapping:
`sg_dma_address(sg)` (a `dma_addr_t`) and `sg_dma_len(sg)` (an `unsigned int`). -/
structure scatterlist where
  dma_address : Nat
  dma_length : Nat
  deriving DecidableEq, Repr

/-- The fields of the kernel `struct scsi_cmnd` (with its `device`) that the
driver reads or writes: the target address `channel`/`id`/`lun`, the data
direction, the CDB `cmnd` of `cmd_len` bytes, the scatterlist `sglist` with
`scsi_sg_count(sc) = sg_count`, the `result`, the residual `resid`, the sense
buffer and `host_scribble` (the request slot, `none` for `NULL`).  `tag`
identifies the command (it stands for the pointer `sc`), `done_calls` counts
the calls of `sc->scsi_done(sc)`. -/
structure scsi_cmnd where
  tag : Nat
  channel : Nat
  id : Nat
  lun : Nat
  sc_data_direction : Nat
  cmnd : List Nat
  cmd_len : Nat
  sglist : List scatterlist
  sg_count : Nat
  result : Nat
  resid : Int
  sense_buffer : List Nat
  host_scribble : Option Nat
  done_calls : Nat
  deriving DecidableEq, Repr

/-- Modelled from the spec: `struct sop_limited_cmd_iu` is declared in
`sop.h`, which is not part of the sources.  The fields are those
`sop_queuecommand` and `sop_scatter_gather` assign (spec 4.5: type byte, queue
id, request id, data-direction flag, 16-byte CDB, transfer size, and the two
inline scatter/gather descriptors `sg[2]`). -/
structure sop_limited_cmd_iu where
  iu_type : Nat
  compatible_features : Nat
  iu_length : Nat
  queue_id : Nat
  work_area : Nat
  request_id : Nat
  flags : Nat
  cdb : List Nat
  xfer_size : Nat
  sg : List pqi_sgl_descriptor
  deriving DecidableEq, Repr

/-! ## Scatter/gather encoding -/

/-- The constant `no_sgl_size` of `fill_inline_sg_list` and
`sop_scatter_gather`: `(u16) (sizeof(*r) - sizeof(r->sg[0]) * 2) - 4` with
`sizeof(*r) = 64` and `sizeof(r->sg[0]) = 16` (both `BUILD_BUG_ON`). -/
def no_sgl_size : Nat := to_u16 ((64 : Int) - 16 * 2) - 4

/-- Source function `fill_sg_data_element(sgld, sg, xfer_size)`: the
descriptor written to `*sgld` and the new `*xfer_size` (a `u32`). -/
def fill_sg_data_element (P : sop_h) (sg : scatterlist) (xfer_size : Nat) :
    pqi_sgl_descriptor × Nat :=
  ({ address := sg.dma_address, length := sg.dma_length,
     descriptor_type := P.PQI_SGL_DATA_BLOCK },
   (xfer_size + sg.dma_length) % 4294967296)

/-- Source function `fill_sg_chain_element(sgld, q, sg_block_number, sg_count)`:
the descriptor written to `*sgld`; `sizeof(*sgld)` is 16. -/
def fill_sg_chain_element (P : sop_h) (q : queue_info) (sg_block_number : Int)
    (sg_count : Int) : pqi_sgl_descriptor :=
  { address := (((q.sg_bus_addr : Int) + sg_block_number * 16) % 18446744073709551616).toNat
    length := (to_u32 (sg_count * 16)).toNat
    descriptor_type := P.PQI_SGL_STANDARD_LAST_SEG }

/-- Where the pointer `datasg` of the scatter/gather loops points: at the
inline descriptor `r->sg[i]` or at the overflow descriptor `q->sg[i]`. -/
inductive sg_cursor where
  | inline (i : Nat)
  | overflow (i : Nat)
  deriving DecidableEq, Repr

/-- The variables of the scatter/gather loops: the IU `r`, the overflow area
`q->sg`, `*xfer_size`, the pointer `datasg` and the counter `j`. -/
structure sg_fill_state where
  r : sop_limited_cmd_iu
  sg : List pqi_sgl_descriptor
  xfer_size : Nat
  datasg : sg_cursor
  j : Int
  deriving DecidableEq, Repr

/-- The store `*datasg = d` followed by nothing else: the descriptor `d` is
written where `datasg` points. -/
def sg_store (st : sg_fill_state) (d : pqi_sgl_descriptor) : sg_fill_state :=
  match st.datasg with
  | .inline i => { st with r := { st.r with sg := st.r.sg.set i d } }
  | .overflow i => { st with sg := st.sg.set i d }

/-- The pointer increment `datasg++`. -/
def sg_cursor_next : sg_cursor → sg_cursor
  | .inline i => .inline (i + 1)
  | .overflow i => .overflow (i + 1)

/-- The body of the loop of `fill_inline_sg_list` for one scatterlist entry:
`fill_sg_data_element(datasg, sg, xfer_size); datasg++;`. -/
def fill_inline_sg_list_step (P : sop_h) (st : sg_fill_state) (sg : scatterlist) :
    sg_fill_state :=
  let (d, x) := fill_sg_data_element P sg st.xfer_size
  let st1 := sg_store st d
  { st1 with xfer_size := x, datasg := sg_cursor_next st1.datasg }

/-- Source function `fill_inline_sg_list(r, sc, use_sg, xfer_size)`: the IU and
`*xfer_size` after the call; `none` when `BUG_ON(use_sg > 2)` fires.  The loop
`scsi_for_each_sg(sc, sg, use_sg, i)` visits the first `use_sg` entries of the
scatterlist. -/
def fill_inline_sg_list (P : sop_h) (r : sop_limited_cmd_iu) (sc : scsi_cmnd)
    (use_sg : Int) (xfer_size : Nat) : Option (sop_limited_cmd_iu × Nat) :=
  if use_sg > 2 then none
  else if use_sg = 0 then
    some ({ r with iu_length := to_u16 no_sgl_size }, xfer_size)
  else
    let r1 := { r with iu_length := to_u16 ((no_sgl_size : Int) + 16 * use_sg) }
    let st0 : sg_fill_state :=
      { r := r1, sg := [], xfer_size := 0, datasg := .inline 0, j := 0 }
    let st := (sc.sglist.take use_sg.toNat).foldl (fill_inline_sg_list_step P) st0
    some (st.r, st.xfer_size)

/-- The body of the loop of `sop_scatter_gather` (three segments or more) for
one scatterlist entry: when `j == 1` the chain descriptor is written at
`datasg` and `datasg` moves to the overflow block of the request; then the data
descriptor of the entry is written and `datasg` and `j` advance. -/
def sop_scatter_gather_step (P : sop_h) (q : queue_info) (sg_block_number : Int)
    (sg_count : Int) (st : sg_fill_state) (sg : scatterlist) : sg_fill_state :=
  let st1 : sg_fill_state :=
    if st.j = 1 then
      let st2 := sg_store st (fill_sg_chain_element P q sg_block_number (sg_count - 1))
      { st2 with datasg := .overflow sg_block_number.toNat, j := st2.j + 1 }
    else st
  let (d, x) := fill_sg_data_element P sg st1.xfer_size
  let st3 := sg_store st1 d
  { st3 with xfer_size := x, datasg := sg_cursor_next st3.datasg, j := st3.j + 1 }

/-- Source function `sop_scatter_gather(h, q, r, sc, xfer_size)`.  The value
`use_sg` is what `scsi_dma_map(sc)` returns (the number of mapped segments, or
a negative error).  The result is the return code, the queue pair (whose
overflow area may have been written), the IU and `*xfer_size` after the call;
`none` when a `BUG_ON` fires. -/
def sop_scatter_gather (P : sop_h) (use_sg : Int) (q : queue_info)
    (r : sop_limited_cmd_iu) (sc : scsi_cmnd) (xfer_size : Nat) :
    Option (Int × queue_info × sop_limited_cmd_iu × Nat) :=
  if sc.sg_count > P.MAX_SGLS then none
  else if use_sg < 0 then some (use_sg, q, r, xfer_size)
  else if use_sg < 3 then
    match fill_inline_sg_list P r sc use_sg xfer_size with
    | none => none
    | some (r1, x) => some (0, q, r1, x)
  else
    let sg_block_number : Int := (r.request_id : Int) * P.MAX_SGLS
    let r1 := { r with iu_length := to_u16 ((no_sgl_size : Int) + 16 * 2) }
    let st0 : sg_fill_state :=
      { r := r1, sg := q.sg, xfer_size := 0, datasg := .inline 0, j := 0 }
    let st := (sc.sglist.take use_sg.toNat).foldl
      (sop_scatter_gather_step P q sg_block_number sc.sg_count) st0
    some (0, { q with sg := st.sg }, st.r, st.xfer_size)

/-! ## Submission path (`pqi_notify_device_queue_written`, `sop_queuecommand`) -/

/-- Source function `pqi_notify_device_queue_written(h, q)`: the producer index
is written to the device register and remembered in `local_pi`, the outstanding
counter is incremented and the high-water mark updated. -/
def pqi_notify_device_queue_written (h : sop_device) (q : pqi_device_queue) :
    sop_device × pqi_device_queue :=
  let q1 : pqi_device_queue :=
    { q with local_pi := q.unposted_index, index_reg := q.unposted_index % 65536 }
  let h1 : sop_device :=
    { h with curr_outstanding_commands := h.curr_outstanding_commands + 1 }
  let curr := h1.curr_outstanding_commands
  let h2 : sop_device :=
    if curr > h1.max_outstanding_commands then { h1 with max_outstanding_commands := curr }
    else h1
  (h2, q1)

/-- What a call of `sop_queuecommand` leaves behind: the return code, the
device record, the queue pairs `h->qinfo[]`, the command, and, when a ring
element was filled, the queue pair index, the byte offset of the element in the
inbound ring and the IU written there. -/
structure sop_queuecommand_result where
  rc : Int
  h : sop_device
  qinfo : List queue_info
  sc : scsi_cmnd
  iu : Option (Nat × Nat × sop_limited_cmd_iu)
  deriving DecidableEq, Repr

/-- The assignment of `r->flags` by the `switch (sc->sc_data_direction)` of
`sop_queuecommand`. -/
def sop_data_dir_flags (P : sop_h) (sc_data_direction : Nat) (flags : Nat) : Nat :=
  if sc_data_direction = DMA_TO_DEVICE then P.SOP_DATA_DIR_TO_DEVICE
  else if sc_data_direction = DMA_FROM_DEVICE then P.SOP_DATA_DIR_FROM_DEVICE
  else if sc_data_direction = DMA_NONE then P.SOP_DATA_DIR_NONE
  else if sc_data_direction = DMA_BIDIRECTIONAL then P.SOP_DATA_DIR_RESERVED
  else flags

/-- Source function `sop_queuecommand(shost, sc)` on the device `h` with the
queue pairs `qinfo = h->qinfo[]`.  The environment of the call is given by
`cpu` (what `get_cpu()` returns), `use_sg` (what `scsi_dma_map(sc)` returns)
and `r0` (the previous contents of the ring element, viewed as an IU).
`none` stands for a call that does not return normally: an access outside
`h->qinfo[]` or outside the request array, a store through the `ERR_PTR` that
`pqi_alloc_elements` returned, a `BUG_ON`, or `alloc_request` out of fuel. -/
def sop_queuecommand (P : sop_h) (fuel : Nat) (cpu : Int) (use_sg : Int)
    (r0 : sop_limited_cmd_iu) (h : sop_device) (qinfo : List queue_info) (sc : scsi_cmnd) :
    Option sop_queuecommand_result :=
  -- reject io to devices other than b0t0l0
  if sc.channel ≠ 0 ∨ sc.id ≠ 0 ∨ sc.lun ≠ 0 then
    some { rc := 0, h := h, qinfo := qinfo,
           sc := { sc with result := DID_NO_CONNECT <<< 16, done_calls := sc.done_calls + 1 },
           iu := none }
  else
    let queue_pair_index := find_sop_queue h cpu
    if queue_pair_index < 0 then none
    else
      match qinfo[queue_pair_index.toNat]? with
      | none => none
      | some q =>
        match pqi_alloc_elements q.iq 1 with
        | (.error _, _) => none
        | (.ok p, iq1) =>
          match alloc_request fuel h { q with iq := iq1 } with
          | none => none
          | some (request_id, q1) =>
            let r1 : sop_limited_cmd_iu :=
              { r0 with
                iu_type := P.SOP_LIMITED_CMD_IU
                compatible_features := 0
                queue_id := to_u16 queue_pair_index
                work_area := 0
                request_id := to_u16 request_id }
            if request_id < 0 then none
            else
              match q1.request[request_id.toNat]? with
              | none => none
              | some sopr0 =>
                let sopr : sop_request :=
                  { sopr0 with xfer_size := 0, scmd := some sc.tag, waiting := none }
                let sc1 : scsi_cmnd := { sc with host_scribble := some request_id.toNat }
                let r2 : sop_limited_cmd_iu :=
                  { r1 with
                    flags := sop_data_dir_flags P sc1.sc_data_direction r1.flags
                    cdb := memcpy (memset r1.cdb 0 0 16) 0 sc1.cmnd 0 sc1.cmd_len }
                let q2 : queue_info :=
                  { q1 with request := q1.request.set request_id.toNat sopr }
                match sop_scatter_gather P use_sg q2 r2 sc1 sopr.xfer_size with
                | none => none
                | some (rc, q3, r3, xfer_size) =>
                  let q4 : queue_info :=
                    { q3 with
                      request := q3.request.set request_id.toNat
                        { sopr with xfer_size := xfer_size } }
                  if rc ≠ 0 then
                    -- memset(r, 0, 4): NULL IU
                    let r4 : sop_limited_cmd_iu :=
                      { r3 with iu_type := 0, compatible_features := 0, iu_length := 0 }
                    match free_request q4 (to_u16 request_id) with
                    | none => none
                    | some q5 =>
                      let (h1, iq2) := pqi_notify_device_queue_written h q5.iq
                      some { rc := SCSI_MLQUEUE_HOST_BUSY, h := h1,
                             qinfo := qinfo.set queue_pair_index.toNat { q5 with iq := iq2 },
                             sc := sc1,
                             iu := some (queue_pair_index.toNat, p, r4) }
                  else
                    let r4 : sop_limited_cmd_iu := { r3 with xfer_size := xfer_size }
                    let (h1, iq2) := pqi_notify_device_queue_written h q4.iq
                    some { rc := 0, h := h1,
                           qinfo := qinfo.set queue_pair_index.toNat { q4 with iq := iq2 },
                           sc := sc1,
                           iu := some (queue_pair_index.toNat, p, r4) }

/-! ## Response decoding (`complete_scsi_cmd`, `process_task_mgmt_response`) -/

/-- The fields of `struct sop_cmd_response` (declared in `sop.h`, not part of
the sources) that `complete_scsi_cmd` reads from `r->response`: the view of the
response buffer through that struct. -/
structure sop_cmd_response where
  status : Nat
  sense_data_len : Nat
  response_data_len : Nat
  data_in_xfer_result : Nat
  data_out_xfer_result : Nat
  data_in_xferred : Nat
  data_out_xferred : Nat
  sense : List Nat
  deriving DecidableEq, Repr

/-- The field of `struct management_response_iu` (declared in `sop.h`) that
`handle_management_response` reads. -/
structure management_response_iu where
  result : Nat
  deriving DecidableEq, Repr

/-- Source function `main_io_path_decode_response_data(h, scr, scmd)`: whatever
the sub-response code, the command is flagged with `DID_ERROR`. -/
def main_io_path_decode_response_data (scmd : scsi_cmnd) : scsi_cmnd :=
  { scmd with result := scmd.result ||| (DID_ERROR <<< 16) }

/-- Source function `handle_management_response(h, mr, scmd)`. -/
def handle_management_response (P : sop_h) (mr : management_response_iu)
    (scmd : scsi_cmnd) : scsi_cmnd :=
  if mr.result = P.MGMT_RSP_RSLT_GOOD then { scmd with resid := 0 }
  else { scmd with result := scmd.result ||| (DID_ERROR <<< 16) }

/-- The part of `complete_scsi_cmd(h, qinfo, r)` that acts on the upper command
`scmd = r->scmd`: the result, the sense data and the residual are set from the
response in the slot `r`, then `scmd->scsi_done(scmd)` is called.  `scr` and
`mr` are the views of `r->response` as `struct sop_cmd_response` and as
`struct management_response_iu`. -/
def complete_scsi_cmd_scmd (P : sop_h) (r : sop_request) (scr : sop_cmd_response)
    (mr : management_response_iu) (scmd : scsi_cmnd) : scsi_cmnd :=
  let scmd0 : scsi_cmnd := { scmd with result := DID_OK <<< 16 }
  let scmd1 : scsi_cmnd := { scmd0 with result := scmd0.result ||| (COMMAND_COMPLETE <<< 8) }
  let iu_type := r.response.getD 0 0 % 256
  let scmd2 : scsi_cmnd :=
    if iu_type = P.SOP_RESPONSE_CMD_SUCCESS_IU_TYPE then
      { scmd1 with resid := 0 }
    else if iu_type = P.SOP_RESPONSE_CMD_RESPONSE_IU_TYPE then
      let s1 : scsi_cmnd := { scmd1 with result := scmd1.result ||| (scr.status % 256) }
      let sense_data_len := scr.sense_data_len % 65536
      let response_data_len := scr.response_data_len % 65536
      -- copy the sense data
      let s2 : scsi_cmnd :=
        if sense_data_len ≠ 0 then
          let sense_data_len :=
            if SCSI_SENSE_BUFFERSIZE < sense_data_len then SCSI_SENSE_BUFFERSIZE
            else sense_data_len
          { s1 with
            sense_buffer :=
              memcpy (memset s1.sense_buffer 0 0 SCSI_SENSE_BUFFERSIZE) 0 scr.sense 0
                sense_data_len }
        else s1
      -- Calculate residual count
      let data_xferred : Nat :=
        if scr.data_in_xfer_result % 256 ≠ 0 then scr.data_in_xferred % 4294967296
        else if scr.data_out_xfer_result % 256 ≠ 0 then scr.data_out_xferred % 4294967296
        else r.xfer_size % 4294967296
      let s3 : scsi_cmnd :=
        { s2 with resid := to_s32 (to_u32 ((r.xfer_size : Int) - data_xferred)) }
      if response_data_len ≠ 0 then main_io_path_decode_response_data s3 else s3
    else if iu_type = P.SOP_RESPONSE_TASK_MGMT_RESPONSE_IU_TYPE then
      { scmd1 with result := scmd1.result ||| (DID_ERROR <<< 16) }
    else if iu_type = P.SOP_RESPONSE_MANAGEMENT_RESPONSE_IU_TYPE then
      handle_management_response P mr scmd1
    else
      { scmd1 with result := scmd1.result ||| (DID_ERROR <<< 16) }
  { scmd2 with done_calls := scmd2.done_calls + 1 }

/-- Source function `process_task_mgmt_response(h, qinfo, request_id)` for the
caller's pair `qinfo = &h->qinfo[queue_pair_index]`, on the array
`h->qinfo[]`.  The response code is `tmr->response_code`, the byte at offset 15
(`VERIFY_OFFSET(response_code, 15)`) of the response in the slot
`qinfo->request[request_id]`.  `qinfo->oq->queue_id` is the id that
`pqi_device_queue_alloc` stored for the outbound ring of the pair,
`qpindex_to_qid(queue_pair_index, 0)`; `free_request` takes it as the index of
a queue pair.  The result is the return code and `h->qinfo[]` after the call;
`none` when the slot lies outside the request array or the `BUG_ON` of
`free_request` fires. -/
def process_task_mgmt_response (P : sop_h) (qinfo : List queue_info)
    (queue_pair_index request_id : Nat) : Option (Int × List queue_info) :=
  match qinfo[queue_pair_index]? with
  | none => none
  | some q =>
    match q.request[request_id]? with
    | none => none
    | some sopr =>
      let response_code := sopr.response.getD 15 0 % 256
      let oq_queue_id := qpindex_to_qid queue_pair_index false
      match free_request_at qinfo oq_queue_id request_id with
      | none => none
      | some qinfo1 =>
        if response_code = P.SOP_TMF_COMPLETE ∨ response_code = P.SOP_TMF_SUCCEEDED ∨
            response_code = P.SOP_TMF_REJECTED then
          some (SUCCESS, qinfo1)
        else some (FAILED, qinfo1)

/-- A ring record for examples: `n` elements of `e` bytes, every byte `fill`,
unposted index `u`, device-written index `ci`, a valid signature register. -/
def mk_queue (n e fill u ci : Nat) : pqi_device_queue :=
  { vaddr := List.replicate (n * e) fill, nelements := n, element_size := e,
    unposted_index := u, local_pi := 0, signature := 0x4745524420495150,
    index_mem := ci, index_reg := 0, cur_req := none }

/-- The results of `k` successive calls `pqi_alloc_elements(q, 1)` (the call
`sop_queuecommand` makes for every command), oldest first, and the queue after
the last call. -/
def pqi_alloc_elements_seq : Nat → pqi_device_queue → List (Except Int Nat) × pqi_device_queue
  | 0, q => ([], q)
  | k + 1, q =>
    let (rs, q1) := pqi_alloc_elements_seq k q
    let (r, q2) := pqi_alloc_elements q1 1
    (rs ++ [r], q2)

/-- The results of `k` successive calls of `pqi_dequeue_from_device`, each into
a fresh zeroed `element_size`-byte destination: return code and destination
contents of every call, oldest first, and the queue after the last call. -/
def pqi_dequeue_from_device_seq (PQI_QUEUE_EMPTY : Int) :
    Nat → pqi_device_queue → List (Int × List Nat) × pqi_device_queue
  | 0, q => ([], q)
  | k + 1, q =>
    let (rs, q1) := pqi_dequeue_from_device_seq PQI_QUEUE_EMPTY k q
    let (rc, dst, q2) :=
      pqi_dequeue_from_device PQI_QUEUE_EMPTY q1 (List.replicate q1.element_size 0) 0
    (rs ++ [(rc, dst)], q2)

/-- A queue pair for the multi-element response scenario: outbound ring of 4
elements of 16 bytes whose elements 0..2 hold one response IU with length
field 44 (declared IU length 48) and request id 1, device producer index `p`;
four request slots with 64-byte response buffers, slot 1 in use by an upper
command. -/
def multi_element_response_pair (p : Nat) : queue_info :=
  { iq := mk_queue 4 64 0 0 0
    oq := { mk_queue 4 16 0 0 p with
            vaddr := [0x91, 0, 44, 0, 0, 0, 0, 0, 1, 0] ++ List.replicate 54 0 }
    qdepth := 4
    request_bits := [false, true, false, false, false, false, false, false]
    request := List.replicate 4
      { waiting := none, scmd := some 0, xfer_size := 0, response_accumulated := 0,
        request_id := 0, response := List.replicate 64 0 }
    sg := List.replicate 32 { address := 0, length := 0, descriptor_type := 0 }
    sg_bus_addr := 0x10000 }

/-- A device record with one outstanding command and nothing signalled yet;
three queue pairs (the admin pair and two I/O pairs). -/
def example_device : sop_device :=
  { elements_per_io_queue := 64, curr_outstanding_commands := 1,
    max_outstanding_commands := 1, nr_queue_pairs := 3, signalled := [] }

/-- The ring of the wrap-around scenario: `N = 8` elements of 16 bytes (every
byte 1), six single-element allocations made since initialisation, and the
device consumer index advanced to 5 (five completions, indices 0..4). -/
def wrap_scenario_queue : pqi_device_queue :=
  { (pqi_alloc_elements_seq 6 (pqi_device_queue_init (mk_queue 8 16 1 0 0))).2 with
    index_mem := 5 }

/-- A command for the examples: logical unit `lun` of target 0 on channel 0,
data direction from the device, a ten-byte CDB, and a scatterlist of five
mapped segments of 512, 1024, 2048, 4096 and 8192 bytes. -/
def example_cmnd (lun : Nat) : scsi_cmnd :=
  { tag := 7, channel := 0, id := 0, lun := lun, sc_data_direction := DMA_FROM_DEVICE
    cmnd := [0x28, 0, 0, 0, 0, 0, 0, 0, 8, 0], cmd_len := 10
    sglist := [⟨0x1000, 512⟩, ⟨0x2000, 1024⟩, ⟨0x3000, 2048⟩, ⟨0x4000, 4096⟩, ⟨0x5000, 8192⟩]
    sg_count := 5, result := 0, resid := 0, sense_buffer := List.replicate 96 0
    host_scribble := none, done_calls := 0 }

/-- Values for the constants of `sop.h` used in the examples. -/
def example_sop_h : sop_h :=
  { MAX_SGLS := 8, PQI_SGL_DATA_BLOCK := 0, PQI_SGL_STANDARD_LAST_SEG := 3
    SOP_LIMITED_CMD_IU := 0x10
    SOP_DATA_DIR_TO_DEVICE := 1, SOP_DATA_DIR_FROM_DEVICE := 2, SOP_DATA_DIR_NONE := 0
    SOP_DATA_DIR_RESERVED := 3
    SOP_RESPONSE_CMD_SUCCESS_IU_TYPE := 0x90, SOP_RESPONSE_CMD_RESPONSE_IU_TYPE := 0x91
    SOP_RESPONSE_TASK_MGMT_RESPONSE_IU_TYPE := 0x93
    SOP_RESPONSE_MANAGEMENT_RESPONSE_IU_TYPE := 0x81
    MGMT_RSP_RSLT_GOOD := 0
    SOP_TMF_COMPLETE := 0, SOP_TMF_SUCCEEDED := 8, SOP_TMF_REJECTED := 4 }

/-- An IU record for the examples: all fields zero, 16-byte CDB, two inline
descriptors. -/
def example_iu : sop_limited_cmd_iu :=
  { iu_type := 0, compatible_features := 0, iu_length := 0, queue_id := 0, work_area := 0
    request_id := 0, flags := 0, cdb := List.replicate 16 0, xfer_size := 0
    sg := List.replicate 2 { address := 0, length := 0, descriptor_type := 0 } }

/-- A request slot for the examples holding the response bytes `response` of
a command with cached transfer size 4096. -/
def example_slot (response : List Nat) : sop_request :=
  { waiting := none, scmd := some 7, xfer_size := 4096, response_accumulated := 16,
    request_id := 1, response := response }

/-- A command response view for the examples: status byte `status`, no sense
data, response-data length `rdl`, data-in result set with 4000 bytes
transferred. -/
def example_cmd_response (status rdl : Nat) : sop_cmd_response :=
  { status := status, sense_data_len := 0, response_data_len := rdl
    data_in_xfer_result := 1, data_out_xfer_result := 0
    data_in_xferred := 4000, data_out_xferred := 0, sense := [] }

/-- The data-block descriptor of a scatterlist entry: what
`fill_sg_data_element` writes for it. -/
def sg_data_descriptor (P : sop_h) (s : scatterlist) : pqi_sgl_descriptor :=
  { address := s.dma_address, length := s.dma_length,
    descriptor_type := P.PQI_SGL_DATA_BLOCK }

/-- The descriptors `ds` stored one after the other into the array `sg` from
index `p` on. -/
def sg_store_run : List pqi_sgl_descriptor → Nat → List pqi_sgl_descriptor →
    List pqi_sgl_descriptor
  | sg, _, [] => sg
  | sg, p, d :: ds => sg_store_run (sg.set p d) (p + 1) ds

/-- The sum of the lengths of the scatterlist entries `segs` as a `u32`. -/
def sg_total (segs : List scatterlist) : Nat :=
  (segs.map (fun s => s.dma_length)).sum % 4294967296

/-- A queue pair whose inbound ring is full: 4 elements, `unposted_index = 3`
and consumer index 0, so that the next index would meet the consumer index. -/
def full_ring_pair : queue_info :=
  { multi_element_response_pair 0 with iq := mk_queue 4 64 0 3 0 }

/-- A queue pair with nothing in flight: empty rings and no request slot in
use. -/
def idle_pair : queue_info :=
  { multi_element_response_pair 0 with
    oq := mk_queue 4 16 0 0 0
    request_bits := List.replicate 8 false }

/-- A device record with no outstanding command; three queue pairs. -/
def idle_device : sop_device :=
  { elements_per_io_queue := 64, curr_outstanding_commands := 0,
    max_outstanding_commands := 0, nr_queue_pairs := 3, signalled := [] }

/-- A queue pair whose outbound ring holds one complete single-element
response (length field 12, declared IU length 16) carrying request id 2, a
slot whose bitmap bit is clear: only slot 1 is in use.  Slot 2 still holds the
upper command of an earlier request. -/
def stale_response_pair : queue_info :=
  { multi_element_response_pair 1 with
    oq := { mk_queue 4 16 0 0 1 with
            vaddr := [0x90, 0, 12, 0, 0, 0, 0, 0, 2, 0] ++ List.replicate 54 0 } }

/-! ## Allocation of the scatter/gather overflow area (`allocate_sgl_area`) -/

/-- The `size_t total_size` of `allocate_sgl_area` and `free_sgl_area`:
`q->qdepth * MAX_SGLS * sizeof(struct pqi_sgl_descriptor)`, the first product
taken in `int`, the second in `size_t`; the descriptor has 16 bytes. -/
def sgl_area_total_size (P : sop_h) (q : queue_info) : Nat :=
  ((to_s32 ((q.qdepth : Int) * P.MAX_SGLS) * 16) % 18446744073709551616).toNat

/-- Source function `allocate_sgl_area(h, q)`.  `area` is what
`pci_alloc_consistent` returns for `total_size` bytes: nothing (`NULL`), or
the contents of the new memory, read as descriptors of 16 bytes, and its bus
address.  The result is the return code and the queue pair after the call. -/
def allocate_sgl_area (P : sop_h) (q : queue_info)
    (area : Option ((Nat → pqi_sgl_descriptor) × Nat)) : Int × queue_info :=
  match area with
  | none => (-ENOMEM, { q with sg := [] })
  | some (contents, bus) =>
    (0, { q with
          sg := (List.range (sgl_area_total_size P q / 16)).map contents
          sg_bus_addr := bus })

/-! ## Admin polling loops -/

/-- What the device presents in its registers during one polling interval:
the values that reads of the signature, process-admin-function, device-status
and reset registers return.  A device behaviour is a function from the number
of polling intervals passed to such a snapshot. -/
structure pqi_registers where
  signature : Nat
  process_admin_function : Nat
  pqi_device_status : Nat
  reset : Nat
  deriving DecidableEq, Repr

/-- Constant `ADMIN_SLEEP_INTERATIONS` of `sop.c`. -/
def ADMIN_SLEEP_INTERATIONS : Nat := 1000

/-- Constant `ADMIN_SLEEP_TMO_MS` of `sop.c`. -/
def ADMIN_SLEEP_TMO_MS : Int := 100

/-- Constant `ADMIN_RESET_TMO_MS` of `sop.c`. -/
def ADMIN_RESET_TMO_MS : Int := 3000

/-- Constant `PQI_RESET_ACTION_MASK` of `sop.c`: `0x07 << 5`. -/
def PQI_RESET_ACTION_MASK : Nat := 0x07 <<< 5

/-- Constant `PQI_START_RESET_COMPLETED` of `sop.c`: `2 << 5`. -/
def PQI_START_RESET_COMPLETED : Nat := 2 <<< 5

/-- The `do ... while (count < ADMIN_SLEEP_INTERATIONS)` loop of
`wait_for_admin_command_ack`, entered at polling interval `t` with the counter
`count`, for at most `fuel` passes (`none` when the fuel runs out).  The
result is the return code and the polling interval at which the function
returns: every pass reads the process-admin-function register once. -/
def wait_for_admin_command_ack_loop (dev : Nat → pqi_registers) :
    Nat → Nat → Nat → Option (Int × Nat)
  | 0, _, _ => none
  | fuel + 1, t, count =>
    let (rc, paf) := safe_readq (dev t).signature (dev t).process_admin_function
    if rc ≠ 0 then some (-1, t + 1)
    else
      let function_and_status := paf % 256
      if function_and_status = 0 then some (0, t + 1)
      else
        let count := count + 1
        if count < ADMIN_SLEEP_INTERATIONS then
          wait_for_admin_command_ack_loop dev fuel (t + 1) count
        else some (-1, t + 1)

/-- Source function `wait_for_admin_command_ack(h)`, called at polling
interval `t`. -/
def wait_for_admin_command_ack (fuel : Nat) (dev : Nat → pqi_registers) (t : Nat) :
    Option (Int × Nat) :=
  wait_for_admin_command_ack_loop dev fuel t 0

/-- The `for (i = 0; i < tmo_count; i++)` loop of
`wait_for_admin_queues_to_become_idle`, entered at polling interval `t` with
the counter `i`.  `PQI_IDLE` is the constant of that name (declared in
`sop.h`). -/
def wait_for_admin_queues_to_become_idle_loop (PQI_IDLE : Nat) (dev : Nat → pqi_registers)
    (tmo_count : Int) (device_state : Nat) : Nat → Nat → Nat → Option (Int × Nat)
  | 0, _, _ => none
  | fuel + 1, t, i =>
    if (i : Int) < tmo_count then
      let (rc, paf) := safe_readq (dev t).signature (dev t).process_admin_function
      if rc ≠ 0 then some (-1, t + 1)
      else
        let paf := paf &&& 0x0ff
        let (rc, status) := safe_readl (dev t).signature (dev t).pqi_device_status
        if rc ≠ 0 then some (-1, t + 1)
        else
          let function_and_status := paf % 256
          let pqi_device_state := status % 256
          if function_and_status = PQI_IDLE ∧ pqi_device_state = device_state % 256 then
            some (0, t + 1)
          else
            wait_for_admin_queues_to_become_idle_loop PQI_IDLE dev tmo_count device_state
              fuel (t + 1) (i + 1)
    else some (-1, t)

/-- Source function `wait_for_admin_queues_to_become_idle(h, timeout_ms,
device_state)`, called at polling interval `t`; `tmo_count` is the `int`
product `timeout_ms * 10`. -/
def wait_for_admin_queues_to_become_idle (PQI_IDLE : Nat) (fuel : Nat)
    (dev : Nat → pqi_registers) (t : Nat) (timeout_ms : Int) (device_state : Nat) :
    Option (Int × Nat) :=
  wait_for_admin_queues_to_become_idle_loop PQI_IDLE dev (to_s32 (timeout_ms * 10))
    device_state fuel t 0

/-- The `do ... while (count < tmo_iter)` loop of `sop_wait_for_host_reset_ack`,
entered at polling interval `t` with the counter `count`: every pass reads the
reset register once, with a plain `readl`. -/
def sop_wait_for_host_reset_ack_loop (dev : Nat → pqi_registers) (tmo_iter : Int) :
    Nat → Nat → Nat → Option (Int × Nat)
  | 0, _, _ => none
  | fuel + 1, t, count =>
    let reset_register := (dev t).reset % 4294967296
    if reset_register &&& PQI_RESET_ACTION_MASK = PQI_START_RESET_COMPLETED then
      some (0, t + 1)
    else
      let count := count + 1
      if (count : Int) < tmo_iter then
        sop_wait_for_host_reset_ack_loop dev tmo_iter fuel (t + 1) count
      else some (-1, t + 1)

/-- Source function `sop_wait_for_host_reset_ack(h, tmo_ms)`, called at polling
interval `t`; `tmo_iter` is `tmo_ms * 10` converted to `int`. -/
def sop_wait_for_host_reset_ack (fuel : Nat) (dev : Nat → pqi_registers) (t : Nat)
    (tmo_ms : Int) : Option (Int × Nat) :=
  sop_wait_for_host_reset_ack_loop dev (to_s32 (tmo_ms * 10)) fuel t 0

/-- The second loop of `sop_init_time_host_reset`,
`do ... while (pqi_device_state != PQI_READY_FOR_ADMIN_FUNCTION ||
function_and_status != PQI_IDLE)`, entered at polling interval `t`, for at
most `fuel` passes (`none` when the fuel runs out).  The two constants are
declared in `sop.h`. -/
def sop_init_time_host_reset_loop (PQI_READY_FOR_ADMIN_FUNCTION PQI_IDLE : Nat)
    (dev : Nat → pqi_registers) : Nat → Nat → Option (Int × Nat)
  | 0, _ => none
  | fuel + 1, t =>
    let (rc, paf) := safe_readq (dev t).signature (dev t).process_admin_function
    if rc ≠ 0 then some (-1, t + 1)
    else
      let (rc, status) := safe_readl (dev t).signature (dev t).pqi_device_status
      if rc ≠ 0 then some (-1, t + 1)
      else
        let function_and_status := paf % 256
        let pqi_device_state := status % 256
        if pqi_device_state ≠ PQI_READY_FOR_ADMIN_FUNCTION ∨ function_and_status ≠ PQI_IDLE then
          sop_init_time_host_reset_loop PQI_READY_FOR_ADMIN_FUNCTION PQI_IDLE dev fuel (t + 1)
        else some (0, t + 1)

/-- Source function `sop_init_time_host_reset(h)`: after the write of the reset
register the device behaves as `dev`.  The result is the return code and the
number of polling intervals spent; `none` when a loop is still running after
`fuel` passes. -/
def sop_init_time_host_reset (PQI_READY_FOR_ADMIN_FUNCTION PQI_IDLE : Nat) (fuel : Nat)
    (dev : Nat → pqi_registers) : Option (Int × Nat) :=
  match sop_wait_for_host_reset_ack fuel dev 0 ADMIN_RESET_TMO_MS with
  | none => none
  | some (rc, t) =>
    if rc ≠ 0 then some (-1, t)
    else sop_init_time_host_reset_loop PQI_READY_FOR_ADMIN_FUNCTION PQI_IDLE dev fuel t

/-- A device that acknowledges the reset at once (the reset register reads
`PQI_START_RESET_COMPLETED`) and then stays, with a valid signature, in a
device state other than `PQI_READY_FOR_ADMIN_FUNCTION`. -/
def reset_acknowledged_never_ready (PQI_READY_FOR_ADMIN_FUNCTION : Nat) :
    Nat → pqi_registers :=
  fun _ =>
    { signature := 0x4745524420495150
      process_admin_function := 0
      pqi_device_status := (PQI_READY_FOR_ADMIN_FUNCTION + 1) % 256
      reset := PQI_START_RESET_COMPLETED }

/-! ## Admin queue set-up (`sop_alloc_admin_queues`, `sop_create_admin_queues`) -/

/-- Constant `ADMIN_QUEUE_ELEMENT_COUNT` of `sop.c`. -/
def ADMIN_QUEUE_ELEMENT_COUNT : Nat := 64

/-- The fields of `struct pqi_capability` (declared in `sop.h`, not part of
the sources) that `sop.c` reads from `h->pqicap`, the copy of the capability
register; all four are single bytes. -/
structure pqi_capability where
  max_admin_iq_elements : Nat
  max_admin_oq_elements : Nat
  admin_iq_element_length : Nat
  admin_oq_element_length : Nat
  deriving DecidableEq, Repr

/-- Source function `pqi_device_queue_alloc(h, xq, n_q_elements,
q_element_size_over_16, ...)`: `vaddr` is the memory the two allocations
return (`none` when one of them fails), `signature` the device signature
register.  The result is the return code and `*xq`. -/
def pqi_device_queue_alloc (signature : Nat) (vaddr : Option (List Nat))
    (n_q_elements q_element_size_over_16 : Nat) : Int × Option pqi_device_queue :=
  match vaddr with
  | none => (-ENOMEM, none)
  | some mem =>
    (0, some
      { vaddr := mem, nelements := n_q_elements % 65536
        element_size := (q_element_size_over_16 % 256) * 16
        unposted_index := 0, local_pi := 0, signature := signature
        index_mem := 0, index_reg := 0, cur_req := none })

/-- Source function `sop_alloc_admin_queues(h)`: `raw` is what the read of the
capability register returns and `view` the layout of `struct pqi_capability`
over those 64 bits; `oq_mem` and `iq_mem` are the outcomes of the memory
allocations.  The result is the return code, `h->pqicap`, and the admin
inbound and outbound rings `h->qinfo[0].iq`, `h->qinfo[0].oq`. -/
def sop_alloc_admin_queues (view : Nat → pqi_capability) (signature raw : Nat)
    (oq_mem iq_mem : Option (List Nat)) :
    Int × Option pqi_capability × Option pqi_device_queue × Option pqi_device_queue :=
  let (rc, pqicap) := safe_readq signature raw
  if rc ≠ 0 then (-1, none, none, none)
  else
    let cap := view pqicap
    let admin_iq_elem_count : Nat := ADMIN_QUEUE_ELEMENT_COUNT
    let admin_oq_elem_count : Nat := ADMIN_QUEUE_ELEMENT_COUNT
    let admin_iq_elem_count :=
      if cap.max_admin_iq_elements % 256 < admin_iq_elem_count then
        cap.max_admin_iq_elements % 256
      else admin_iq_elem_count
    let admin_oq_elem_count :=
      if cap.max_admin_oq_elements % 256 < admin_oq_elem_count then
        cap.max_admin_oq_elements % 256
      else admin_oq_elem_count
    if admin_oq_elem_count = 0 ∨ admin_iq_elem_count = 0 then (-1, some cap, none, none)
    else
      match pqi_device_queue_alloc signature oq_mem admin_oq_elem_count
          cap.admin_iq_element_length with
      | (_, none) => (-1, some cap, none, none)
      | (_, some oq) =>
        match pqi_device_queue_alloc signature iq_mem admin_iq_elem_count
            cap.admin_iq_element_length with
        | (_, none) => (-1, some cap, none, none)
        | (_, some iq) => (0, some cap, some iq, some oq)

/-- The word `admin_queue_param` that `sop_create_admin_queues` writes to the
admin-queue-parameter register with `writel`, for `msix_vector = 0`. -/
def sop_create_admin_queues_param : Nat :=
  let msix_vector : Nat := 0
  (ADMIN_QUEUE_ELEMENT_COUNT ||| (ADMIN_QUEUE_ELEMENT_COUNT <<< 8) ||| (msix_vector <<< 16))
    % 4294967296

/-- A layout for the examples: the four fields in the low four bytes of the
capability register. -/
def example_capability_view (raw : Nat) : pqi_capability :=
  { max_admin_iq_elements := raw % 256
    max_admin_oq_elements := (raw >>> 8) % 256
    admin_iq_element_length := (raw >>> 16) % 256
    admin_oq_element_length := (raw >>> 24) % 256 }

/-! ## Capability report (`sop_get_pqi_device_capabilities`) -/

/-- The two fields of the capability buffer (`struct pqi_device_capabilities`,
declared in `sop.h`) that decide `h->elements_per_io_queue`; the other fields
are copied to members of `struct sop_device` that are not modelled. -/
structure pqi_device_capabilities where
  max_iq_elements : Nat
  max_oq_elements : Nat
  deriving DecidableEq, Repr

/-- The environment of one call of `sop_get_pqi_device_capabilities`: whether
`kzalloc` returns a buffer, whether `dma_mapping_error` reports a failed
mapping, and, for a command that is sent, the status byte of the response in
the request slot and the contents of the buffer when `send_admin_command`
returns. -/
structure capability_report_env where
  buffer_allocated : Bool
  dma_mapping_error : Bool
  resp_status : Nat
  buffer : pqi_device_capabilities
  deriving DecidableEq, Repr

/-- The code at the label `error:` of `sop_get_pqi_device_capabilities`:
`free_request(h, 0, request_id)` unless `request_id` equals `(u16) -EBUSY`,
then `return rc`. -/
def sop_get_pqi_device_capabilities_error (rc request_id : Int) (h : sop_device)
    (qinfo : List queue_info) : Option (Int × sop_device × List queue_info) :=
  if request_id ≠ (to_u16 (-EBUSY) : Int) then
    match free_request_at qinfo 0 (to_u16 request_id) with
    | none => none
    | some qinfo1 => some (rc, h, qinfo1)
  else some (rc, h, qinfo)

/-- Source function `send_admin_command(h, request_id)` up to the wait for the
completion: the slot `h->qinfo[0].request[request_id]` gets its waiter and a
cleared byte counter, and the producer index of the admin inbound ring is
written.  `none` when the slot lies outside the request array. -/
def send_admin_command (h : sop_device) (qinfo : List queue_info) (request_id : Nat) :
    Option (sop_device × List queue_info) :=
  match qinfo[0]? with
  | none => none
  | some q =>
    match q.request[request_id]? with
    | none => none
    | some r =>
      let q1 : queue_info :=
        { q with request := q.request.set request_id
                   { r with waiting := some 0, response_accumulated := 0 } }
      let (h1, iq1) := pqi_notify_device_queue_written h q1.iq
      some (h1, qinfo.set 0 { q1 with iq := iq1 })

/-- Source function `sop_get_pqi_device_capabilities(h)` on the device `h` with
the queue pairs `qinfo = h->qinfo[]`.  `DRIVER_MAX_IQ_NELEMENTS` and
`DRIVER_MAX_OQ_NELEMENTS` are the constants of these names (declared in
`sop.h`), `aq_queue_id` is the value of `aq->queue_id`.  The result is the
return code, the device record and the queue pairs after the call; `none`
stands for a call that does not return normally (an access outside an array, a
`BUG_ON`, or `alloc_request` out of fuel). -/
def sop_get_pqi_device_capabilities (DRIVER_MAX_IQ_NELEMENTS DRIVER_MAX_OQ_NELEMENTS : Nat)
    (fuel : Nat) (env : capability_report_env) (aq_queue_id : Nat) (h : sop_device)
    (qinfo : List queue_info) : Option (Int × sop_device × List queue_info) :=
  let request_id : Int := to_u16 (-EBUSY)
  let rc : Int := 0
  let h0 : sop_device := { h with elements_per_io_queue := DRIVER_MAX_IQ_NELEMENTS }
  if ¬ env.buffer_allocated then some (-ENOMEM, h0, qinfo)
  else
    match qinfo[0]? with
    | none => none
    | some q0 =>
      match pqi_alloc_elements q0.iq 1 with
      | (.error e, _) => sop_get_pqi_device_capabilities_error e request_id h0 qinfo
      | (.ok _, iq1) =>
        match alloc_request fuel h0 { q0 with iq := iq1 } with
        | none => none
        | some (request_id, q1) =>
          let qinfo1 := qinfo.set 0 q1
          if request_id = (to_u16 (-EBUSY) : Int) then
            sop_get_pqi_device_capabilities_error (-ENOMEM) request_id h0 qinfo1
          else if env.dma_mapping_error then
            -- fill_get_pqi_device_capabilities failed: the element is a NULL IU
            match free_request_at qinfo1 aq_queue_id (to_u16 request_id) with
            | none => none
            | some qinfo2 =>
              match qinfo2[0]? with
              | none => none
              | some q2 =>
                let (h1, iq2) := pqi_notify_device_queue_written h0 q2.iq
                sop_get_pqi_device_capabilities_error rc request_id h1
                  (qinfo2.set 0 { q2 with iq := iq2 })
          else
            match send_admin_command h0 qinfo1 (to_u16 request_id) with
            | none => none
            | some (h1, qinfo2) =>
              if env.resp_status % 256 ≠ 0 then
                match free_request_at qinfo2 0 (to_u16 request_id) with
                | none => none
                | some qinfo3 =>
                  sop_get_pqi_device_capabilities_error rc request_id h1 qinfo3
              else
                match free_request_at qinfo2 0 (to_u16 request_id) with
                | none => none
                | some qinfo3 =>
                  let max_iq_elements := env.buffer.max_iq_elements % 65536
                  let max_oq_elements := env.buffer.max_oq_elements % 65536
                  let e0 := DRIVER_MAX_IQ_NELEMENTS
                  let e1 := if e0 > DRIVER_MAX_OQ_NELEMENTS then DRIVER_MAX_OQ_NELEMENTS else e0
                  let e2 := if e1 > max_oq_elements then max_oq_elements else e1
                  let e3 := if e2 > max_iq_elements then max_iq_elements else e2
                  some (0, { h1 with elements_per_io_queue := e3 }, qinfo3)

/-- The admin queue pair of the examples: rings of 4 elements, depth 4, and
the request slots `bits` in use. -/
def example_admin_pair (bits : List Bool) : queue_info :=
  { idle_pair with request_bits := bits }

/-- An I/O queue pair on which a task-management request with id 1 has just
completed: bit 1 of the request bitmap is set and slot 1 holds the response,
IU type `0x93` and response code 8 at offset 15 (`SOP_TMF_SUCCEEDED` of the
example constants). -/
def task_mgmt_response_pair : queue_info :=
  { idle_pair with
    request_bits := [false, true, false, false, false, false, false, false]
    request :=
      [{ waiting := none, scmd := none, xfer_size := 0, response_accumulated := 0,
         request_id := 0, response := List.replicate 64 0 },
       { waiting := some 0, scmd := none, xfer_size := 0, response_accumulated := 16,
         request_id := 1,
         response := [0x93, 0, 12, 0, 0, 0, 0, 0, 1, 0, 0, 0, 0, 0, 0, 8] ++
           List.replicate 48 0 },
       { waiting := none, scmd := none, xfer_size := 0, response_accumulated := 0,
         request_id := 0, response := List.replicate 64 0 },
       { waiting := none, scmd := none, xfer_size := 0, response_accumulated := 0,
         request_id := 0, response := List.replicate 64 0 }] }

/-- An entry of `h->qinfo[]` that was never set up: all fields zero. -/
def unconfigured_pair : queue_info :=
  { iq := { vaddr := [], nelements := 0, element_size := 0, unposted_index := 0, local_pi := 0
            signature := 0x4745524420495150, index_mem := 0, index_reg := 0, cur_req := none }
    oq := { vaddr := [], nelements := 0, element_size := 0, unposted_index := 0, local_pi := 0
            signature := 0x4745524420495150, index_mem := 0, index_reg := 0, cur_req := none }
    qdepth := 0, request_bits := [], request := [], sg := [], sg_bus_addr := 0 }

/-! # Theorems -/

/-! ## Auxiliary lemmas: memory and machine arithmetic -/

theorem memset_length (mem : List Nat) (off c len : Nat) :
    (memset mem off c len).length = mem.length := by
  simp [memset]

theorem memset_getD (mem : List Nat) (off c len i : Nat) (hi : i < mem.length) :
    (memset mem off c len).getD i 0 = if off ≤ i ∧ i < off + len then c else mem.getD i 0 := by
  simp [memset, List.getD_eq_getElem?_getD, List.getElem?_mapIdx, List.getElem?_eq_getElem hi]

theorem memcpy_length (dst : List Nat) (doff : Nat) (src : List Nat) (soff len : Nat) :
    (memcpy dst doff src soff len).length = dst.length := by
  simp [memcpy]

theorem memcpy_getD (dst : List Nat) (doff : Nat) (src : List Nat) (soff len i : Nat)
    (hi : i < dst.length) :
    (memcpy dst doff src soff len).getD i 0 =
      if doff ≤ i ∧ i < doff + len then src.getD (soff + (i - doff)) 0 else dst.getD i 0 := by
  simp [memcpy, List.getD_eq_getElem?_getD, List.getElem?_mapIdx, List.getElem?_eq_getElem hi]

theorem safe_readw_of_lt (signature raw : Nat) (h : raw < 65535) :
    safe_readw signature raw = (0, raw) := by
  have h1 : raw % 65536 = raw := Nat.mod_eq_of_lt (by omega)
  simp only [safe_readw, h1]
  rw [if_neg (by omega)]

theorem to_u16_mod (a : Nat) (n : Nat) (hn : 0 < n) (hn16 : n ≤ 65535) :
    to_u16 (Int.tmod (a : Int) (n : Int)) = a % n := by
  have h1 : Int.tmod (a : Int) (n : Int) = ((a % n : Nat) : Int) := by
    rw [Int.tmod_eq_emod (by omega) (by omega)]; norm_cast
  have h2 : a % n < n := Nat.mod_lt _ hn
  rw [h1]
  unfold to_u16
  omega

/-- The value `pqi_to_device_queue_is_full` computes when the consumer index
is read successfully: the free count is `N - u + c - 1` for `c < u`,
`c - u - 1` for `u < c`, and `N` for `u = c`. -/
theorem pqi_to_device_queue_is_full_eq (q : pqi_device_queue) (n : Int)
    (hN : q.nelements ≤ 65535) (hu : q.unposted_index < q.nelements)
    (hc : q.index_mem < q.nelements) (hn0 : 0 ≤ n) (hn : n < 4294967296) :
    pqi_to_device_queue_is_full q n =
      if (if q.index_mem < q.unposted_index then
            (q.nelements : Int) - q.unposted_index + q.index_mem - 1
          else if q.unposted_index < q.index_mem then
            (q.index_mem : Int) - q.unposted_index - 1
          else (q.nelements : Int)) < n then 1 else 0 := by
  unfold pqi_to_device_queue_is_full
  rw [safe_readw_of_lt _ _ (by omega)]
  simp only [ne_eq, not_true_eq_false, if_false, to_u32, gt_iff_lt]
  split_ifs <;> omega

/-- A single-element allocation on a ring of at least two elements: it fails
exactly when the next index would meet the consumer index, and otherwise hands
out element `u` without touching the ring. -/
theorem pqi_alloc_elements_one (q : pqi_device_queue)
    (hN2 : 2 ≤ q.nelements) (hN : q.nelements ≤ 65535)
    (hu : q.unposted_index < q.nelements) (hc : q.index_mem < q.nelements) :
    pqi_alloc_elements q 1 =
      if (q.unposted_index + 1) % q.nelements = q.index_mem then (.error (-ENOMEM), q)
      else (.ok (q.unposted_index * q.element_size),
        { q with unposted_index := (q.unposted_index + 1) % q.nelements }) := by
  have hmod : to_u16 (Int.tmod ((q.unposted_index : Int) + 1) q.nelements)
      = (q.unposted_index + 1) % q.nelements := by
    have := to_u16_mod (q.unposted_index + 1) q.nelements (by omega) hN
    simpa using this
  unfold pqi_alloc_elements
  rw [pqi_to_device_queue_is_full_eq q 1 hN hu hc (by omega) (by omega), hmod]
  rcases Nat.lt_or_ge (q.unposted_index + 1) q.nelements with h | h
  · rw [Nat.mod_eq_of_lt h]
    split_ifs <;> first | rfl | omega
  · have h1 : q.unposted_index + 1 = q.nelements := by omega
    rw [h1, Nat.mod_self]
    split_ifs <;> first | rfl | omega

/-! ## C1 -/

/-- The capacity test for one element, the count every caller of
`pqi_alloc_elements` passes, on a ring of at least two elements: it agrees
with the free-slot count of the spec. -/
theorem pqi_to_device_queue_is_full_one (q : pqi_device_queue)
    (hN2 : 2 ≤ q.nelements) (hN : q.nelements ≤ 65535)
    (hu : q.unposted_index < q.nelements) (hc : q.index_mem < q.nelements) :
    pqi_to_device_queue_is_full q 1 =
      if spec_free_slots q.nelements q.unposted_index q.index_mem < 1 then 1 else 0 := by
  rw [pqi_to_device_queue_is_full_eq q 1 hN hu hc (by omega) (by omega)]
  unfold spec_free_slots
  have hm : ((q.unposted_index : Int) - q.index_mem) % (q.nelements : Int) =
      if q.index_mem ≤ q.unposted_index then (q.unposted_index : Int) - q.index_mem
      else (q.unposted_index : Int) - q.index_mem + q.nelements := by
    split_ifs with h
    · exact Int.emod_eq_of_lt (by omega) (by omega)
    · rw [← Int.add_emod_self]
      exact Int.emod_eq_of_lt (by omega) (by omega)
  rw [hm]
  split_ifs <;> omega

/-- C1 (code defect): on a ring of one element (`N = 1`, `u = c = 0`) the
capacity test for one element, the count every caller of `pqi_alloc_elements`
passes, reports not full, because the `u == c` branch takes `nfree = N`.  With
one slot reserved the free count is `N - ((u - c) mod N) - 1 = 0`, below 1:
the ring is full. -/
theorem C1_is_full_ignores_reserved_slot_when_empty :
    pqi_to_device_queue_is_full (mk_queue 1 16 1 0 0) 1 = 0 ∧
      spec_free_slots 1 0 0 = (1 : Int) - (((0 : Int) - 0) % 1) - 1 ∧
      spec_free_slots 1 0 0 < 1 := by
  decide

/-! ## C2 -/

theorem pqi_alloc_elements_seq_fresh (q : pqi_device_queue)
    (hN2 : 2 ≤ q.nelements) (hN : q.nelements ≤ 65535) (k : Nat) (hk : k ≤ q.nelements - 1) :
    pqi_alloc_elements_seq k (pqi_device_queue_init q) =
      ((List.range k).map (fun i => Except.ok (i * q.element_size)),
        { pqi_device_queue_init q with unposted_index := k }) := by
  induction k with
  | zero => simp [pqi_alloc_elements_seq, pqi_device_queue_init]
  | succ k ih =>
    rw [pqi_alloc_elements_seq, ih (by omega)]
    simp only
    rw [pqi_alloc_elements_one _ (by simpa [pqi_device_queue_init] using hN2)
      (by simpa [pqi_device_queue_init] using hN)
      (by simp [pqi_device_queue_init]; omega)
      (by simp [pqi_device_queue_init]; omega)]
    have h1 : (k + 1) % q.nelements = k + 1 := Nat.mod_eq_of_lt (by omega)
    simp [pqi_device_queue_init, h1, List.range_succ]

/-- C2: on a freshly initialised to-device ring of `N ≥ 2` elements whose
consumer index stays 0, the first `N - 1` calls `pqi_alloc_elements(q, 1)`
succeed (handing out elements `0 .. N-2`), and the `N`-th call fails with
`ERR_PTR(-ENOMEM)` and leaves the queue, and so `unposted_index = N - 1`,
unchanged. -/
theorem C2_ring_full_after_N_minus_1_allocs (q : pqi_device_queue)
    (hN2 : 2 ≤ q.nelements) (hN : q.nelements ≤ 65535) :
    (pqi_alloc_elements_seq (q.nelements - 1) (pqi_device_queue_init q)).1 =
        (List.range (q.nelements - 1)).map (fun i => Except.ok (i * q.element_size)) ∧
      (pqi_alloc_elements_seq (q.nelements - 1) (pqi_device_queue_init q)).2.unposted_index =
        q.nelements - 1 ∧
      pqi_alloc_elements (pqi_alloc_elements_seq (q.nelements - 1) (pqi_device_queue_init q)).2 1 =
        (.error (-ENOMEM),
          (pqi_alloc_elements_seq (q.nelements - 1) (pqi_device_queue_init q)).2) := by
  rw [pqi_alloc_elements_seq_fresh q hN2 hN _ (le_refl _)]
  refine ⟨rfl, rfl, ?_⟩
  rw [pqi_alloc_elements_one _ (by simpa [pqi_device_queue_init] using hN2)
      (by simpa [pqi_device_queue_init] using hN)
      (by simp [pqi_device_queue_init]; omega)
      (by simp [pqi_device_queue_init]; omega)]
  have h1 : (q.nelements - 1 + 1) % q.nelements = 0 := by
    rw [Nat.sub_add_cancel (by omega), Nat.mod_self]
  simp [pqi_device_queue_init, h1]

/-- C2 at `N = 4`: three submissions succeed at elements 0, 1, 2 and the
fourth returns the queue-full error. -/
theorem C2_ring_full_after_N_minus_1_allocs_witness :
    (pqi_alloc_elements_seq 3 (pqi_device_queue_init (mk_queue 4 16 1 0 0))).1 =
        [Except.ok 0, Except.ok 16, Except.ok 32] ∧
      (pqi_alloc_elements_seq 3 (pqi_device_queue_init (mk_queue 4 16 1 0 0))).2.unposted_index = 3 ∧
      pqi_alloc_elements (pqi_alloc_elements_seq 3 (pqi_device_queue_init (mk_queue 4 16 1 0 0))).2 1 =
        (.error (-ENOMEM),
          (pqi_alloc_elements_seq 3 (pqi_device_queue_init (mk_queue 4 16 1 0 0))).2) :=
  C2_ring_full_after_N_minus_1_allocs (mk_queue 4 16 1 0 0) (by decide) (by decide)

/-! ## C3 -/

/-- C3 (code defect): on the empty ring of one element (`N = 1`,
`u = c = 0`) the call `pqi_alloc_elements(q, 1)` succeeds and leaves
`unposted_index = 0`, equal to the consumer index.  One element is in flight
(none before, no wrap padding, `n = 1`), which is more than `N - 1 = 0` and
differs from `(u' - c) mod N = 0`: the ring that holds an element is
indistinguishable from an empty one. -/
theorem C3_alloc_fills_whole_ring :
    (pqi_alloc_elements (mk_queue 1 16 1 0 0) 1).1 = .ok 0 ∧
      (pqi_alloc_elements (mk_queue 1 16 1 0 0) 1).2.vaddr = (mk_queue 1 16 1 0 0).vaddr ∧
      (pqi_alloc_elements (mk_queue 1 16 1 0 0) 1).2.unposted_index =
        (mk_queue 1 16 1 0 0).index_mem ∧
      (((pqi_alloc_elements (mk_queue 1 16 1 0 0) 1).2.unposted_index : Int) -
          (mk_queue 1 16 1 0 0).index_mem) % ((mk_queue 1 16 1 0 0).nelements : Int) ≠
        0 + 0 + 1 ∧
      ¬ ((0 + 0 + 1 : Int) ≤ ((mk_queue 1 16 1 0 0).nelements : Int) - 1) := by
  decide

/-! ## C4 -/

/-- Capacity is monotone: room for `m` elements gives room for any `n ≤ m`. -/
theorem pqi_to_device_queue_is_full_mono (q : pqi_device_queue) (n m : Int)
    (hn0 : 0 ≤ n) (hnm : n ≤ m) (hm : m < 4294967296)
    (h : pqi_to_device_queue_is_full q m = 0) : pqi_to_device_queue_is_full q n = 0 := by
  unfold pqi_to_device_queue_is_full at h ⊢
  rcases hrd : safe_readw q.signature q.index_mem with ⟨rc, qci⟩
  rw [hrd] at h
  simp only [to_u32] at h ⊢
  by_cases hrc : rc = 0
  · simp only [hrc, ne_eq, not_true_eq_false, if_false] at h ⊢
    split_ifs at h ⊢ <;> omega
  · simp [hrc]

/-- The three outcomes of `pqi_alloc_elements(q, n)` for `n ≥ 1` on a ring
with `u < N`, in terms of the capacity test of the code.  (1) `N - u ≥ n` and
the test reports not full for `n`: the element at index `u` (byte offset
`u * E`) is returned, the ring memory is untouched and `unposted_index` becomes
`(u + n) mod N`.  (2) `N - u < n` and the test reports not full for
`n + (N - u)`: elements `u .. N-1` are zero-filled, element 0 is returned and
`unposted_index` becomes `n mod N`.  (3) the test reports full for the
required count: the call fails with `ERR_PTR(-ENOMEM)` and the queue is
unchanged. -/
theorem pqi_alloc_elements_outcomes (q : pqi_device_queue) (n : Nat)
    (hn1 : 1 ≤ n) (hn : n < 2147483648)
    (hN : q.nelements ≤ 65535) (hu : q.unposted_index < q.nelements) :
    (n ≤ q.nelements - q.unposted_index → pqi_to_device_queue_is_full q n = 0 →
        pqi_alloc_elements q n =
          (.ok (q.unposted_index * q.element_size),
            { q with unposted_index := (q.unposted_index + n) % q.nelements })) ∧
      (q.nelements - q.unposted_index < n →
        pqi_to_device_queue_is_full q ((n : Int) + ((q.nelements : Int) - q.unposted_index)) = 0 →
        pqi_alloc_elements q n =
          (.ok 0,
            { q with
              vaddr := memset q.vaddr (q.unposted_index * q.element_size) 0
                ((q.nelements - q.unposted_index) * q.element_size)
              unposted_index := n % q.nelements }) ∧
        (pqi_alloc_elements q n).2.vaddr.length = q.vaddr.length ∧
        ∀ i, i < q.vaddr.length →
          (pqi_alloc_elements q n).2.vaddr.getD i 0 =
            if q.unposted_index * q.element_size ≤ i ∧ i < q.nelements * q.element_size
            then 0 else q.vaddr.getD i 0) ∧
      ((pqi_to_device_queue_is_full q n ≠ 0 ∨
          (q.nelements - q.unposted_index < n ∧
            pqi_to_device_queue_is_full q
              ((n : Int) + ((q.nelements : Int) - q.unposted_index)) ≠ 0)) →
        pqi_alloc_elements q n = (.error (-ENOMEM), q)) := by
  have hmod : ∀ a : Nat, to_u16 (Int.tmod ((a : Int) + (n : Int)) q.nelements)
      = (a + n) % q.nelements := by
    intro a
    have := to_u16_mod (a + n) q.nelements (by omega) hN
    simpa using this
  refine ⟨?_, ?_, ?_⟩
  · intro hfit hfull
    unfold pqi_alloc_elements
    rw [hfull, hmod]
    rw [if_neg (by simp), if_neg (by omega)]
  · intro hwrap hfull
    have hfulln : pqi_to_device_queue_is_full q n = 0 :=
      pqi_to_device_queue_is_full_mono q n _ (by omega) (by omega) (by omega) hfull
    have heq : pqi_alloc_elements q n =
          (.ok 0,
            { q with
              vaddr := memset q.vaddr (q.unposted_index * q.element_size) 0
                ((q.nelements - q.unposted_index) * q.element_size)
              unposted_index := n % q.nelements }) := by
      unfold pqi_alloc_elements
      dsimp only
      rw [hfulln, hfull]
      rw [if_neg (by simp), if_pos (by omega), if_neg (by simp)]
      have := hmod 0
      simp only [Nat.cast_zero, zero_add] at this
      simp [this]
    refine ⟨heq, ?_, ?_⟩
    · rw [heq]; simp [memset_length]
    · intro i hi
      rw [heq]
      simp only
      rw [memset_getD _ _ _ _ _ hi]
      have hlen : q.unposted_index * q.element_size
          + (q.nelements - q.unposted_index) * q.element_size
          = q.nelements * q.element_size := by
        rw [← Nat.add_mul]; congr 1; omega
      rw [hlen]
  · intro h
    unfold pqi_alloc_elements
    dsimp only
    rcases h with h | ⟨hwrap, h⟩
    · rw [if_pos h]
    · by_cases h0 : pqi_to_device_queue_is_full q n ≠ 0
      · rw [if_pos h0]
      · rw [if_neg h0, if_pos (by omega), if_pos h]

/-- C4 (code defect): on the empty ring of one element (`N = 1`,
`u = c = 0`) there is no capacity for one element, the free-slot count of the
spec being 0; `N - u ≥ n` holds, so no wrap is involved.  Yet
`pqi_alloc_elements(q, 1)` does not fail: it returns the element at index 0
and leaves `unposted_index = (0 + 1) mod 1 = 0`. -/
theorem C4_alloc_succeeds_without_capacity :
    spec_free_slots (mk_queue 1 16 1 0 0).nelements (mk_queue 1 16 1 0 0).unposted_index
        (mk_queue 1 16 1 0 0).index_mem < 1 ∧
      (1 : Nat) ≤ (mk_queue 1 16 1 0 0).nelements - (mk_queue 1 16 1 0 0).unposted_index ∧
      pqi_alloc_elements (mk_queue 1 16 1 0 0) 1 = (.ok 0, mk_queue 1 16 1 0 0) ∧
      pqi_alloc_elements (mk_queue 1 16 1 0 0) 1 ≠ (.error (-ENOMEM), mk_queue 1 16 1 0 0) := by
  decide

/-! ## C5 -/

/-- C5 (as stated, refuted): with `N = 8`, after six single-element
allocations (elements 0..5) and the consumer index advanced to 5, the next
four single-element allocations hand out elements 6, 7, 0, 1 (byte offsets 96,
112, 0, 16); no byte of the ring is zeroed, so no null IU is written as wrap
padding, and `unposted_index` ends at 2: element 2 is not written. -/
theorem C5_no_wrap_padding_counterexample :
    (pqi_alloc_elements_seq 6 (pqi_device_queue_init (mk_queue 8 16 1 0 0))).1 =
        [.ok 0, .ok 16, .ok 32, .ok 48, .ok 64, .ok 80] ∧
      (pqi_alloc_elements_seq 4 wrap_scenario_queue).1 = [.ok 96, .ok 112, .ok 0, .ok 16] ∧
      (pqi_alloc_elements_seq 4 wrap_scenario_queue).2.vaddr = List.replicate 128 1 ∧
      (pqi_alloc_elements_seq 4 wrap_scenario_queue).2.unposted_index = 2 := by
  decide

theorem pqi_alloc_elements_one_of_ne (q : pqi_device_queue)
    (hN2 : 2 ≤ q.nelements) (hN : q.nelements ≤ 65535)
    (hu : q.unposted_index < q.nelements) (hc : q.index_mem < q.nelements)
    (hne : (q.unposted_index + 1) % q.nelements ≠ q.index_mem) :
    pqi_alloc_elements q 1 =
      (.ok (q.unposted_index * q.element_size),
        { q with unposted_index := (q.unposted_index + 1) % q.nelements }) := by
  rw [pqi_alloc_elements_one q hN2 hN hu hc, if_neg hne]

/-- C5 (amended): on every ring of `N = 8` elements (any element size, any
contents), six single-element allocations after initialisation hand out
elements 0..5; once the consumer index has advanced to 5, four further
single-element allocations hand out elements 6, 7, 0, 1, write nothing to the
ring (no wrap padding) and leave `unposted_index = 2`. -/
theorem C5_single_element_allocs_wrap_without_padding (q : pqi_device_queue) :
    pqi_alloc_elements_seq 6 (pqi_device_queue_init { q with nelements := 8 }) =
        ([.ok 0, .ok q.element_size, .ok (2 * q.element_size), .ok (3 * q.element_size),
            .ok (4 * q.element_size), .ok (5 * q.element_size)],
          { q with nelements := 8, unposted_index := 6, index_mem := 0 }) ∧
      pqi_alloc_elements_seq 4 { q with nelements := 8, unposted_index := 6, index_mem := 5 } =
        ([.ok (6 * q.element_size), .ok (7 * q.element_size), .ok 0, .ok q.element_size],
          { q with nelements := 8, unposted_index := 2, index_mem := 5 }) := by
  constructor
  · have h := pqi_alloc_elements_seq_fresh { q with nelements := 8 } (by simp) (by simp) 6
      (by simp)
    rw [h]
    simp [pqi_device_queue_init, List.range_succ]
  · simp only [pqi_alloc_elements_seq]
    rw [pqi_alloc_elements_one_of_ne _ (by simp) (by simp) (by simp) (by simp) (by simp)]
    simp only
    rw [pqi_alloc_elements_one_of_ne _ (by simp) (by simp) (by simp) (by simp) (by simp)]
    simp only
    rw [pqi_alloc_elements_one_of_ne _ (by simp) (by simp) (by simp) (by simp) (by simp)]
    simp only
    rw [pqi_alloc_elements_one_of_ne _ (by simp) (by simp) (by simp) (by simp) (by simp)]
    simp

/-! ## C6 -/

theorem mod_of_lt_two_mul (a n : Nat) (h : a < 2 * n) :
    a % n = if a < n then a else a - n := by
  split_ifs with h1
  · exact Nat.mod_eq_of_lt h1
  · rw [Nat.mod_eq_sub_mod (by omega), Nat.mod_eq_of_lt (by omega)]

/-- While fewer elements have been taken than the device has produced, the
consumer has not caught up with the producer index. -/
theorem consumer_ne_producer (u p n k : Nat) (hu : u < n) (hp : p < n)
    (hk : k < (p + n - u) % n) : p ≠ (u + k) % n := by
  have hk' : k < n := lt_trans hk (Nat.mod_lt _ (by omega))
  rw [mod_of_lt_two_mul (p + n - u) n (by omega)] at hk
  rw [mod_of_lt_two_mul (u + k) n (by omega)]
  split_ifs at hk ⊢ <;> omega

theorem pqi_dequeue_from_device_of_ne (PQI_QUEUE_EMPTY : Int) (q : pqi_device_queue)
    (dst : List Nat) (doff : Nat) (hN : q.nelements ≤ 65535)
    (hu : q.unposted_index < q.nelements)
    (hrd : (safe_readw q.signature q.index_mem).1 = 0)
    (hne : (safe_readw q.signature q.index_mem).2 ≠ q.unposted_index) :
    pqi_dequeue_from_device PQI_QUEUE_EMPTY q dst doff =
      (0, memcpy dst doff q.vaddr (q.unposted_index * q.element_size) q.element_size,
        { q with unposted_index := (q.unposted_index + 1) % q.nelements }) := by
  have hmod : to_u16 (Int.tmod ((q.unposted_index : Int) + 1) q.nelements)
      = (q.unposted_index + 1) % q.nelements := by
    have := to_u16_mod (q.unposted_index + 1) q.nelements (by omega) hN
    simpa using this
  unfold pqi_dequeue_from_device pqi_from_device_queue_is_empty
  rcases hs : safe_readw q.signature q.index_mem with ⟨rc, qpi⟩
  rw [hs] at hrd hne
  simp only at hrd hne
  simp [hrd, hne, hmod]

theorem pqi_dequeue_from_device_seq_fifo (PQI_QUEUE_EMPTY : Int) (q : pqi_device_queue)
    (hN : q.nelements ≤ 65535) (hu : q.unposted_index < q.nelements)
    (hp : q.index_mem < q.nelements) (k : Nat)
    (hk : k ≤ (q.index_mem + q.nelements - q.unposted_index) % q.nelements) :
    pqi_dequeue_from_device_seq PQI_QUEUE_EMPTY k q =
      ((List.range k).map (fun i =>
          ((0 : Int), memcpy (List.replicate q.element_size 0) 0 q.vaddr
            ((q.unposted_index + i) % q.nelements * q.element_size) q.element_size)),
        { q with unposted_index := (q.unposted_index + k) % q.nelements }) := by
  induction k with
  | zero =>
    simp [pqi_dequeue_from_device_seq, Nat.mod_eq_of_lt hu]
  | succ k ih =>
    rw [pqi_dequeue_from_device_seq, ih (by omega)]
    simp only
    have hrd : safe_readw q.signature q.index_mem = (0, q.index_mem) :=
      safe_readw_of_lt _ _ (by omega)
    rw [pqi_dequeue_from_device_of_ne PQI_QUEUE_EMPTY _ _ _ (by simpa using hN)
      (by simpa using Nat.mod_lt _ (by omega)) (by simp [hrd])
      (by simpa [hrd] using consumer_ne_producer _ _ _ k hu hp (by omega))]
    simp [List.range_succ, Nat.mod_add_mod, Nat.add_assoc]

/-- C6: `pqi_dequeue_from_device` on a from-device ring with `u < N` whose
producer index `p` is read successfully.  If `p = u` it returns
`PQI_QUEUE_EMPTY` and leaves the queue and the destination unchanged.
Otherwise it returns 0, copies exactly the `E` bytes of ring element `u` to the
destination (all other destination bytes keep their value) and sets
`unposted_index` to `(u + 1) mod N`.  Hence, as long as elements are
available, `k` successive dequeues return elements `u, u+1, ..., u+k-1`
(mod `N`) in that order. -/
theorem C6_dequeue_fifo (PQI_QUEUE_EMPTY : Int) (q : pqi_device_queue)
    (dst : List Nat) (doff : Nat) (hN : q.nelements ≤ 65535)
    (hu : q.unposted_index < q.nelements)
    (hrd : (safe_readw q.signature q.index_mem).1 = 0) :
    ((safe_readw q.signature q.index_mem).2 = q.unposted_index →
        pqi_dequeue_from_device PQI_QUEUE_EMPTY q dst doff = (PQI_QUEUE_EMPTY, dst, q)) ∧
      ((safe_readw q.signature q.index_mem).2 ≠ q.unposted_index →
        pqi_dequeue_from_device PQI_QUEUE_EMPTY q dst doff =
          (0, memcpy dst doff q.vaddr (q.unposted_index * q.element_size) q.element_size,
            { q with unposted_index := (q.unposted_index + 1) % q.nelements }) ∧
        (pqi_dequeue_from_device PQI_QUEUE_EMPTY q dst doff).2.1.length = dst.length ∧
        ∀ i, i < dst.length →
          (pqi_dequeue_from_device PQI_QUEUE_EMPTY q dst doff).2.1.getD i 0 =
            if doff ≤ i ∧ i < doff + q.element_size
            then q.vaddr.getD (q.unposted_index * q.element_size + (i - doff)) 0
            else dst.getD i 0) ∧
      (∀ k, q.index_mem < q.nelements →
        k ≤ (q.index_mem + q.nelements - q.unposted_index) % q.nelements →
        pqi_dequeue_from_device_seq PQI_QUEUE_EMPTY k q =
          ((List.range k).map (fun i =>
              ((0 : Int), memcpy (List.replicate q.element_size 0) 0 q.vaddr
                ((q.unposted_index + i) % q.nelements * q.element_size) q.element_size)),
            { q with unposted_index := (q.unposted_index + k) % q.nelements })) := by
  refine ⟨?_, ?_, ?_⟩
  · intro heq
    unfold pqi_dequeue_from_device pqi_from_device_queue_is_empty
    rcases hs : safe_readw q.signature q.index_mem with ⟨rc, qpi⟩
    rw [hs] at hrd heq
    simp only at hrd heq
    simp [hrd, heq]
  · intro hne
    have heq := pqi_dequeue_from_device_of_ne PQI_QUEUE_EMPTY q dst doff hN hu hrd hne
    refine ⟨heq, ?_, ?_⟩
    · rw [heq]; simp [memcpy_length]
    · intro i hi
      rw [heq]
      simp only
      rw [memcpy_getD _ _ _ _ _ _ hi]
  · intro k hp hk
    exact pqi_dequeue_from_device_seq_fifo PQI_QUEUE_EMPTY q hN hu hp k hk

/-- C6 on a three-element ring of two-byte elements holding `[10,11]`,
`[20,21]`, `[30,31]`, with `u = 1` and producer index `0`: two dequeues return
element 1 and then element 2, and `unposted_index` wraps to 0. -/
theorem C6_dequeue_fifo_witness :
    pqi_dequeue_from_device_seq (-1) 2
        { mk_queue 3 2 0 1 0 with vaddr := [10, 11, 20, 21, 30, 31] } =
      ([(0, [20, 21]), (0, [30, 31])],
        { mk_queue 3 2 0 1 0 with vaddr := [10, 11, 20, 21, 30, 31], unposted_index := 0 }) :=
  (C6_dequeue_fifo (-1) { mk_queue 3 2 0 1 0 with vaddr := [10, 11, 20, 21, 30, 31] } [] 0
    (by decide) (by decide) (by decide)).2.2 2 (by decide) (by decide)

/-! ## C7 -/

/-- What `find_first_zero_bit` returns: an index `≤ size` below which every bit
is set, and whose own bit is clear when it is `< size`. -/
theorem find_first_zero_bit_spec (addr : List Bool) (size : Nat) :
    find_first_zero_bit addr size ≤ size ∧
      (∀ i, i < find_first_zero_bit addr size → addr.getD i false = true) ∧
      (find_first_zero_bit addr size < size →
        addr.getD (find_first_zero_bit addr size) false = false) := by
  induction size with
  | zero => simp [find_first_zero_bit]
  | succ n ih =>
    unfold find_first_zero_bit at ih ⊢
    rw [List.range_succ, List.find?_append]
    cases hf : List.find? (fun i => !(addr.getD i false)) (List.range n) with
    | some r =>
      rw [hf] at ih
      have hmem : r ∈ List.range n := List.mem_of_find?_eq_some hf
      have hrn : r < n := List.mem_range.mp hmem
      simp only [Option.or, Option.getD_some] at ih ⊢
      exact ⟨by omega, ih.2.1, fun _ => ih.2.2 hrn⟩
    | none =>
      rw [hf] at ih
      simp only [Option.getD_none] at ih
      simp only [Option.or]
      by_cases hb : addr.getD n false = true
      · simp only [List.find?_cons, hb, Bool.not_true, List.find?_nil, Option.getD_none]
        refine ⟨le_refl _, ?_, fun h => absurd h (lt_irrefl _)⟩
        intro i hi
        rcases Nat.lt_succ_iff_lt_or_eq.mp hi with h | h
        · exact ih.2.1 i h
        · rw [h]; exact hb
      · have hb' : addr.getD n false = false := by simpa using hb
        simp only [List.find?_cons, hb', Bool.not_false, Option.getD_some]
        exact ⟨by omega, ih.2.1, fun _ => trivial⟩

/-- C7: in a pool of declared depth 4 whose bits 0..2 are set and whose bit 3
is clear (`find_first_zero_bit` returns 3), `alloc_request` returns `-EBUSY`
and sets no bit, although slot 3 is free; likewise a pool of depth 1 with no
bit set yields `-EBUSY`. -/
theorem C7_alloc_request_never_allocates_last_slot :
    find_first_zero_bit [true, true, true, false, false, false, false, false] 4 = 3 ∧
      alloc_request 1 example_device
          { multi_element_response_pair 0 with
            request_bits := [true, true, true, false, false, false, false, false] } =
        some (-EBUSY,
          { multi_element_response_pair 0 with
            request_bits := [true, true, true, false, false, false, false, false] }) ∧
      alloc_request 1 example_device
          { multi_element_response_pair 0 with
            qdepth := 1, request_bits := [false, false, false, false, false, false, false, false] } =
        some (-EBUSY,
          { multi_element_response_pair 0 with
            qdepth := 1, request_bits := [false, false, false, false, false, false, false, false] }) :=
  ⟨rfl, rfl, rfl⟩

/-! ## C8 -/

theorem set_true_of_getD (bits : List Bool) (i : Nat) (h : bits.getD i false = true) :
    bits.set i true = bits := by
  induction bits generalizing i with
  | nil => simp
  | cons b bs ih =>
    cases i with
    | zero => simp at h; simp [h]
    | succ i => simp at h; simp [ih i (by simpa using h)]

theorem clear_bit_set_of_getD (bits : List Bool) (i : Nat) (h : bits.getD i false = false) :
    clear_bit i (bits.set i true) = bits := by
  unfold clear_bit
  induction bits generalizing i with
  | nil => simp
  | cons b bs ih =>
    cases i with
    | zero => simp at h; simp [h]
    | succ i => simp at h; simp [ih i (by simpa using h)]

/-- A successful `alloc_request` loop returned the first clear bit `i`, which
lies below `qdepth - 1`, and set exactly that bit. -/
theorem alloc_request_loop_ok (fuel : Nat) (qinfo qinfo1 : queue_info) (r : Int)
    (h : alloc_request_loop fuel qinfo = some (r, qinfo1)) (hr : 0 ≤ r) :
    ∃ i : Nat, r = i ∧ i = find_first_zero_bit qinfo.request_bits qinfo.qdepth ∧
      i + 1 < qinfo.qdepth ∧ i < 65536 ∧ qinfo.request_bits.getD i false = false ∧
      qinfo1 = { qinfo with request_bits := qinfo.request_bits.set i true } := by
  induction fuel generalizing qinfo with
  | zero => simp [alloc_request_loop] at h
  | succ fuel ih =>
    unfold alloc_request_loop at h
    simp only at h
    split_ifs at h with hfull
    · simp only [Option.some.injEq, Prod.mk.injEq] at h
      have : r = -EBUSY := h.1.symm
      simp [EBUSY] at this
      omega
    · have hspec := find_first_zero_bit_spec qinfo.request_bits qinfo.qdepth
      have hlt : to_u16 (find_first_zero_bit qinfo.request_bits qinfo.qdepth) <
          find_first_zero_bit qinfo.request_bits qinfo.qdepth ∨
          to_u16 (find_first_zero_bit qinfo.request_bits qinfo.qdepth) =
          find_first_zero_bit qinfo.request_bits qinfo.qdepth := by
        unfold to_u16; omega
      have hnat : (to_u16 (find_first_zero_bit qinfo.request_bits qinfo.qdepth) : Int).toNat
          = to_u16 (find_first_zero_bit qinfo.request_bits qinfo.qdepth) := by simp
      rw [hnat] at h
      unfold test_and_set_bit at h
      rcases hlt with hlt | heq
      · -- the truncated index lies below the first clear bit: that bit is set
        have hset := hspec.2.1 _ hlt
        rw [hset] at h
        simp only at h
        rw [set_true_of_getD _ _ hset] at h
        exact ih qinfo h
      · rw [heq] at h hfull
        have hlt' : find_first_zero_bit qinfo.request_bits qinfo.qdepth + 1 < qinfo.qdepth := by
          omega
        have hclr := hspec.2.2 (by omega)
        rw [hclr] at h
        simp only [Option.some.injEq, Prod.mk.injEq] at h
        refine ⟨find_first_zero_bit qinfo.request_bits qinfo.qdepth, ?_, rfl, hlt', ?_, hclr,
          h.2.symm⟩
        · exact h.1.symm
        · have : to_u16 (find_first_zero_bit qinfo.request_bits qinfo.qdepth) < 65536 := by
            unfold to_u16; omega
          omega

/-- C8: whenever `alloc_request` returns a request id `r ≥ 0`, `free_request`
of that id restores the queue pair, and so the bitmap, to exactly its state
before the allocation, and the next `alloc_request` returns the same id `r`
(and produces the same pool state as the first allocation). -/
theorem C8_free_then_alloc_reuses_id (fuel : Nat) (h : sop_device)
    (qinfo qinfo1 : queue_info) (r : Int)
    (halloc : alloc_request fuel h qinfo = some (r, qinfo1)) (hr : 0 ≤ r) :
    free_request qinfo1 (to_u16 r) = some qinfo ∧
      ∃ qinfo2, free_request qinfo1 (to_u16 r) = some qinfo2 ∧
        alloc_request fuel h qinfo2 = some (r, qinfo1) := by
  have hfree : free_request qinfo1 (to_u16 r) = some qinfo := by
    unfold alloc_request at halloc
    split_ifs at halloc with hbug
    obtain ⟨i, hri, _, hlt, h16, hclr, hq1⟩ := alloc_request_loop_ok fuel qinfo qinfo1 r halloc hr
    have hu : to_u16 r = i := by rw [hri]; unfold to_u16; omega
    rw [hu, hq1]
    unfold free_request
    simp only
    rw [if_neg (by omega), clear_bit_set_of_getD _ _ hclr]
  exact ⟨hfree, qinfo, hfree, halloc⟩

/-- C8 on the example pool (bit 1 set): the allocation returns id 0; freeing
it restores the pool and the next allocation returns 0 again. -/
theorem C8_free_then_alloc_reuses_id_witness :
    free_request
        { multi_element_response_pair 0 with
          request_bits := [true, true, false, false, false, false, false, false] } (to_u16 0) =
        some (multi_element_response_pair 0) ∧
      ∃ qinfo2,
        free_request
          { multi_element_response_pair 0 with
            request_bits := [true, true, false, false, false, false, false, false] } (to_u16 0) =
          some qinfo2 ∧
        alloc_request 1 example_device qinfo2 =
          some (0, { multi_element_response_pair 0 with
            request_bits := [true, true, false, false, false, false, false, false] }) :=
  C8_free_then_alloc_reuses_id 1 example_device (multi_element_response_pair 0)
    { multi_element_response_pair 0 with
      request_bits := [true, true, false, false, false, false, false, false] } 0
    rfl (by decide)

/-! ## C9 -/

/-- C9: for a slot with 16 accumulated bytes whose response header carries the
length field `L = 0xffff`, `sop_response_accumulated` reports the response
complete (the `u16` sum `L + 4` wraps to 3), although 16 is below the declared
IU length `L + 4 = 65539`. -/
theorem C9_response_accumulated_wraps_iu_length :
    load_le16 [0x91, 0, 0xff, 0xff, 0, 0, 0, 0, 1, 0, 0, 0, 0, 0, 0, 0] 2 = 65535 ∧
      sop_response_accumulated
          { waiting := none, scmd := some 0, xfer_size := 0, response_accumulated := 16,
            request_id := 1,
            response := [0x91, 0, 0xff, 0xff, 0, 0, 0, 0, 1, 0, 0, 0, 0, 0, 0, 0] } = 1 ∧
      ¬ (16 ≥ 65535 + 4) := by
  decide

/-! ## C10 -/

/-- C16 (as stated, refuted): on a device with `K = 2` I/O queue pairs
(`nr_queue_pairs = 3`: the admin pair 0 and the I/O pairs 1 and 2) and CPU 1,
`find_sop_queue` selects pair 2, not `1 + (1 mod (K - 1)) = 1`. -/
theorem C16_queue_selection_counterexample :
    find_sop_queue example_device 1 = 2 ∧
      example_device.nr_queue_pairs = 2 + 1 ∧
      find_sop_queue example_device 1 ≠ 1 + (1 : Int) % (2 - 1) := by
  decide

/-- C16 (amended): for every CPU id `cpu ≥ 0` on a device with `K ≥ 1` I/O
queue pairs (`nr_queue_pairs = K + 1`, pair 0 being the admin pair),
`find_sop_queue` selects pair `1 + (cpu mod K)`, which is one of the I/O
pairs `1 .. K`. -/
theorem C16_queue_selection_mod_io_pairs (h : sop_device) (cpu : Int) (K : Nat)
    (hcpu : 0 ≤ cpu) (hK : 1 ≤ K) (hnr : h.nr_queue_pairs = K + 1) :
    find_sop_queue h cpu = 1 + cpu % K ∧
      1 ≤ find_sop_queue h cpu ∧ find_sop_queue h cpu ≤ K := by
  unfold find_sop_queue
  rw [hnr]
  have h1 : ((K : Int) + 1 - 1) = K := by omega
  rw [h1, Int.tmod_eq_emod hcpu (by omega)]
  have h2 : 0 ≤ cpu % (K : Int) := Int.emod_nonneg _ (by omega)
  have h3 : cpu % (K : Int) < K := Int.emod_lt_of_pos _ (by omega)
  refine ⟨rfl, by omega, by omega⟩

/-- C16 (amended) on the example device (two I/O pairs) and CPU 5: pair 2. -/
theorem C16_queue_selection_mod_io_pairs_witness :
    find_sop_queue example_device 5 = 1 + (5 : Int) % (2 : Nat) ∧
      1 ≤ find_sop_queue example_device 5 ∧ find_sop_queue example_device 5 ≤ (2 : Nat) :=
  C16_queue_selection_mod_io_pairs example_device 5 2 (by decide) (by decide) (by decide)

/-! ## C15 -/

/-- C15: for every command whose target is not channel 0, id 0, lun 0,
`sop_queuecommand` returns 0, completes the command (one `scsi_done` call)
with result `DID_NO_CONNECT << 16`, writes no IU, and leaves the device record
(outstanding counters) and every queue pair (ring indices, request bitmaps)
unchanged. -/
theorem C15_reject_not_lun_zero (P : sop_h) (fuel : Nat) (cpu use_sg : Int)
    (r0 : sop_limited_cmd_iu) (h : sop_device) (qinfo : List queue_info) (sc : scsi_cmnd)
    (hlun : sc.channel ≠ 0 ∨ sc.id ≠ 0 ∨ sc.lun ≠ 0) :
    sop_queuecommand P fuel cpu use_sg r0 h qinfo sc =
      some { rc := 0, h := h, qinfo := qinfo,
             sc := { sc with result := DID_NO_CONNECT <<< 16, done_calls := sc.done_calls + 1 },
             iu := none } := by
  unfold sop_queuecommand
  rw [if_pos hlun]

/-- C15 for a command addressed to lun 1 on the example device. -/
theorem C15_reject_not_lun_zero_witness :
    sop_queuecommand example_sop_h 1 0 5 example_iu example_device
        [multi_element_response_pair 0, multi_element_response_pair 0,
          multi_element_response_pair 0] (example_cmnd 1) =
      some { rc := 0, h := example_device,
             qinfo := [multi_element_response_pair 0, multi_element_response_pair 0,
               multi_element_response_pair 0],
             sc := { example_cmnd 1 with result := 0x10000, done_calls := 1 },
             iu := none } :=
  C15_reject_not_lun_zero example_sop_h 1 0 5 example_iu example_device
    [multi_element_response_pair 0, multi_element_response_pair 0,
      multi_element_response_pair 0] (example_cmnd 1) (by decide)

/-! ## C19 -/

/-- The return code of `process_task_mgmt_response` whenever the call
returns: `SUCCESS` exactly when the response code in the slot is
`SOP_TMF_COMPLETE`, `SOP_TMF_SUCCEEDED` or `SOP_TMF_REJECTED`, otherwise
`FAILED`. -/
theorem process_task_mgmt_response_code (P : sop_h) (qinfo qinfo1 : List queue_info)
    (queue_pair_index request_id : Nat) (q : queue_info) (sopr : sop_request) (rc : Int)
    (hq : qinfo[queue_pair_index]? = some q) (hs : q.request[request_id]? = some sopr)
    (h : process_task_mgmt_response P qinfo queue_pair_index request_id = some (rc, qinfo1)) :
    (rc = SUCCESS ∨ rc = FAILED) ∧
      (rc = SUCCESS ↔
        (sopr.response.getD 15 0 % 256 = P.SOP_TMF_COMPLETE ∨
          sopr.response.getD 15 0 % 256 = P.SOP_TMF_SUCCEEDED ∨
          sopr.response.getD 15 0 % 256 = P.SOP_TMF_REJECTED)) := by
  have hne : SUCCESS ≠ FAILED := by decide
  unfold process_task_mgmt_response at h
  simp only [hq, hs] at h
  rcases hf : free_request_at qinfo (qpindex_to_qid queue_pair_index false) request_id with
    _ | qinfo2
  · rw [hf] at h; cases h
  · rw [hf] at h
    simp only at h
    split_ifs at h with hc
    · simp only [Option.some.injEq, Prod.mk.injEq] at h
      exact ⟨Or.inl h.1.symm, fun _ => hc, fun _ => h.1.symm⟩
    · simp only [Option.some.injEq, Prod.mk.injEq] at h
      exact ⟨Or.inr h.1.symm, fun hs => absurd (h.1.trans hs).symm hne, fun hc1 => absurd hc1 hc⟩

/-- C19 (code defect): a task-management response with response code
`SOP_TMF_SUCCEEDED` for request id 1 on the I/O queue pair 1.
`process_task_mgmt_response` calls `free_request` with the queue id of the
outbound ring of the pair, `qpindex_to_qid(1, 0) = 2`, as the index of a
queue pair.  On a device with the admin pair and one I/O pair
(`nr_queue_pairs = 2`) entry 2 of `h->qinfo[]` was never set up, its `qdepth`
is 0, `BUG_ON` fires and nothing is returned.  On a device with two I/O pairs
the call returns `SUCCESS`, but bit 1 of pair 1, the request just completed,
stays set and bit 1 of pair 2, a request of that pair, is cleared. -/
theorem C19_task_mgmt_response_frees_wrong_pair :
    qpindex_to_qid 1 false = 2 ∧
      (task_mgmt_response_pair.request[1]?).map (fun r => r.response.getD 15 0 % 256) =
        some example_sop_h.SOP_TMF_SUCCEEDED ∧
      unconfigured_pair.qdepth = 0 ∧
      process_task_mgmt_response example_sop_h
        [idle_pair, task_mgmt_response_pair, unconfigured_pair, unconfigured_pair] 1 1 = none ∧
      process_task_mgmt_response example_sop_h [idle_pair, task_mgmt_response_pair] 1 1 = none ∧
      ∃ qinfo1 q1 q2,
        process_task_mgmt_response example_sop_h
          [idle_pair, task_mgmt_response_pair, multi_element_response_pair 0] 1 1 =
            some (SUCCESS, qinfo1) ∧
        qinfo1[1]? = some q1 ∧ q1.request_bits = task_mgmt_response_pair.request_bits ∧
        qinfo1[2]? = some q2 ∧
        (multi_element_response_pair 0).request_bits.getD 1 false = true ∧
        q2.request_bits.getD 1 false = false := by
  refine ⟨rfl, rfl, rfl, rfl, rfl, _, _, _, rfl, rfl, rfl, rfl, rfl, rfl⟩

/-! ## C17 -/

theorem to_s32_to_u32 (x : Int) : to_s32 (to_u32 x) = to_s32 x := by
  unfold to_s32 to_u32
  omega

theorem to_s32_of_range (x : Int) (h1 : -2147483648 ≤ x) (h2 : x < 2147483648) :
    to_s32 x = x := by
  unfold to_s32
  omega

set_option maxRecDepth 100000 in
/-- Bit arithmetic of a command result made of a status byte and the host
byte `DID_ERROR`. -/
theorem status_byte_bits :
    ∀ s, s < 256 →
      (s ||| (DID_ERROR <<< 16)) &&& 0xff = s ∧ s &&& 0xff = s ∧
      host_byte (s ||| (DID_ERROR <<< 16)) = DID_ERROR ∧ host_byte s = DID_OK := by
  decide

/-- The result and the residual that `complete_scsi_cmd` leaves in the upper
command for a `CmdResponse` IU. -/
theorem complete_scsi_cmd_scmd_cmd_response (P : sop_h) (r : sop_request)
    (scr : sop_cmd_response) (mr : management_response_iu) (scmd : scsi_cmnd)
    (hdist : P.SOP_RESPONSE_CMD_SUCCESS_IU_TYPE ≠ P.SOP_RESPONSE_CMD_RESPONSE_IU_TYPE)
    (ht : r.response.getD 0 0 % 256 = P.SOP_RESPONSE_CMD_RESPONSE_IU_TYPE) :
    (complete_scsi_cmd_scmd P r scr mr scmd).result =
        (if scr.response_data_len % 65536 ≠ 0 then scr.status % 256 ||| (DID_ERROR <<< 16)
         else scr.status % 256) ∧
      (complete_scsi_cmd_scmd P r scr mr scmd).resid =
        to_s32 (to_u32 ((r.xfer_size : Int) -
          (if scr.data_in_xfer_result % 256 ≠ 0 then scr.data_in_xferred % 4294967296
           else if scr.data_out_xfer_result % 256 ≠ 0 then scr.data_out_xferred % 4294967296
           else r.xfer_size % 4294967296 : Nat))) := by
  have hne : ¬ (P.SOP_RESPONSE_CMD_RESPONSE_IU_TYPE = P.SOP_RESPONSE_CMD_SUCCESS_IU_TYPE) :=
    fun h => hdist h.symm
  have h0 : (DID_OK <<< 16 ||| COMMAND_COMPLETE <<< 8) = 0 := by decide
  unfold complete_scsi_cmd_scmd main_io_path_decode_response_data
  simp only [ht, hne, if_false, if_true, h0, Nat.zero_or]
  by_cases hs : scr.sense_data_len % 65536 ≠ 0 <;>
    by_cases hr : scr.response_data_len % 65536 ≠ 0 <;> simp [hs, hr]

/-- C17: what `complete_scsi_cmd` does to the residual of the upper command
(the IU types of `sop.h` being distinct).  For a `CmdSuccess` response the
residual is 0.  For a `CmdResponse` response the status byte is ORed into the
result, and the residual is the `u32` difference `xfer_size - data_in_xferred`
when `data_in_xfer_result` is set, `xfer_size - data_out_xferred` when only
`data_out_xfer_result` is set, and 0 when neither is set, where `xfer_size` is
the value cached in the request slot; the difference is delivered as a C
`int`, so it is the exact difference whenever that lies in the `int` range. -/
theorem C17_residual (P : sop_h) (r : sop_request) (scr : sop_cmd_response)
    (mr : management_response_iu) (scmd : scsi_cmnd)
    (hdist : P.SOP_RESPONSE_CMD_SUCCESS_IU_TYPE ≠ P.SOP_RESPONSE_CMD_RESPONSE_IU_TYPE)
    (hx : r.xfer_size < 4294967296) (hin : scr.data_in_xferred < 4294967296)
    (hout : scr.data_out_xferred < 4294967296) :
    (r.response.getD 0 0 % 256 = P.SOP_RESPONSE_CMD_SUCCESS_IU_TYPE →
        (complete_scsi_cmd_scmd P r scr mr scmd).resid = 0) ∧
      (r.response.getD 0 0 % 256 = P.SOP_RESPONSE_CMD_RESPONSE_IU_TYPE →
        (complete_scsi_cmd_scmd P r scr mr scmd).result &&& 0xff = scr.status % 256 ∧
        (scr.data_in_xfer_result % 256 ≠ 0 →
          (complete_scsi_cmd_scmd P r scr mr scmd).resid =
            to_s32 ((r.xfer_size : Int) - scr.data_in_xferred) ∧
          (scr.data_in_xferred ≤ r.xfer_size → r.xfer_size - scr.data_in_xferred < 2147483648 →
            (complete_scsi_cmd_scmd P r scr mr scmd).resid =
              (r.xfer_size : Int) - scr.data_in_xferred)) ∧
        (scr.data_in_xfer_result % 256 = 0 → scr.data_out_xfer_result % 256 ≠ 0 →
          (complete_scsi_cmd_scmd P r scr mr scmd).resid =
            to_s32 ((r.xfer_size : Int) - scr.data_out_xferred) ∧
          (scr.data_out_xferred ≤ r.xfer_size →
            r.xfer_size - scr.data_out_xferred < 2147483648 →
            (complete_scsi_cmd_scmd P r scr mr scmd).resid =
              (r.xfer_size : Int) - scr.data_out_xferred)) ∧
        (scr.data_in_xfer_result % 256 = 0 → scr.data_out_xfer_result % 256 = 0 →
          (complete_scsi_cmd_scmd P r scr mr scmd).resid = 0)) := by
  constructor
  · intro ht
    unfold complete_scsi_cmd_scmd
    simp only [ht, if_true]
  · intro ht
    obtain ⟨hres, hresid⟩ := complete_scsi_cmd_scmd_cmd_response P r scr mr scmd hdist ht
    have hbits := status_byte_bits (scr.status % 256) (Nat.mod_lt _ (by decide))
    refine ⟨?_, ?_, ?_, ?_⟩
    · rw [hres]
      split_ifs
      · exact hbits.1
      · exact hbits.2.1
    · intro hi
      rw [hresid, if_pos hi, to_s32_to_u32, Nat.mod_eq_of_lt hin]
      refine ⟨rfl, fun hle hlt => to_s32_of_range _ (by omega) (by omega)⟩
    · intro hi ho
      rw [hresid, if_neg (by omega), if_pos ho, to_s32_to_u32, Nat.mod_eq_of_lt hout]
      refine ⟨rfl, fun hle hlt => to_s32_of_range _ (by omega) (by omega)⟩
    · intro hi ho
      rw [hresid, if_neg (by omega), if_neg (by omega), to_s32_to_u32, Nat.mod_eq_of_lt hx]
      unfold to_s32
      omega

/-- C17 for the example slot (cached transfer size 4096) and a `CmdResponse`
with status byte 2 reporting 4000 bytes transferred in: the residual is 96. -/
theorem C17_residual_witness :
    (complete_scsi_cmd_scmd example_sop_h (example_slot [0x91, 0, 12, 0])
        (example_cmd_response 2 0) ⟨0⟩ (example_cmnd 0)).result &&& 0xff = 2 ∧
      (complete_scsi_cmd_scmd example_sop_h (example_slot [0x91, 0, 12, 0])
        (example_cmd_response 2 0) ⟨0⟩ (example_cmnd 0)).resid = 96 :=
  ⟨((C17_residual example_sop_h (example_slot [0x91, 0, 12, 0]) (example_cmd_response 2 0)
      ⟨0⟩ (example_cmnd 0) (by decide) (by decide) (by decide) (by decide)).2 (by decide)).1,
    ((((C17_residual example_sop_h (example_slot [0x91, 0, 12, 0]) (example_cmd_response 2 0)
      ⟨0⟩ (example_cmnd 0) (by decide) (by decide) (by decide) (by decide)).2
      (by decide)).2.1 (by decide)).2 (by decide) (by decide))⟩

/-! ## C18 -/

/-- C18: the host byte that `complete_scsi_cmd` leaves in the result of the
upper command (the four response IU types of `sop.h` being distinct).  It
is `DID_ERROR` exactly for a `CmdResponse` with non-zero response-data length,
a `TaskMgmtResponse`, a `ManagementResponse` whose result is not
`MGMT_RSP_RSLT_GOOD`, and an IU of any other (unknown) type; in the remaining
cases (`CmdSuccess`, `CmdResponse` with response-data length 0,
`ManagementResponse` with the good result) it is `DID_OK`. -/
theorem C18_transport_error_cases (P : sop_h) (r : sop_request) (scr : sop_cmd_response)
    (mr : management_response_iu) (scmd : scsi_cmnd)
    (h12 : P.SOP_RESPONSE_CMD_SUCCESS_IU_TYPE ≠ P.SOP_RESPONSE_CMD_RESPONSE_IU_TYPE)
    (h13 : P.SOP_RESPONSE_CMD_SUCCESS_IU_TYPE ≠ P.SOP_RESPONSE_TASK_MGMT_RESPONSE_IU_TYPE)
    (h14 : P.SOP_RESPONSE_CMD_SUCCESS_IU_TYPE ≠ P.SOP_RESPONSE_MANAGEMENT_RESPONSE_IU_TYPE)
    (h23 : P.SOP_RESPONSE_CMD_RESPONSE_IU_TYPE ≠ P.SOP_RESPONSE_TASK_MGMT_RESPONSE_IU_TYPE)
    (h24 : P.SOP_RESPONSE_CMD_RESPONSE_IU_TYPE ≠ P.SOP_RESPONSE_MANAGEMENT_RESPONSE_IU_TYPE)
    (h34 : P.SOP_RESPONSE_TASK_MGMT_RESPONSE_IU_TYPE ≠
      P.SOP_RESPONSE_MANAGEMENT_RESPONSE_IU_TYPE) :
    (host_byte (complete_scsi_cmd_scmd P r scr mr scmd).result = DID_ERROR ↔
        ((r.response.getD 0 0 % 256 = P.SOP_RESPONSE_CMD_RESPONSE_IU_TYPE ∧
            scr.response_data_len % 65536 ≠ 0) ∨
          r.response.getD 0 0 % 256 = P.SOP_RESPONSE_TASK_MGMT_RESPONSE_IU_TYPE ∨
          (r.response.getD 0 0 % 256 = P.SOP_RESPONSE_MANAGEMENT_RESPONSE_IU_TYPE ∧
            mr.result ≠ P.MGMT_RSP_RSLT_GOOD) ∨
          (r.response.getD 0 0 % 256 ≠ P.SOP_RESPONSE_CMD_SUCCESS_IU_TYPE ∧
            r.response.getD 0 0 % 256 ≠ P.SOP_RESPONSE_CMD_RESPONSE_IU_TYPE ∧
            r.response.getD 0 0 % 256 ≠ P.SOP_RESPONSE_TASK_MGMT_RESPONSE_IU_TYPE ∧
            r.response.getD 0 0 % 256 ≠ P.SOP_RESPONSE_MANAGEMENT_RESPONSE_IU_TYPE))) ∧
      (host_byte (complete_scsi_cmd_scmd P r scr mr scmd).result ≠ DID_ERROR →
        host_byte (complete_scsi_cmd_scmd P r scr mr scmd).result = DID_OK) := by
  have h0 : (DID_OK <<< 16 ||| COMMAND_COMPLETE <<< 8) = 0 := by decide
  have hz := status_byte_bits 0 (by decide)
  have hok : host_byte 0 = DID_OK := hz.2.2.2
  have herr : host_byte (0 ||| DID_ERROR <<< 16) = DID_ERROR := hz.2.2.1
  have hne : DID_OK ≠ DID_ERROR := by decide
  by_cases t1 : r.response.getD 0 0 % 256 = P.SOP_RESPONSE_CMD_SUCCESS_IU_TYPE
  · have hres : (complete_scsi_cmd_scmd P r scr mr scmd).result = 0 := by
      unfold complete_scsi_cmd_scmd
      simp only [t1, if_true, h0]
    rw [hres, hok]
    refine ⟨⟨fun h => absurd h hne, ?_⟩, fun _ => rfl⟩
    rintro (⟨h, _⟩ | h | ⟨h, _⟩ | ⟨h, _⟩)
    · exact absurd (t1.symm.trans h) h12
    · exact absurd (t1.symm.trans h) h13
    · exact absurd (t1.symm.trans h) h14
    · exact absurd t1 h
  · by_cases t2 : r.response.getD 0 0 % 256 = P.SOP_RESPONSE_CMD_RESPONSE_IU_TYPE
    · have hres := (complete_scsi_cmd_scmd_cmd_response P r scr mr scmd h12 t2).1
      have hbits := status_byte_bits (scr.status % 256) (Nat.mod_lt _ (by decide))
      rw [hres]
      by_cases hr : scr.response_data_len % 65536 ≠ 0
      · rw [if_pos hr, hbits.2.2.1]
        exact ⟨⟨fun _ => Or.inl ⟨t2, hr⟩, fun _ => rfl⟩, fun h => absurd rfl h⟩
      · rw [if_neg hr, hbits.2.2.2]
        refine ⟨⟨fun h => absurd h hne, ?_⟩, fun _ => rfl⟩
        rintro (⟨_, h⟩ | h | ⟨h, _⟩ | ⟨_, h, _⟩)
        · exact absurd h hr
        · exact absurd (t2.symm.trans h) h23
        · exact absurd (t2.symm.trans h) h24
        · exact absurd t2 h
    · by_cases t3 : r.response.getD 0 0 % 256 = P.SOP_RESPONSE_TASK_MGMT_RESPONSE_IU_TYPE
      · have hres : (complete_scsi_cmd_scmd P r scr mr scmd).result =
            0 ||| DID_ERROR <<< 16 := by
          unfold complete_scsi_cmd_scmd
          simp only [t3, h13.symm, h23.symm, if_true, if_false, h0]
        rw [hres, herr]
        exact ⟨⟨fun _ => Or.inr (Or.inl t3), fun _ => rfl⟩, fun h => absurd rfl h⟩
      · by_cases t4 : r.response.getD 0 0 % 256 = P.SOP_RESPONSE_MANAGEMENT_RESPONSE_IU_TYPE
        · by_cases hg : mr.result = P.MGMT_RSP_RSLT_GOOD
          · have hres : (complete_scsi_cmd_scmd P r scr mr scmd).result = 0 := by
              unfold complete_scsi_cmd_scmd handle_management_response
              simp only [t4, h14.symm, h24.symm, h34.symm, hg, if_true, if_false, h0]
            rw [hres, hok]
            refine ⟨⟨fun h => absurd h hne, ?_⟩, fun _ => rfl⟩
            rintro (⟨h, _⟩ | h | ⟨_, h⟩ | ⟨_, _, _, h⟩)
            · exact absurd h t2
            · exact absurd h t3
            · exact absurd hg h
            · exact absurd t4 h
          · have hres : (complete_scsi_cmd_scmd P r scr mr scmd).result =
                0 ||| DID_ERROR <<< 16 := by
              unfold complete_scsi_cmd_scmd handle_management_response
              simp only [t4, h14.symm, h24.symm, h34.symm, hg, if_true, if_false, h0]
            rw [hres, herr]
            exact ⟨⟨fun _ => Or.inr (Or.inr (Or.inl ⟨t4, hg⟩)), fun _ => rfl⟩,
              fun h => absurd rfl h⟩
        · have hres : (complete_scsi_cmd_scmd P r scr mr scmd).result =
              0 ||| DID_ERROR <<< 16 := by
            unfold complete_scsi_cmd_scmd
            simp only [t1, t2, t3, t4, if_false, h0]
          rw [hres, herr]
          exact ⟨⟨fun _ => Or.inr (Or.inr (Or.inr ⟨t1, t2, t3, t4⟩)), fun _ => rfl⟩,
            fun h => absurd rfl h⟩

/-- C18 with the example constants: a `CmdResponse` with status byte 2 and
response-data length 4 completes with host byte `DID_ERROR`. -/
theorem C18_transport_error_cases_witness :
    host_byte (complete_scsi_cmd_scmd example_sop_h (example_slot [0x91, 0, 12, 0])
        (example_cmd_response 2 4) ⟨0⟩ (example_cmnd 0)).result = DID_ERROR :=
  (C18_transport_error_cases example_sop_h (example_slot [0x91, 0, 12, 0])
    (example_cmd_response 2 4) ⟨0⟩ (example_cmnd 0) (by decide) (by decide) (by decide)
    (by decide) (by decide) (by decide)).1.mpr (Or.inl ⟨by decide, by decide⟩)

/-! ## Scatter/gather loops -/

theorem sg_store_run_length (ds : List pqi_sgl_descriptor) :
    ∀ (sg : List pqi_sgl_descriptor) (p : Nat), (sg_store_run sg p ds).length = sg.length := by
  induction ds with
  | nil => intro sg p; rfl
  | cons d ds ih => intro sg p; rw [sg_store_run, ih]; simp

/-- Entry `i` of the overflow area after a run of stores from index `p`: the
entries `p .. p + |ds| - 1` hold the descriptors `ds`, every other entry is
unchanged. -/
theorem sg_store_run_getElem? (ds : List pqi_sgl_descriptor) :
    ∀ (sg : List pqi_sgl_descriptor) (p i : Nat),
      (sg_store_run sg p ds)[i]? =
        if p ≤ i ∧ i < p + ds.length ∧ i < sg.length then ds[i - p]? else sg[i]? := by
  induction ds with
  | nil =>
    intro sg p i
    rw [sg_store_run, if_neg]
    simp
    omega
  | cons d ds ih =>
    intro sg p i
    rw [sg_store_run, ih]
    simp only [List.length_set, List.length_cons]
    by_cases h1 : p + 1 ≤ i ∧ i < p + 1 + ds.length ∧ i < sg.length
    · rw [if_pos h1, if_pos (by omega)]
      obtain ⟨j, hj⟩ : ∃ j, i - p = j + 1 := ⟨i - p - 1, by omega⟩
      rw [hj, List.getElem?_cons_succ]
      congr 1
      omega
    · rw [if_neg h1, List.getElem?_set]
      by_cases h2 : p = i
      · subst h2
        by_cases h3 : p < sg.length
        · rw [if_pos rfl, if_pos h3, if_pos (by omega)]
          simp
        · rw [if_pos rfl, if_neg h3, if_neg (by omega)]
          exact (List.getElem?_eq_none (by omega)).symm
      · rw [if_neg h2, if_neg (by omega)]

theorem sum_mod_step (x a b : Nat) :
    ((x + a) % 4294967296 + b) % 4294967296 = (x + (a + b)) % 4294967296 := by
  omega

/-- The transfer size after the loop of `fill_inline_sg_list`. -/
theorem fill_inline_sg_list_fold_xfer (P : sop_h) (segs : List scatterlist) :
    ∀ st : sg_fill_state, st.xfer_size < 4294967296 →
      (segs.foldl (fill_inline_sg_list_step P) st).xfer_size =
        (st.xfer_size + (segs.map (fun s => s.dma_length)).sum) % 4294967296 := by
  induction segs with
  | nil => intro st h; simp; omega
  | cons s segs ih =>
    intro st h
    rw [List.foldl_cons, ih _ (by
      unfold fill_inline_sg_list_step fill_sg_data_element
      exact Nat.mod_lt _ (by decide))]
    simp only [fill_inline_sg_list_step, fill_sg_data_element, List.map_cons, List.sum_cons]
    exact sum_mod_step _ _ _

/-- The transfer size after the loop of `sop_scatter_gather`. -/
theorem sop_scatter_gather_fold_xfer (P : sop_h) (q : queue_info) (blk cnt : Int)
    (segs : List scatterlist) :
    ∀ st : sg_fill_state, st.xfer_size < 4294967296 →
      (segs.foldl (sop_scatter_gather_step P q blk cnt) st).xfer_size =
        (st.xfer_size + (segs.map (fun s => s.dma_length)).sum) % 4294967296 := by
  induction segs with
  | nil => intro st h; simp; omega
  | cons s segs ih =>
    intro st h
    have hx : (sop_scatter_gather_step P q blk cnt st s).xfer_size =
        (st.xfer_size + s.dma_length) % 4294967296 := by
      rcases st with ⟨r, sg, x, (i | i), j⟩ <;>
        simp only [sop_scatter_gather_step, fill_sg_data_element, sg_store] <;>
        split_ifs <;> rfl
    rw [List.foldl_cons, ih _ (by rw [hx]; exact Nat.mod_lt _ (by decide)), hx]
    simp only [List.map_cons, List.sum_cons]
    exact sum_mod_step _ _ _

/-- The loop of `sop_scatter_gather` once `datasg` points into the overflow
area (`j ≥ 2`): every further entry is stored as a data block at the next
overflow index; the IU is not touched. -/
theorem sop_scatter_gather_fold_overflow (P : sop_h) (q : queue_info) (blk cnt : Int)
    (segs : List scatterlist) :
    ∀ (st : sg_fill_state) (p : Nat), st.datasg = .overflow p → 2 ≤ st.j →
      (segs.foldl (sop_scatter_gather_step P q blk cnt) st).r = st.r ∧
      (segs.foldl (sop_scatter_gather_step P q blk cnt) st).sg =
        sg_store_run st.sg p (segs.map (sg_data_descriptor P)) := by
  induction segs with
  | nil => intro st p _ _; exact ⟨rfl, rfl⟩
  | cons s segs ih =>
    intro st p hcur hj
    have hstep : sop_scatter_gather_step P q blk cnt st s =
        { st with
          sg := st.sg.set p (sg_data_descriptor P s)
          xfer_size := (st.xfer_size + s.dma_length) % 4294967296
          datasg := .overflow (p + 1)
          j := st.j + 1 } := by
      unfold sop_scatter_gather_step
      rw [if_neg (by omega)]
      simp only [fill_sg_data_element, sg_store, hcur, sg_cursor_next, sg_data_descriptor]
    rw [List.foldl_cons, hstep]
    obtain ⟨h1, h2⟩ := ih
      { st with
        sg := st.sg.set p (sg_data_descriptor P s)
        xfer_size := (st.xfer_size + s.dma_length) % 4294967296
        datasg := .overflow (p + 1)
        j := st.j + 1 } (p + 1) rfl (by simp only; omega)
    exact ⟨h1, by rw [h2]; rfl⟩

theorem no_sgl_size_eq : no_sgl_size = 28 := by decide

/-- No mapped segment: only the IU length is set, to the no-SG base value. -/
theorem sop_scatter_gather_zero (P : sop_h) (q : queue_info) (r : sop_limited_cmd_iu)
    (sc : scsi_cmnd) (x : Nat) (hcnt : sc.sg_count ≤ P.MAX_SGLS) :
    sop_scatter_gather P 0 q r sc x = some (0, q, { r with iu_length := 28 }, x) := by
  unfold sop_scatter_gather fill_inline_sg_list
  rw [if_neg (by omega)]
  simp [no_sgl_size_eq, to_u16]

/-- One mapped segment: one inline data block. -/
theorem sop_scatter_gather_one (P : sop_h) (q : queue_info) (r : sop_limited_cmd_iu)
    (sc : scsi_cmnd) (x : Nat) (s0 : scatterlist) (tl : List scatterlist)
    (hcnt : sc.sg_count ≤ P.MAX_SGLS) (hsg : sc.sglist = s0 :: tl) :
    sop_scatter_gather P 1 q r sc x =
      some (0, q,
        { r with iu_length := 44, sg := r.sg.set 0 (sg_data_descriptor P s0) },
        sg_total [s0]) := by
  unfold sop_scatter_gather fill_inline_sg_list
  rw [if_neg (by omega)]
  simp [no_sgl_size_eq, to_u16, hsg, fill_inline_sg_list_step, fill_sg_data_element,
    sg_store, sg_data_descriptor, sg_total]

/-- Two mapped segments: two inline data blocks. -/
theorem sop_scatter_gather_two (P : sop_h) (q : queue_info) (r : sop_limited_cmd_iu)
    (sc : scsi_cmnd) (x : Nat) (s0 s1 : scatterlist) (tl : List scatterlist)
    (hcnt : sc.sg_count ≤ P.MAX_SGLS) (hsg : sc.sglist = s0 :: s1 :: tl) :
    sop_scatter_gather P 2 q r sc x =
      some (0, q,
        { r with
          iu_length := 60
          sg := (r.sg.set 0 (sg_data_descriptor P s0)).set 1 (sg_data_descriptor P s1) },
        sg_total [s0, s1]) := by
  unfold sop_scatter_gather fill_inline_sg_list
  rw [if_neg (by omega)]
  simp [no_sgl_size_eq, to_u16, hsg, fill_inline_sg_list_step, fill_sg_data_element,
    sg_store, sg_data_descriptor, sg_total, sg_cursor_next]

/-- Three mapped segments or more: the first inline descriptor is the data
block of segment 0, the second is the chain descriptor, and the data blocks of
the segments from 1 on are stored into the overflow area from entry
`request_id * MAX_SGLS` on. -/
theorem sop_scatter_gather_chained (P : sop_h) (q : queue_info) (r : sop_limited_cmd_iu)
    (sc : scsi_cmnd) (x : Nat) (k : Nat) (s0 s1 : scatterlist) (rest : List scatterlist)
    (hk : 3 ≤ k) (hcnt : sc.sg_count ≤ P.MAX_SGLS)
    (htake : sc.sglist.take k = s0 :: s1 :: rest) :
    sop_scatter_gather P k q r sc x =
      some (0,
        { q with
          sg := sg_store_run q.sg (r.request_id * P.MAX_SGLS)
            ((s1 :: rest).map (sg_data_descriptor P)) },
        { r with
          iu_length := 60
          sg := (r.sg.set 0 (sg_data_descriptor P s0)).set 1
            (fill_sg_chain_element P q ((r.request_id : Int) * P.MAX_SGLS)
              ((sc.sg_count : Int) - 1)) },
        sg_total (s0 :: s1 :: rest)) := by
  have hblk : ((r.request_id : Int) * (P.MAX_SGLS : Int)).toNat = r.request_id * P.MAX_SGLS := by
    rw [← Nat.cast_mul, Int.toNat_natCast]
  unfold sop_scatter_gather
  rw [if_neg (by omega), if_neg (by omega), if_neg (by omega)]
  simp only [Int.toNat_natCast, htake, List.foldl_cons]
  -- the first two passes
  have h1 : sop_scatter_gather_step P q ((r.request_id : Int) * P.MAX_SGLS) sc.sg_count
      { r := { r with iu_length := to_u16 ((no_sgl_size : Int) + 16 * 2) }, sg := q.sg,
        xfer_size := 0, datasg := .inline 0, j := 0 } s0 =
      { r := { r with iu_length := 60, sg := r.sg.set 0 (sg_data_descriptor P s0) },
        sg := q.sg, xfer_size := s0.dma_length % 4294967296, datasg := .inline 1, j := 1 } := by
    simp [sop_scatter_gather_step, fill_sg_data_element, sg_store, sg_cursor_next,
      sg_data_descriptor, no_sgl_size_eq, to_u16]
  obtain ⟨st2, hst2⟩ : ∃ st2 : sg_fill_state, st2 =
      { r := { r with
               iu_length := 60
               sg := (r.sg.set 0 (sg_data_descriptor P s0)).set 1
                 (fill_sg_chain_element P q ((r.request_id : Int) * P.MAX_SGLS)
                   ((sc.sg_count : Int) - 1)) },
        sg := q.sg.set (r.request_id * P.MAX_SGLS) (sg_data_descriptor P s1),
        xfer_size := (s0.dma_length % 4294967296 + s1.dma_length) % 4294967296,
        datasg := .overflow (r.request_id * P.MAX_SGLS + 1), j := 3 } := ⟨_, rfl⟩
  have h2 : sop_scatter_gather_step P q ((r.request_id : Int) * P.MAX_SGLS) sc.sg_count
      { r := { r with iu_length := 60, sg := r.sg.set 0 (sg_data_descriptor P s0) },
        sg := q.sg, xfer_size := s0.dma_length % 4294967296, datasg := .inline 1, j := 1 } s1 =
      st2 := by
    rw [hst2]
    simp [sop_scatter_gather_step, fill_sg_data_element, sg_store, sg_cursor_next,
      sg_data_descriptor, hblk]
  rw [h1, h2]
  obtain ⟨hr, hsg⟩ := sop_scatter_gather_fold_overflow P q ((r.request_id : Int) * P.MAX_SGLS)
    sc.sg_count rest st2 (r.request_id * P.MAX_SGLS + 1) (by rw [hst2]) (by rw [hst2]; show (2 : Int) ≤ 3; omega)
  have hx := sop_scatter_gather_fold_xfer P q ((r.request_id : Int) * P.MAX_SGLS)
    sc.sg_count rest st2 (by rw [hst2]; exact Nat.mod_lt _ (by decide))
  rw [hr, hsg, hx]
  subst hst2
  have hsum : ((s0.dma_length % 4294967296 + s1.dma_length) % 4294967296 +
      (rest.map (fun s => s.dma_length)).sum) % 4294967296 =
      (s0.dma_length + (s1.dma_length + (rest.map (fun s => s.dma_length)).sum))
        % 4294967296 := by omega
  simp only [sg_total, List.map_cons, List.sum_cons, sg_store_run, hsum]

/-- The first `k ≥ 3` entries of a scatterlist that has at least `k` entries. -/
theorem take_three_or_more (l : List scatterlist) (k : Nat) (hk3 : 3 ≤ k)
    (hk : k ≤ l.length) :
    ∃ s0 s1 rest, l.take k = s0 :: s1 :: rest ∧ rest.length = k - 2 ∧ l[0]? = some s0 := by
  rcases l with _ | ⟨s0, _ | ⟨s1, tl⟩⟩
  · simp at hk; omega
  · simp at hk; omega
  · obtain ⟨k2, rfl⟩ : ∃ k2, k = k2 + 2 := ⟨k - 2, by omega⟩
    refine ⟨s0, s1, tl.take k2, ?_, ?_, rfl⟩
    · rw [List.take_succ_cons, List.take_succ_cons]
    · simp only [List.length_cons] at hk
      rw [List.length_take]
      omega

/-! ## C11 -/

/-- C11: for a command with `k` mapped segments (the scatterlist holding at
least `k` entries, `scsi_sg_count` within `MAX_SGLS`), `sop_scatter_gather`
returns 0 and sets the IU length field to 28 when `k = 0`, to `28 + 16 * k`
when `k` is 1 or 2, and to 60 when `k ≥ 3`; for `k` equal to 1 or 2 the inline
descriptor at position `i < k` is a data block carrying the bus address and
the length of segment `i`. -/
theorem C11_iu_length_and_inline_descriptors (P : sop_h) (q : queue_info)
    (r : sop_limited_cmd_iu) (sc : scsi_cmnd) (x k : Nat)
    (hcnt : sc.sg_count ≤ P.MAX_SGLS) (hk : k ≤ sc.sglist.length) (hsg2 : r.sg.length = 2) :
    ∃ q1 r1 x1, sop_scatter_gather P k q r sc x = some (0, q1, r1, x1) ∧
      r1.iu_length = (if k = 0 then 28 else if k ≤ 2 then 28 + 16 * k else 60) ∧
      (k = 1 ∨ k = 2 → ∀ i s, i < k → sc.sglist[i]? = some s →
        r1.sg[i]? = some { address := s.dma_address, length := s.dma_length,
                           descriptor_type := P.PQI_SGL_DATA_BLOCK }) := by
  rcases Nat.lt_or_ge k 3 with hlt | hge
  · interval_cases k
    · exact ⟨_, _, _, sop_scatter_gather_zero P q r sc x hcnt, rfl, fun h => by omega⟩
    · rcases hsl : sc.sglist with _ | ⟨s0, tl⟩
      · rw [hsl] at hk; simp at hk
      · refine ⟨_, _, _, sop_scatter_gather_one P q r sc x s0 tl hcnt hsl, rfl, ?_⟩
        intro _ i s hi hs
        have hi0 : i = 0 := by omega
        subst hi0
        simp only [List.getElem?_cons_zero, Option.some.injEq] at hs
        subst hs
        simp only
        rw [List.getElem?_set_self (by omega)]
        rfl
    · rcases hsl : sc.sglist with _ | ⟨s0, _ | ⟨s1, tl⟩⟩
      · rw [hsl] at hk; simp at hk
      · rw [hsl] at hk; simp at hk
      · refine ⟨_, _, _, sop_scatter_gather_two P q r sc x s0 s1 tl hcnt hsl, rfl, ?_⟩
        intro _ i s hi hs
        have hi01 : i = 0 ∨ i = 1 := by omega
        rcases hi01 with hi0 | hi1
        · subst hi0
          simp only [List.getElem?_cons_zero, Option.some.injEq] at hs
          subst hs
          simp only
          rw [List.getElem?_set_ne (by omega), List.getElem?_set_self (by omega)]
          rfl
        · subst hi1
          simp only [List.getElem?_cons_succ, List.getElem?_cons_zero,
            Option.some.injEq] at hs
          subst hs
          simp only
          rw [List.getElem?_set_self (by simp; omega)]
          rfl
  · obtain ⟨s0, s1, rest, htake, _, _⟩ := take_three_or_more sc.sglist k hge hk
    refine ⟨_, _, _, sop_scatter_gather_chained P q r sc x k s0 s1 rest hge hcnt htake, ?_, ?_⟩
    · rw [if_neg (by omega), if_neg (by omega)]
    · intro h; omega

/-- C11 on the example command with its first two segments mapped: IU length
60 and two inline data blocks. -/
theorem C11_iu_length_and_inline_descriptors_witness :
    ∃ q1 r1 x1, sop_scatter_gather example_sop_h (2 : Nat) (multi_element_response_pair 0)
        example_iu (example_cmnd 0) 0 = some (0, q1, r1, x1) ∧
      r1.iu_length = 60 ∧
      ((2 : Nat) = 1 ∨ (2 : Nat) = 2 → ∀ i s, i < 2 → (example_cmnd 0).sglist[i]? = some s →
        r1.sg[i]? = some { address := s.dma_address, length := s.dma_length,
                           descriptor_type := example_sop_h.PQI_SGL_DATA_BLOCK }) :=
  C11_iu_length_and_inline_descriptors example_sop_h (multi_element_response_pair 0)
    example_iu (example_cmnd 0) 0 2 (by decide) (by decide) (by decide)

/-! ## C12 -/

/-- C12: for a command with `k` mapped segments, `3 ≤ k ≤ MAX_SGLS`, and
request id `r` (the overflow block of the request lying inside the overflow
area and inside the 64-bit bus address space), `sop_scatter_gather` returns 0
and: inline descriptor 0 is the data block of segment 0; inline descriptor 1
is a chain descriptor of type `PQI_SGL_STANDARD_LAST_SEG` whose address is
`sg_bus_addr + r * MAX_SGLS * 16`; segment `i`, `1 ≤ i < k`, is stored as a
data block in overflow entry `r * MAX_SGLS + (i - 1)`; and no overflow entry
outside `r * MAX_SGLS .. r * MAX_SGLS + (k - 2)` is changed. -/
theorem C12_chained_descriptors (P : sop_h) (q : queue_info) (r : sop_limited_cmd_iu)
    (sc : scsi_cmnd) (x k : Nat)
    (hk3 : 3 ≤ k) (hkm : k ≤ P.MAX_SGLS) (hcnt : sc.sg_count ≤ P.MAX_SGLS)
    (hk : k ≤ sc.sglist.length) (hsg2 : r.sg.length = 2)
    (harea : (r.request_id + 1) * P.MAX_SGLS ≤ q.sg.length)
    (hbus : q.sg_bus_addr + r.request_id * P.MAX_SGLS * 16 < 18446744073709551616) :
    ∃ q1 r1 x1, sop_scatter_gather P k q r sc x = some (0, q1, r1, x1) ∧
      (∀ s, sc.sglist[0]? = some s → r1.sg[0]? = some (sg_data_descriptor P s)) ∧
      (∃ chain, r1.sg[1]? = some chain ∧
        chain.descriptor_type = P.PQI_SGL_STANDARD_LAST_SEG ∧
        chain.address = q.sg_bus_addr + r.request_id * P.MAX_SGLS * 16) ∧
      (∀ i s, 1 ≤ i → i < k → sc.sglist[i]? = some s →
        q1.sg[r.request_id * P.MAX_SGLS + (i - 1)]? = some (sg_data_descriptor P s)) ∧
      (∀ i, (i < r.request_id * P.MAX_SGLS ∨ r.request_id * P.MAX_SGLS + (k - 1) ≤ i) →
        q1.sg[i]? = q.sg[i]?) ∧
      q1.sg.length = q.sg.length := by
  obtain ⟨s0, s1, rest, htake, hrest, h0⟩ := take_three_or_more sc.sglist k hk3 hk
  have hmul : (r.request_id + 1) * P.MAX_SGLS = r.request_id * P.MAX_SGLS + P.MAX_SGLS :=
    Nat.succ_mul _ _
  refine ⟨_, _, _, sop_scatter_gather_chained P q r sc x k s0 s1 rest hk3 hcnt htake,
    ?_, ?_, ?_, ?_, ?_⟩
  · intro s hs
    rw [h0] at hs
    simp only [Option.some.injEq] at hs
    subst hs
    simp only
    rw [List.getElem?_set_ne (by omega), List.getElem?_set_self (by omega)]
  · refine ⟨fill_sg_chain_element P q ((r.request_id : Int) * P.MAX_SGLS)
      ((sc.sg_count : Int) - 1), ?_, rfl, ?_⟩
    · simp only
      rw [List.getElem?_set_self (by simp; omega)]
    · simp only [fill_sg_chain_element]
      have : ((q.sg_bus_addr : Int) + (r.request_id : Int) * (P.MAX_SGLS : Int) * 16) =
          ((q.sg_bus_addr + r.request_id * P.MAX_SGLS * 16 : Nat) : Int) := by push_cast; ring
      rw [this]
      omega
  · intro i s hi1 hik hs
    simp only
    rw [sg_store_run_getElem?]
    simp only [List.length_map, List.length_cons, hrest]
    rw [if_pos (by omega)]
    have hidx : r.request_id * P.MAX_SGLS + (i - 1) - r.request_id * P.MAX_SGLS = i - 1 := by
      omega
    rw [hidx, List.getElem?_map]
    have hget : (s1 :: rest)[i - 1]? = some s := by
      have h1 : (sc.sglist.take k)[i]? = some s := by
        rw [List.getElem?_take_of_lt hik]; exact hs
      rw [htake] at h1
      obtain ⟨j, rfl⟩ : ∃ j, i = j + 1 := ⟨i - 1, by omega⟩
      simpa using h1
    rw [hget]
    rfl
  · intro i hi
    simp only
    rw [sg_store_run_getElem?]
    simp only [List.length_map, List.length_cons, hrest]
    rw [if_neg (by omega)]
  · simp only
    rw [sg_store_run_length]

/-- C12 for the example command with all five segments mapped and request id
1 (`MAX_SGLS = 8`): one inline data block, one chain descriptor pointing at
overflow entry 8, and the segments 1..4 in overflow entries 8..11. -/
theorem C12_chained_descriptors_witness :
    ∃ q1 r1 x1, sop_scatter_gather example_sop_h (5 : Nat) (multi_element_response_pair 0)
        { example_iu with request_id := 1 } (example_cmnd 0) 0 = some (0, q1, r1, x1) ∧
      (∀ s, (example_cmnd 0).sglist[0]? = some s →
        r1.sg[0]? = some (sg_data_descriptor example_sop_h s)) ∧
      (∃ chain, r1.sg[1]? = some chain ∧
        chain.descriptor_type = example_sop_h.PQI_SGL_STANDARD_LAST_SEG ∧
        chain.address = 0x10000 + 1 * 8 * 16) ∧
      (∀ i s, 1 ≤ i → i < 5 → (example_cmnd 0).sglist[i]? = some s →
        q1.sg[1 * 8 + (i - 1)]? = some (sg_data_descriptor example_sop_h s)) ∧
      (∀ i, (i < 1 * 8 ∨ 1 * 8 + (5 - 1) ≤ i) →
        q1.sg[i]? = (multi_element_response_pair 0).sg[i]?) ∧
      q1.sg.length = (multi_element_response_pair 0).sg.length :=
  C12_chained_descriptors example_sop_h (multi_element_response_pair 0)
    { example_iu with request_id := 1 } (example_cmnd 0) 0 5
    (by decide) (by decide) (by decide) (by decide) (by decide) (by decide) (by decide)

/-! ## C13 -/

/-- C13 (as stated, refuted): for the example command with five mapped
segments the length field of the chain descriptor is 64, not the number
`5 - 1 = 4` of descriptors written to the overflow area. -/
theorem C13_chain_length_counterexample :
    (sop_scatter_gather example_sop_h 5 (multi_element_response_pair 0)
        { example_iu with request_id := 1 } (example_cmnd 0) 0).map
        (fun res => res.2.2.1.sg.map (fun d => d.length)) = some [512, 64] ∧
      (64 : Nat) ≠ 5 - 1 := by
  decide

/-- C13 (amended): for a command with `k ≥ 3` mapped segments whose
`scsi_sg_count` equals `k`, the length field of the chain descriptor written by
`sop_scatter_gather` is `(k - 1) * 16`: the size in bytes of the `k - 1`
descriptors of 16 bytes that are written to the overflow area. -/
theorem C13_chain_length_in_bytes (P : sop_h) (q : queue_info) (r : sop_limited_cmd_iu)
    (sc : scsi_cmnd) (x k : Nat)
    (hk3 : 3 ≤ k) (hcnt : sc.sg_count ≤ P.MAX_SGLS) (hk : k ≤ sc.sglist.length)
    (hsg2 : r.sg.length = 2) (hcount : sc.sg_count = k) (hsmall : k ≤ 268435456) :
    ∃ q1 r1 x1 chain, sop_scatter_gather P k q r sc x = some (0, q1, r1, x1) ∧
      r1.sg[1]? = some chain ∧ chain.length = (k - 1) * 16 := by
  obtain ⟨s0, s1, rest, htake, _, _⟩ := take_three_or_more sc.sglist k hk3 hk
  rw [sop_scatter_gather_chained P q r sc x k s0 s1 rest hk3 hcnt htake]
  refine ⟨_, _, _, fill_sg_chain_element P q ((r.request_id : Int) * P.MAX_SGLS)
    ((sc.sg_count : Int) - 1), rfl, ?_, ?_⟩
  · simp only
    rw [List.getElem?_set_self (by simp; omega)]
  · simp only [fill_sg_chain_element, to_u32, hcount]
    omega

/-- C13 (amended) for the example command with five mapped segments: the
chain length is `4 * 16 = 64`. -/
theorem C13_chain_length_in_bytes_witness :
    ∃ q1 r1 x1 chain, sop_scatter_gather example_sop_h (5 : Nat)
        (multi_element_response_pair 0) { example_iu with request_id := 1 }
        (example_cmnd 0) 0 = some (0, q1, r1, x1) ∧
      r1.sg[1]? = some chain ∧ chain.length = (5 - 1) * 16 :=
  C13_chain_length_in_bytes example_sop_h (multi_element_response_pair 0)
    { example_iu with request_id := 1 } (example_cmnd 0) 0 5
    (by decide) (by decide) (by decide) (by decide) (by decide) (by decide)

/-! ## C14 -/

/-- The transfer size `sop_scatter_gather` computes for `k` mapped segments,
starting from 0: the sum of the lengths of the `k` segments as a `u32`.  Only
the overflow area of the queue pair can change. -/
theorem sop_scatter_gather_total (P : sop_h) (q : queue_info) (r : sop_limited_cmd_iu)
    (sc : scsi_cmnd) (k : Nat) (hcnt : sc.sg_count ≤ P.MAX_SGLS)
    (hk : k ≤ sc.sglist.length) :
    ∃ sg1 r1, sop_scatter_gather P k q r sc 0 =
      some (0, { q with sg := sg1 }, r1, sg_total (sc.sglist.take k)) := by
  rcases Nat.lt_or_ge k 3 with hlt | hge
  · interval_cases k
    · exact ⟨q.sg, _, sop_scatter_gather_zero P q r sc 0 hcnt⟩
    · rcases hsl : sc.sglist with _ | ⟨s0, tl⟩
      · rw [hsl] at hk; simp at hk
      · exact ⟨q.sg, _, sop_scatter_gather_one P q r sc 0 s0 tl hcnt hsl⟩
    · rcases hsl : sc.sglist with _ | ⟨s0, _ | ⟨s1, tl⟩⟩
      · rw [hsl] at hk; simp at hk
      · rw [hsl] at hk; simp at hk
      · exact ⟨q.sg, _, sop_scatter_gather_two P q r sc 0 s0 s1 tl hcnt hsl⟩
  · obtain ⟨s0, s1, rest, htake, _, _⟩ := take_three_or_more sc.sglist k hge hk
    rw [htake]
    exact ⟨_, _, sop_scatter_gather_chained P q r sc 0 k s0 s1 rest hge hcnt htake⟩

/-- C14: a command for logical unit zero that is submitted successfully (the
queue pair selected for the CPU exists, `pqi_alloc_elements` returns an
element, `alloc_request` returns a request id `rid ≥ 0` of a slot of the
request array, and `scsi_dma_map` maps `k` segments of a scatterlist within
`MAX_SGLS`) makes `sop_queuecommand` return 0, and both the `xfer_size` field
of the IU written to the element and the transfer size cached in the request
slot `rid` equal the sum modulo 2^32 of the lengths of the `k` segments; both
are 0 when `k = 0`. -/
theorem C14_transfer_size (P : sop_h) (fuel : Nat) (cpu : Int) (k : Nat)
    (r0 : sop_limited_cmd_iu) (h : sop_device) (qinfo : List queue_info) (sc : scsi_cmnd)
    (q : queue_info) (p : Nat) (iq1 : pqi_device_queue) (rid : Int) (q1 : queue_info)
    (sopr0 : sop_request)
    (hlun : sc.channel = 0 ∧ sc.id = 0 ∧ sc.lun = 0)
    (hqi : 0 ≤ find_sop_queue h cpu)
    (hq : qinfo[(find_sop_queue h cpu).toNat]? = some q)
    (ha : pqi_alloc_elements q.iq 1 = (.ok p, iq1))
    (hr : alloc_request fuel h { q with iq := iq1 } = some (rid, q1))
    (hrid : 0 ≤ rid)
    (hslot : q1.request[rid.toNat]? = some sopr0)
    (hcnt : sc.sg_count ≤ P.MAX_SGLS) (hk : k ≤ sc.sglist.length) :
    ∃ res iu qf slot, sop_queuecommand P fuel cpu k r0 h qinfo sc = some res ∧
      res.rc = 0 ∧
      res.iu = some ((find_sop_queue h cpu).toNat, p, iu) ∧
      iu.xfer_size = sg_total (sc.sglist.take k) ∧
      res.qinfo[(find_sop_queue h cpu).toNat]? = some qf ∧
      qf.request[rid.toNat]? = some slot ∧
      slot.xfer_size = sg_total (sc.sglist.take k) ∧
      (k = 0 → iu.xfer_size = 0 ∧ slot.xfer_size = 0) := by
  have hlen1 : rid.toNat < q1.request.length := by
    rcases Nat.lt_or_ge rid.toNat q1.request.length with h1 | h1
    · exact h1
    · rw [List.getElem?_eq_none h1] at hslot; cases hslot
  have hlenq : (find_sop_queue h cpu).toNat < qinfo.length := by
    rcases Nat.lt_or_ge (find_sop_queue h cpu).toNat qinfo.length with h1 | h1
    · exact h1
    · rw [List.getElem?_eq_none h1] at hq; cases hq
  have hzero : k = 0 → sg_total (sc.sglist.take k) = 0 := by
    intro h0; subst h0; rfl
  unfold sop_queuecommand
  rw [if_neg (by simp [hlun])]
  simp only [hq, ha, hr, hslot, if_neg (not_lt.mpr hqi), if_neg (not_lt.mpr hrid)]
  obtain ⟨sg1, r1, hsg⟩ := sop_scatter_gather_total P
    { q1 with
      request := q1.request.set rid.toNat
        { sopr0 with xfer_size := 0, scmd := some sc.tag, waiting := none } }
    { r0 with
      iu_type := P.SOP_LIMITED_CMD_IU
      compatible_features := 0
      queue_id := to_u16 (find_sop_queue h cpu)
      work_area := 0
      request_id := to_u16 rid
      flags := sop_data_dir_flags P sc.sc_data_direction r0.flags
      cdb := memcpy (memset r0.cdb 0 0 16) 0 sc.cmnd 0 sc.cmd_len }
    { sc with host_scribble := some rid.toNat } k hcnt hk
  simp only at hsg
  rw [hsg]
  simp only [ne_eq, not_true_eq_false, if_false, pqi_notify_device_queue_written]
  refine ⟨_, _, _, _, rfl, rfl, rfl, rfl, List.getElem?_set_self hlenq,
    List.getElem?_set_self (by simp only [List.length_set]; exact hlen1), rfl, ?_⟩
  intro h0
  exact ⟨hzero h0, hzero h0⟩

/-- C14 for the example command (five segments of 512, 1024, 2048, 4096 and
8192 bytes) submitted from CPU 0 on the example device: queue pair 1, ring
element at offset 0, request id 0, and transfer size 15872 both in the IU and
in the request slot. -/
theorem C14_transfer_size_witness :
    ∃ res iu qf slot,
      sop_queuecommand example_sop_h 1 0 (5 : Nat) example_iu example_device
        (List.replicate 3 (multi_element_response_pair 0)) (example_cmnd 0) = some res ∧
      res.rc = 0 ∧
      res.iu = some (1, 0, iu) ∧
      iu.xfer_size = 15872 ∧
      res.qinfo[1]? = some qf ∧
      qf.request[0]? = some slot ∧
      slot.xfer_size = 15872 ∧
      ((5 : Nat) = 0 → iu.xfer_size = 0 ∧ slot.xfer_size = 0) :=
  C14_transfer_size example_sop_h 1 0 5 example_iu example_device
    (List.replicate 3 (multi_element_response_pair 0)) (example_cmnd 0)
    (multi_element_response_pair 0) 0
    (pqi_alloc_elements (multi_element_response_pair 0).iq 1).2 0
    { multi_element_response_pair 0 with
      iq := (pqi_alloc_elements (multi_element_response_pair 0).iq 1).2
      request_bits := [true, true, false, false, false, false, false, false] }
    { waiting := none, scmd := some 0, xfer_size := 0, response_accumulated := 0,
      request_id := 0, response := List.replicate 64 0 }
    (by decide) (by decide) rfl rfl rfl (by decide) rfl (by decide) (by decide)

/-! ## C22 -/

/-- A failed DMA mapping (`scsi_dma_map` returns a negative value): the value
is returned and nothing is written. -/
theorem sop_scatter_gather_failed (P : sop_h) (use_sg : Int) (q : queue_info)
    (r : sop_limited_cmd_iu) (sc : scsi_cmnd) (x : Nat) (hcnt : sc.sg_count ≤ P.MAX_SGLS)
    (hfail : use_sg < 0) :
    sop_scatter_gather P use_sg q r sc x = some (use_sg, q, r, x) := by
  unfold sop_scatter_gather
  rw [if_neg (by omega), if_pos hfail]

/-- C22: when `scsi_dma_map` fails (`use_sg < 0`) for a command for logical
unit zero after `pqi_alloc_elements` has reserved the element at offset `p`
(leaving the ring `iq1`) and `alloc_request` has reserved the request id
`rid ≥ 0`, `sop_queuecommand` returns `SCSI_MLQUEUE_HOST_BUSY`; the reserved
element holds a null IU (the first four bytes, IU type, compatible features
and IU length, are 0); the request bitmap equals the bitmap before the call;
and the unposted index advanced by the reservation is written to the device
producer index register. -/
theorem C22_sg_failure_null_iu (P : sop_h) (fuel : Nat) (cpu use_sg : Int)
    (r0 : sop_limited_cmd_iu) (h : sop_device) (qinfo : List queue_info) (sc : scsi_cmnd)
    (q : queue_info) (p : Nat) (iq1 : pqi_device_queue) (rid : Int) (q1 : queue_info)
    (sopr0 : sop_request)
    (hlun : sc.channel = 0 ∧ sc.id = 0 ∧ sc.lun = 0)
    (hqi : 0 ≤ find_sop_queue h cpu)
    (hq : qinfo[(find_sop_queue h cpu).toNat]? = some q)
    (ha : pqi_alloc_elements q.iq 1 = (.ok p, iq1))
    (hr : alloc_request fuel h { q with iq := iq1 } = some (rid, q1))
    (hrid : 0 ≤ rid)
    (hslot : q1.request[rid.toNat]? = some sopr0)
    (hcnt : sc.sg_count ≤ P.MAX_SGLS) (hfail : use_sg < 0) :
    ∃ res iu qf, sop_queuecommand P fuel cpu use_sg r0 h qinfo sc = some res ∧
      res.rc = SCSI_MLQUEUE_HOST_BUSY ∧
      res.iu = some ((find_sop_queue h cpu).toNat, p, iu) ∧
      iu.iu_type = 0 ∧ iu.compatible_features = 0 ∧ iu.iu_length = 0 ∧
      res.qinfo[(find_sop_queue h cpu).toNat]? = some qf ∧
      qf.request_bits = q.request_bits ∧
      qf.iq.unposted_index = iq1.unposted_index ∧
      qf.iq.index_reg = iq1.unposted_index % 65536 := by
  have hlenq : (find_sop_queue h cpu).toNat < qinfo.length := by
    rcases Nat.lt_or_ge (find_sop_queue h cpu).toNat qinfo.length with h1 | h1
    · exact h1
    · rw [List.getElem?_eq_none h1] at hq; cases hq
  have hr0 := hr
  unfold alloc_request at hr0
  split_ifs at hr0 with hbug
  obtain ⟨i, hri, _, hlt, h16, hclr, hq1⟩ :=
    alloc_request_loop_ok fuel { q with iq := iq1 } q1 rid hr0 hrid
  have hu : to_u16 rid = i := by rw [hri]; unfold to_u16; omega
  unfold sop_queuecommand
  rw [if_neg (by simp [hlun])]
  simp only [hq, ha, hr, hslot, if_neg (not_lt.mpr hqi), if_neg (not_lt.mpr hrid)]
  have hsg := sop_scatter_gather_failed P use_sg
    { q1 with
      request := q1.request.set rid.toNat
        { sopr0 with xfer_size := 0, scmd := some sc.tag, waiting := none } }
    { r0 with
      iu_type := P.SOP_LIMITED_CMD_IU
      compatible_features := 0
      queue_id := to_u16 (find_sop_queue h cpu)
      work_area := 0
      request_id := to_u16 rid
      flags := sop_data_dir_flags P sc.sc_data_direction r0.flags
      cdb := memcpy (memset r0.cdb 0 0 16) 0 sc.cmnd 0 sc.cmd_len }
    { sc with host_scribble := some rid.toNat } 0 hcnt hfail
  simp only at hsg
  rw [hsg]
  simp only at hlt hclr
  have hge : ¬ i ≥ q.qdepth := by omega
  simp only [ne_eq, if_pos (ne_of_lt hfail), free_request, hu, hq1, if_neg hge,
    pqi_notify_device_queue_written]
  refine ⟨_, _, _, rfl, rfl, rfl, rfl, rfl, rfl, List.getElem?_set_self hlenq, ?_, rfl, rfl⟩
  exact clear_bit_set_of_getD _ _ hclr

/-- C22 for the example command submitted from CPU 0 on the example device
when `scsi_dma_map` returns `-12`: queue pair 1, element at offset 0, request
id 0; the call returns `SCSI_MLQUEUE_HOST_BUSY`, the element is a null IU, the
bitmap is the one before the call and the producer index register holds 1. -/
theorem C22_sg_failure_null_iu_witness :
    ∃ res iu qf,
      sop_queuecommand example_sop_h 1 0 (-12) example_iu example_device
        (List.replicate 3 (multi_element_response_pair 0)) (example_cmnd 0) = some res ∧
      res.rc = SCSI_MLQUEUE_HOST_BUSY ∧
      res.iu = some (1, 0, iu) ∧
      iu.iu_type = 0 ∧ iu.compatible_features = 0 ∧ iu.iu_length = 0 ∧
      res.qinfo[1]? = some qf ∧
      qf.request_bits = (multi_element_response_pair 0).request_bits ∧
      qf.iq.unposted_index = 1 ∧
      qf.iq.index_reg = 1 % 65536 :=
  C22_sg_failure_null_iu example_sop_h 1 0 (-12) example_iu example_device
    (List.replicate 3 (multi_element_response_pair 0)) (example_cmnd 0)
    (multi_element_response_pair 0) 0
    (pqi_alloc_elements (multi_element_response_pair 0).iq 1).2 0
    { multi_element_response_pair 0 with
      iq := (pqi_alloc_elements (multi_element_response_pair 0).iq 1).2
      request_bits := [true, true, false, false, false, false, false, false] }
    { waiting := none, scmd := some 0, xfer_size := 0, response_accumulated := 0,
      request_id := 0, response := List.replicate 64 0 }
    (by decide) (by decide) rfl rfl rfl (by decide) rfl (by decide) (by decide)

/-! ## C21 -/

/-- C21 (code defect): a command for logical unit zero submitted from CPU 0
when the inbound ring of the selected queue pair is full (4 elements,
`unposted_index = 3`, consumer index 0).  `pqi_alloc_elements` returns
`ERR_PTR(-ENOMEM)` and leaves the ring unchanged, but `sop_queuecommand` only
logs that: `alloc_request` still reserves request id 0 and the IU fields are
then stored through the error pointer, so the call does not return the
retry-later code `SCSI_MLQUEUE_HOST_BUSY` (it does not return at all). -/
theorem C21_full_ring_store_through_error_pointer :
    find_sop_queue example_device 0 = 1 ∧
      pqi_to_device_queue_is_full full_ring_pair.iq 1 = 1 ∧
      pqi_alloc_elements full_ring_pair.iq 1 = (.error (-ENOMEM), full_ring_pair.iq) ∧
      (alloc_request 1 example_device full_ring_pair).map (fun res => res.1) = some 0 ∧
      sop_queuecommand example_sop_h 1 0 5 example_iu example_device
        (List.replicate 3 full_ring_pair) (example_cmnd 0) = none := by
  exact ⟨by decide, by decide, rfl, rfl, rfl⟩

/-! ## C23 -/

/-- C23 (code defect): one submission whose DMA mapping fails
(`scsi_dma_map` returns `-12`) on a device with nothing in flight
(`curr_outstanding_commands = 0`, no request slot in use, empty rings).  The
call returns `SCSI_MLQUEUE_HOST_BUSY`, the element handed to the device is a
null IU and the request bitmap is all clear again, so no command is in
flight; but `pqi_notify_device_queue_written` has incremented
`curr_outstanding_commands` to 1, and the interrupt handler, which finds the
outbound ring empty, leaves it at 1. -/
theorem C23_failed_submission_leaks_outstanding_count :
    idle_device.curr_outstanding_commands = 0 ∧
      ∃ res qf, sop_queuecommand example_sop_h 1 0 (-12) example_iu idle_device
          (List.replicate 3 idle_pair) (example_cmnd 0) = some res ∧
        res.rc = SCSI_MLQUEUE_HOST_BUSY ∧
        res.iu.map (fun e => e.2.2.iu_type) = some 0 ∧
        res.qinfo[1]? = some qf ∧
        qf.request_bits = List.replicate 8 false ∧
        res.h.curr_outstanding_commands = 1 ∧
        (sop_ioq_msix_handler (-1) 1 res.h qf).map
          (fun s => s.1.curr_outstanding_commands) = some 1 := by
  refine ⟨rfl, _, _, rfl, rfl, rfl, rfl, rfl, rfl, rfl⟩

/-! ## C24 -/

/-- C24 (code defect): the outbound ring holds one complete response carrying
request id 2 while bit 2 of the request bitmap is clear (the slot is free; it
still holds the upper command of an earlier request).  The handler takes the
slot from the request id in the IU without looking at the bitmap, and
signals the completion of slot 2 to the upper layer. -/
theorem C24_handler_completes_free_slot :
    stale_response_pair.request_bits.getD 2 false = false ∧
      pqi_peek_request_id_from_device stale_response_pair.oq = 2 ∧
      ∃ h1 q1, sop_ioq_msix_handler (-1) 4 example_device stale_response_pair =
          some (h1, q1) ∧
        h1.signalled = [sop_event.scsi_done 2] ∧
        h1.curr_outstanding_commands = example_device.curr_outstanding_commands - 1 := by
  refine ⟨by decide, by decide, _, _, rfl, rfl, rfl⟩

/-! ## C27 -/

/-- C27: on a to-device ring with `2 ≤ N ≤ 65535` elements (`nelements` is a
`u16`) and indices `u, c < N` (so the read of the consumer index succeeds),
`pqi_alloc_elements(q, 1)` fails, with `ERR_PTR(-ENOMEM)` and the queue
unchanged, if and only if `(u + 1) mod N = c`; when it succeeds it returns
element `u`, writes nothing to the ring (no wrap padding) and the new unposted
index is `(u + 1) mod N`. -/
theorem C27_single_alloc_fails_iff_next_meets_consumer (q : pqi_device_queue)
    (hN2 : 2 ≤ q.nelements) (hN : q.nelements ≤ 65535)
    (hu : q.unposted_index < q.nelements) (hc : q.index_mem < q.nelements) :
    ((∃ e, (pqi_alloc_elements q 1).1 = .error e) ↔
        (q.unposted_index + 1) % q.nelements = q.index_mem) ∧
      ((q.unposted_index + 1) % q.nelements = q.index_mem →
        pqi_alloc_elements q 1 = (.error (-ENOMEM), q)) ∧
      ((q.unposted_index + 1) % q.nelements ≠ q.index_mem →
        (pqi_alloc_elements q 1).1 = .ok (q.unposted_index * q.element_size) ∧
        (pqi_alloc_elements q 1).2.vaddr = q.vaddr ∧
        (pqi_alloc_elements q 1).2.unposted_index = (q.unposted_index + 1) % q.nelements ∧
        (pqi_alloc_elements q 1).2 =
          { q with unposted_index := (q.unposted_index + 1) % q.nelements }) := by
  rw [pqi_alloc_elements_one q hN2 hN hu hc]
  by_cases hfull : (q.unposted_index + 1) % q.nelements = q.index_mem
  · rw [if_pos hfull]
    exact ⟨⟨fun _ => hfull, fun _ => ⟨_, rfl⟩⟩, fun _ => rfl, fun hne => absurd hfull hne⟩
  · rw [if_neg hfull]
    refine ⟨⟨fun ⟨e, he⟩ => ?_, fun hf => absurd hf hfull⟩, fun hf => absurd hf hfull,
      fun _ => ⟨rfl, rfl, rfl, rfl⟩⟩
    cases he

/-- C27 on a ring of 4 elements with `u = 2`, `c = 0`: the allocation succeeds
(`3 ≠ 0`), returns element 2 and moves the unposted index to 3. -/
theorem C27_single_alloc_fails_iff_next_meets_consumer_witness :
    ((∃ e, (pqi_alloc_elements (mk_queue 4 64 0 2 0) 1).1 = .error e) ↔
        (2 + 1) % 4 = 0) ∧
      ((2 + 1) % 4 = 0 →
        pqi_alloc_elements (mk_queue 4 64 0 2 0) 1 = (.error (-ENOMEM), mk_queue 4 64 0 2 0)) ∧
      ((2 + 1) % 4 ≠ 0 →
        (pqi_alloc_elements (mk_queue 4 64 0 2 0) 1).1 = .ok (2 * 64) ∧
        (pqi_alloc_elements (mk_queue 4 64 0 2 0) 1).2.vaddr = (mk_queue 4 64 0 2 0).vaddr ∧
        (pqi_alloc_elements (mk_queue 4 64 0 2 0) 1).2.unposted_index = (2 + 1) % 4 ∧
        (pqi_alloc_elements (mk_queue 4 64 0 2 0) 1).2 =
          { mk_queue 4 64 0 2 0 with unposted_index := (2 + 1) % 4 }) :=
  C27_single_alloc_fails_iff_next_meets_consumer (mk_queue 4 64 0 2 0)
    (by decide) (by decide) (by decide) (by decide)

/-! ## C28 -/

/-- C28: for every CPU id `cpu ≥ 0` and every `nr_queue_pairs ≥ 2`,
`find_sop_queue` returns an index between 1 and `nr_queue_pairs - 1`: never
the admin pair 0 and never an index past the last I/O queue pair. -/
theorem C28_queue_index_in_range (h : sop_device) (cpu : Int)
    (hcpu : 0 ≤ cpu) (hnr : 2 ≤ h.nr_queue_pairs) :
    1 ≤ find_sop_queue h cpu ∧ find_sop_queue h cpu ≤ h.nr_queue_pairs - 1 := by
  unfold find_sop_queue
  rw [Int.tmod_eq_emod hcpu (by omega)]
  have h2 : 0 ≤ cpu % (h.nr_queue_pairs - 1) := Int.emod_nonneg _ (by omega)
  have h3 : cpu % (h.nr_queue_pairs - 1) < h.nr_queue_pairs - 1 :=
    Int.emod_lt_of_pos _ (by omega)
  omega

/-- C28 on the example device (three queue pairs) and CPU 7: the index lies
between 1 and 2. -/
theorem C28_queue_index_in_range_witness :
    1 ≤ find_sop_queue example_device 7 ∧
      find_sop_queue example_device 7 ≤ example_device.nr_queue_pairs - 1 :=
  C28_queue_index_in_range example_device 7 (by decide) (by decide)

/-! ## C29 -/

/-- The overflow area that a successful `allocate_sgl_area` leaves has
`qdepth * MAX_SGLS` descriptors (when that product fits in an `int`); nothing
else of the queue pair changes but the bus address of the area. -/
theorem allocate_sgl_area_ok (P : sop_h) (q0 q : queue_info)
    (area : Option ((Nat → pqi_sgl_descriptor) × Nat))
    (hsize : q0.qdepth * P.MAX_SGLS < 2147483648)
    (hq : allocate_sgl_area P q0 area = (0, q)) :
    q.sg.length = q0.qdepth * P.MAX_SGLS ∧ q.qdepth = q0.qdepth := by
  have htot : sgl_area_total_size P q0 / 16 = q0.qdepth * P.MAX_SGLS := by
    unfold sgl_area_total_size to_s32
    have h1 : ((q0.qdepth : Int) * (P.MAX_SGLS : Int)) = ((q0.qdepth * P.MAX_SGLS : Nat) : Int) := by
      push_cast; rfl
    rw [h1]
    generalize q0.qdepth * P.MAX_SGLS = n at hsize
    have h2 : (n : Int) % 4294967296 = n := by omega
    rw [h2, if_pos (by omega)]
    omega
  unfold allocate_sgl_area at hq
  rcases area with _ | ⟨contents, bus⟩
  · simp only [Prod.mk.injEq] at hq
    have := hq.1
    simp [ENOMEM] at this
  · simp only [Prod.mk.injEq, true_and] at hq
    subst hq
    simp [htot]

/-- C29: on a queue pair whose overflow area was allocated by
`allocate_sgl_area` for depth `qdepth` (with `qdepth * MAX_SGLS` fitting in an
`int`), let `sop_scatter_gather` run for two requests with distinct ids
`ra, rb < qdepth` and `ka, kb` mapped segments, `3 ≤ k ≤ MAX_SGLS`.  Both calls
return 0; the call for request `r` with `k` segments stores `k - 1`
descriptors into the overflow entries `r * MAX_SGLS .. r * MAX_SGLS + (k - 2)`;
each of these index ranges lies inside the area of `qdepth * MAX_SGLS`
descriptors; the two ranges are disjoint; and an overflow entry changed by one
call is left unchanged by the other. -/
theorem C29_overflow_blocks_disjoint (P : sop_h) (q0 q : queue_info)
    (area : Option ((Nat → pqi_sgl_descriptor) × Nat))
    (ra rb : sop_limited_cmd_iu) (sca scb : scsi_cmnd) (xa xb ka kb : Nat)
    (hsize : q0.qdepth * P.MAX_SGLS < 2147483648)
    (hq : allocate_sgl_area P q0 area = (0, q))
    (hra : ra.request_id < q0.qdepth) (hrb : rb.request_id < q0.qdepth)
    (hne : ra.request_id ≠ rb.request_id)
    (hka3 : 3 ≤ ka) (hkam : ka ≤ P.MAX_SGLS) (hkb3 : 3 ≤ kb) (hkbm : kb ≤ P.MAX_SGLS)
    (hcnta : sca.sg_count ≤ P.MAX_SGLS) (hcntb : scb.sg_count ≤ P.MAX_SGLS)
    (hka : ka ≤ sca.sglist.length) (hkb : kb ≤ scb.sglist.length) :
    ∃ qa ra1 xa1 qb rb1 xb1 dsa dsb,
      q.sg.length = q0.qdepth * P.MAX_SGLS ∧
      sop_scatter_gather P ka q ra sca xa = some (0, qa, ra1, xa1) ∧
      sop_scatter_gather P kb q rb scb xb = some (0, qb, rb1, xb1) ∧
      qa.sg = sg_store_run q.sg (ra.request_id * P.MAX_SGLS) dsa ∧ dsa.length = ka - 1 ∧
      qb.sg = sg_store_run q.sg (rb.request_id * P.MAX_SGLS) dsb ∧ dsb.length = kb - 1 ∧
      ra.request_id * P.MAX_SGLS + (ka - 1) ≤ q0.qdepth * P.MAX_SGLS ∧
      rb.request_id * P.MAX_SGLS + (kb - 1) ≤ q0.qdepth * P.MAX_SGLS ∧
      (ra.request_id * P.MAX_SGLS + (ka - 1) ≤ rb.request_id * P.MAX_SGLS ∨
        rb.request_id * P.MAX_SGLS + (kb - 1) ≤ ra.request_id * P.MAX_SGLS) ∧
      (∀ i : Nat, qa.sg[i]? ≠ q.sg[i]? → qb.sg[i]? = q.sg[i]?) := by
  obtain ⟨hlen, _⟩ := allocate_sgl_area_ok P q0 q area hsize hq
  obtain ⟨a0, a1, arest, hatake, harest, _⟩ := take_three_or_more sca.sglist ka hka3 hka
  obtain ⟨b0, b1, brest, hbtake, hbrest, _⟩ := take_three_or_more scb.sglist kb hkb3 hkb
  have hma : (ra.request_id + 1) * P.MAX_SGLS = ra.request_id * P.MAX_SGLS + P.MAX_SGLS :=
    Nat.succ_mul _ _
  have hmb : (rb.request_id + 1) * P.MAX_SGLS = rb.request_id * P.MAX_SGLS + P.MAX_SGLS :=
    Nat.succ_mul _ _
  have hqa : (ra.request_id + 1) * P.MAX_SGLS ≤ q0.qdepth * P.MAX_SGLS :=
    Nat.mul_le_mul_right _ hra
  have hqb : (rb.request_id + 1) * P.MAX_SGLS ≤ q0.qdepth * P.MAX_SGLS :=
    Nat.mul_le_mul_right _ hrb
  have hdis : ra.request_id * P.MAX_SGLS + (ka - 1) ≤ rb.request_id * P.MAX_SGLS ∨
      rb.request_id * P.MAX_SGLS + (kb - 1) ≤ ra.request_id * P.MAX_SGLS := by
    rcases Nat.lt_or_gt_of_ne hne with hlt | hgt
    · left
      have : (ra.request_id + 1) * P.MAX_SGLS ≤ rb.request_id * P.MAX_SGLS :=
        Nat.mul_le_mul_right _ hlt
      omega
    · right
      have : (rb.request_id + 1) * P.MAX_SGLS ≤ ra.request_id * P.MAX_SGLS :=
        Nat.mul_le_mul_right _ hgt
      omega
  have hla : ((a1 :: arest).map (sg_data_descriptor P)).length = ka - 1 := by
    simp only [List.length_map, List.length_cons, harest]; omega
  have hlb : ((b1 :: brest).map (sg_data_descriptor P)).length = kb - 1 := by
    simp only [List.length_map, List.length_cons, hbrest]; omega
  refine ⟨_, _, _, _, _, _, (a1 :: arest).map (sg_data_descriptor P),
    (b1 :: brest).map (sg_data_descriptor P), hlen,
    sop_scatter_gather_chained P q ra sca xa ka a0 a1 arest hka3 hcnta hatake,
    sop_scatter_gather_chained P q rb scb xb kb b0 b1 brest hkb3 hcntb hbtake,
    rfl, hla, rfl, hlb, by omega, by omega, hdis, ?_⟩
  intro i hi
  simp only at hi ⊢
  rw [sg_store_run_getElem?] at hi ⊢
  rw [hla] at hi
  rw [hlb]
  by_cases hin : ra.request_id * P.MAX_SGLS ≤ i ∧ i < ra.request_id * P.MAX_SGLS + (ka - 1) ∧
      i < q.sg.length
  · rw [if_neg (by omega)]
  · rw [if_neg hin] at hi
    exact absurd rfl hi

/-- C29 on the example queue pair (depth 4, `MAX_SGLS = 8`, area of 32
descriptors) for the requests 1 and 2 with five and three mapped segments:
the calls write the overflow entries 8..11 and 16..17. -/
theorem C29_overflow_blocks_disjoint_witness :
    ∃ qa ra1 xa1 qb rb1 xb1 dsa dsb,
      (allocate_sgl_area example_sop_h (multi_element_response_pair 0)
        (some (fun _ => ⟨0, 0, 0⟩, 0x10000))).2.sg.length = 4 * 8 ∧
      sop_scatter_gather example_sop_h (5 : Nat)
        (allocate_sgl_area example_sop_h (multi_element_response_pair 0)
          (some (fun _ => ⟨0, 0, 0⟩, 0x10000))).2
        { example_iu with request_id := 1 } (example_cmnd 0) 0 = some (0, qa, ra1, xa1) ∧
      sop_scatter_gather example_sop_h (3 : Nat)
        (allocate_sgl_area example_sop_h (multi_element_response_pair 0)
          (some (fun _ => ⟨0, 0, 0⟩, 0x10000))).2
        { example_iu with request_id := 2 } (example_cmnd 0) 0 = some (0, qb, rb1, xb1) ∧
      qa.sg = sg_store_run
        (allocate_sgl_area example_sop_h (multi_element_response_pair 0)
          (some (fun _ => ⟨0, 0, 0⟩, 0x10000))).2.sg (1 * 8) dsa ∧
      dsa.length = 5 - 1 ∧
      qb.sg = sg_store_run
        (allocate_sgl_area example_sop_h (multi_element_response_pair 0)
          (some (fun _ => ⟨0, 0, 0⟩, 0x10000))).2.sg (2 * 8) dsb ∧
      dsb.length = 3 - 1 ∧
      1 * 8 + (5 - 1) ≤ 4 * 8 ∧
      2 * 8 + (3 - 1) ≤ 4 * 8 ∧
      (1 * 8 + (5 - 1) ≤ 2 * 8 ∨ 2 * 8 + (3 - 1) ≤ 1 * 8) ∧
      (∀ i : Nat, qa.sg[i]? ≠
          (allocate_sgl_area example_sop_h (multi_element_response_pair 0)
            (some (fun _ => ⟨0, 0, 0⟩, 0x10000))).2.sg[i]? →
        qb.sg[i]? =
          (allocate_sgl_area example_sop_h (multi_element_response_pair 0)
            (some (fun _ => ⟨0, 0, 0⟩, 0x10000))).2.sg[i]?) :=
  C29_overflow_blocks_disjoint example_sop_h (multi_element_response_pair 0)
    (allocate_sgl_area example_sop_h (multi_element_response_pair 0)
      (some (fun _ => ⟨0, 0, 0⟩, 0x10000))).2
    (some (fun _ => ⟨0, 0, 0⟩, 0x10000))
    { example_iu with request_id := 1 } { example_iu with request_id := 2 }
    (example_cmnd 0) (example_cmnd 0) 0 0 5 3
    (by decide) rfl (by decide) (by decide) (by decide) (by decide) (by decide)
    (by decide) (by decide) (by decide) (by decide) (by decide) (by decide)

/-! ## C26 -/

/-- C26 (code defect): a capability register that limits the admin inbound
queue to 32 and the admin outbound queue to 16 elements (element length 4,
i.e. 64 bytes).  `sop_alloc_admin_queues` allocates rings of 32 and 16
elements, but the parameter word that `sop_create_admin_queues` writes holds
the constant `ADMIN_QUEUE_ELEMENT_COUNT = 64` in bits 7:0 and in bits 15:8
(and vector 0 in bits 31:16): it does not encode the allocated counts. -/
theorem C26_param_word_ignores_allocated_counts :
    (∃ cap iq oq,
        sop_alloc_admin_queues example_capability_view 0x4745524420495150 0x04041020
          (some (List.replicate (16 * 64 + 8) 0)) (some (List.replicate (32 * 64 + 8) 0)) =
          (0, some cap, some iq, some oq) ∧
        iq.nelements = 32 ∧ oq.nelements = 16) ∧
      sop_create_admin_queues_param &&& 0xff = 64 ∧
      (sop_create_admin_queues_param >>> 8) &&& 0xff = 64 ∧
      sop_create_admin_queues_param >>> 16 = 0 := by
  refine ⟨⟨_, _, _, rfl, rfl, rfl⟩, by decide, by decide, by decide⟩

/-! ## C25 -/

/-- The loop of `wait_for_admin_command_ack` returns after at most
`ADMIN_SLEEP_INTERATIONS - count` further reads, whatever the device does. -/
theorem wait_for_admin_command_ack_loop_bounded (dev : Nat → pqi_registers) :
    ∀ (fuel t count : Nat), count < 1000 → 1000 ≤ fuel + count →
      ∃ rc t1, wait_for_admin_command_ack_loop dev fuel t count = some (rc, t1) ∧
        t1 + count ≤ t + 1000 := by
  intro fuel
  induction fuel with
  | zero => intro t count h1 h2; omega
  | succ fuel ih =>
    intro t count h1 h2
    unfold wait_for_admin_command_ack_loop
    rcases safe_readq (dev t).signature (dev t).process_admin_function with ⟨rc, paf⟩
    simp only [ADMIN_SLEEP_INTERATIONS]
    split_ifs with hrc hfs hcnt
    · exact ⟨_, _, rfl, by omega⟩
    · exact ⟨_, _, rfl, by omega⟩
    · obtain ⟨rc1, t1, h3, h4⟩ := ih (t + 1) (count + 1) hcnt (by omega)
      exact ⟨rc1, t1, h3, by omega⟩
    · exact ⟨_, _, rfl, by omega⟩

/-- The loop of `wait_for_admin_queues_to_become_idle` returns after at most
`tmo_count - i` further passes, whatever the device does. -/
theorem wait_for_admin_queues_to_become_idle_loop_bounded (PQI_IDLE : Nat)
    (dev : Nat → pqi_registers) (tmo_count : Int) (device_state : Nat) :
    ∀ (fuel t i : Nat), i ≤ tmo_count.toNat → tmo_count.toNat < fuel + i →
      ∃ rc t1, wait_for_admin_queues_to_become_idle_loop PQI_IDLE dev tmo_count device_state
          fuel t i = some (rc, t1) ∧ t1 + i ≤ t + tmo_count.toNat := by
  intro fuel
  induction fuel with
  | zero => intro t i h1 h2; omega
  | succ fuel ih =>
    intro t i h1 h2
    unfold wait_for_admin_queues_to_become_idle_loop
    rcases safe_readq (dev t).signature (dev t).process_admin_function with ⟨rc, paf⟩
    rcases safe_readl (dev t).signature (dev t).pqi_device_status with ⟨rc2, status⟩
    simp only
    split_ifs with hi hrc hrc2 hidle
    · exact ⟨_, _, rfl, by omega⟩
    · exact ⟨_, _, rfl, by omega⟩
    · exact ⟨_, _, rfl, by omega⟩
    · obtain ⟨rc1, t1, h3, h4⟩ := ih (t + 1) (i + 1) (by omega) (by omega)
      exact ⟨rc1, t1, h3, by omega⟩
    · exact ⟨_, _, rfl, by omega⟩

/-- The loop of `sop_wait_for_host_reset_ack` returns after at most
`m - count` further reads of the reset register, for every bound `m ≥ 1` with
`tmo_iter ≤ m`, whatever the device does. -/
theorem sop_wait_for_host_reset_ack_loop_bounded (dev : Nat → pqi_registers)
    (tmo_iter : Int) (m : Nat) (hm : tmo_iter ≤ m) :
    ∀ (fuel t count : Nat), count < m → m ≤ fuel + count →
      ∃ rc t1, sop_wait_for_host_reset_ack_loop dev tmo_iter fuel t count = some (rc, t1) ∧
        t1 + count ≤ t + m := by
  intro fuel
  induction fuel with
  | zero => intro t count h1 h2; omega
  | succ fuel ih =>
    intro t count h1 h2
    unfold sop_wait_for_host_reset_ack_loop
    simp only
    split_ifs with hdone hcnt
    · exact ⟨_, _, rfl, by omega⟩
    · obtain ⟨rc1, t1, h3, h4⟩ := ih (t + 1) (count + 1) (by push_cast at hcnt; omega) (by omega)
      exact ⟨rc1, t1, h3, by omega⟩
    · exact ⟨_, _, rfl, by omega⟩

/-- On a device that never reports `PQI_READY_FOR_ADMIN_FUNCTION`, the second
loop of `sop_init_time_host_reset` is still running after any number of
passes. -/
theorem sop_init_time_host_reset_loop_never_ready (R I : Nat) :
    ∀ (fuel t : Nat),
      sop_init_time_host_reset_loop R I (reset_acknowledged_never_ready R) fuel t = none := by
  intro fuel
  induction fuel with
  | zero => intro t; rfl
  | succ fuel ih =>
    intro t
    have hq : safe_readq (reset_acknowledged_never_ready R t).signature
        (reset_acknowledged_never_ready R t).process_admin_function = (0, 0) := rfl
    have hl : safe_readl (reset_acknowledged_never_ready R t).signature
        (reset_acknowledged_never_ready R t).pqi_device_status = (0, (R + 1) % 256) := by
      unfold safe_readl reset_acknowledged_never_ready
      have h1 : (R + 1) % 256 % 4294967296 = (R + 1) % 256 := by omega
      simp only [h1]
      rw [if_neg (by omega)]
    unfold sop_init_time_host_reset_loop
    rw [hq, hl]
    simp only [ne_eq, not_true_eq_false, if_false]
    rw [if_pos (Or.inl (by omega))]
    exact ih (t + 1)

/-- A device that acknowledges the reset at once: `sop_wait_for_host_reset_ack`
returns 0 after one read of the reset register. -/
theorem sop_wait_for_host_reset_ack_at_once (R fuel : Nat) :
    sop_wait_for_host_reset_ack (fuel + 1) (reset_acknowledged_never_ready R) 0
      ADMIN_RESET_TMO_MS = some (0, 1) := by
  unfold sop_wait_for_host_reset_ack sop_wait_for_host_reset_ack_loop
  simp only [reset_acknowledged_never_ready]
  rw [if_pos (by decide)]

/-- C25 (code defect): the three counted polling loops are bounded for every
device behaviour: `wait_for_admin_command_ack` returns after at most 1000
reads, `wait_for_admin_queues_to_become_idle` with the 100 ms budget after at
most 1000 passes, and `sop_wait_for_host_reset_ack` with the 3000 ms budget
after at most 30000 reads.  `sop_init_time_host_reset` is not: on a device
that acknowledges the reset at the first read but never reports
`PQI_READY_FOR_ADMIN_FUNCTION`, its second loop, which has no counter, is
still running after any number `fuel` of passes. -/
theorem C25_host_reset_wait_is_unbounded (R I fuel : Nat) :
    (∀ dev : Nat → pqi_registers, ∃ rc n,
        wait_for_admin_command_ack 1000 dev 0 = some (rc, n) ∧ n ≤ 1000) ∧
      (∀ (dev : Nat → pqi_registers) (device_state : Nat), ∃ rc n,
        wait_for_admin_queues_to_become_idle I 1001 dev 0 ADMIN_SLEEP_TMO_MS device_state =
          some (rc, n) ∧ n ≤ 10 * 100) ∧
      (∀ dev : Nat → pqi_registers, ∃ rc n,
        sop_wait_for_host_reset_ack 30000 dev 0 ADMIN_RESET_TMO_MS = some (rc, n) ∧
          n ≤ 10 * 3000) ∧
      sop_wait_for_host_reset_ack (fuel + 1) (reset_acknowledged_never_ready R) 0
        ADMIN_RESET_TMO_MS = some (0, 1) ∧
      sop_init_time_host_reset R I fuel (reset_acknowledged_never_ready R) = none := by
  have htmo1 : to_s32 (ADMIN_SLEEP_TMO_MS * 10) = 1000 := by decide
  have htmo2 : to_s32 (ADMIN_RESET_TMO_MS * 10) = 30000 := by decide
  refine ⟨?_, ?_, ?_, sop_wait_for_host_reset_ack_at_once R fuel, ?_⟩
  · intro dev
    obtain ⟨rc, n, h1, h2⟩ :=
      wait_for_admin_command_ack_loop_bounded dev 1000 0 0 (by omega) (by omega)
    exact ⟨rc, n, h1, by omega⟩
  · intro dev device_state
    unfold wait_for_admin_queues_to_become_idle
    rw [htmo1]
    obtain ⟨rc, n, h1, h2⟩ := wait_for_admin_queues_to_become_idle_loop_bounded I dev 1000
      device_state 1001 0 0 (by decide) (by decide)
    exact ⟨rc, n, h1, by simpa using h2⟩
  · intro dev
    unfold sop_wait_for_host_reset_ack
    rw [htmo2]
    obtain ⟨rc, n, h1, h2⟩ := sop_wait_for_host_reset_ack_loop_bounded dev 30000 30000
      (by decide) 30000 0 0 (by omega) (by omega)
    exact ⟨rc, n, h1, by omega⟩
  · cases fuel with
    | zero => rfl
    | succ fuel =>
      unfold sop_init_time_host_reset
      rw [sop_wait_for_host_reset_ack_at_once R fuel]
      simp only [ne_eq, not_true_eq_false, if_false]
      exact sop_init_time_host_reset_loop_never_ready R I (fuel + 1) 1

/-! ## C30 -/

/-- C30 (code defect): `sop_get_pqi_device_capabilities` on an idle admin queue
pair (`DRIVER_MAX_IQ_NELEMENTS = DRIVER_MAX_OQ_NELEMENTS = 64`,
`aq->queue_id = 0`).  When the DMA mapping of the capability buffer fails the
function returns 0, and when the response status byte is 1 it returns 0 as
well: `rc` is still 0 at `goto error` on both paths.  When the request pool
is exhausted, `alloc_request` returns `-EBUSY = -16`, which never equals
`(u16) -EBUSY = 65520`; the failure goes unnoticed and the call does not
return an error code (it goes on with slot 65520). -/
theorem C30_capability_errors_return_zero :
    (sop_get_pqi_device_capabilities 64 64 1
        { buffer_allocated := true, dma_mapping_error := true, resp_status := 0,
          buffer := ⟨64, 64⟩ } 0 idle_device [idle_pair]).map (fun res => res.1) = some 0 ∧
      (sop_get_pqi_device_capabilities 64 64 1
        { buffer_allocated := true, dma_mapping_error := false, resp_status := 1,
          buffer := ⟨64, 64⟩ } 0 idle_device [idle_pair]).map (fun res => res.1) = some 0 ∧
      (alloc_request 1 { idle_device with elements_per_io_queue := 64 }
          { example_admin_pair [true, true, true, false] with
            iq := (pqi_alloc_elements (example_admin_pair [true, true, true, false]).iq 1).2 }
        ).map (fun res => res.1) = some (-EBUSY) ∧
      (-EBUSY ≠ (to_u16 (-EBUSY) : Int)) ∧
      sop_get_pqi_device_capabilities 64 64 1
        { buffer_allocated := true, dma_mapping_error := false, resp_status := 0,
          buffer := ⟨64, 64⟩ } 0 idle_device [example_admin_pair [true, true, true, false]] =
        none := by
  exact ⟨rfl, rfl, rfl, by decide, rfl⟩

end Sop
